import Mathlib

/-!
GameLift Go server SDK 5.2.0: transport and session core.

A shallow embedding of the request/response core of the SDK
(`common/errors.go`, `model/message/message.go`,
`server/internal/websocket_client.go`, `server/internal/gamelift_manager.go`,
`server/internal/transport/websocket.go`, `server/internal/transport/retry.go`)
together with theorems about it.

Conventions of the embedding.

* A Go `[]byte` is `Option (List UInt8)`; `none` is the nil slice.
* A Go `error` is `Option GoError`; `none` is the nil error.
* A Go map is an association list handled only through `mapGet`, `mapSet`
  and `mapDelete`.
* A channel handed to the client is a `ChanId`; what the client does to it
  (send, close) is appended to the event log of the client, as are the calls
  of async handlers and of the transport.
* Logging calls are not part of the model.
* Results of collaborators that are interfaces in the source (the transport
  of the client, the socket and the dialer of the transport, `encoding/json`)
  are supplied by the caller of the model function.
-/

namespace GameLift

/-! ## common/errors.go -/

/-- The enumeration `GameLiftErrorType`, in the order of the `iota` block. -/
inductive GameLiftErrorType
  | AlreadyInitialized
  | FleetMismatch
  | GameLiftClientNotInitialized
  | GameLiftServerNotInitialized
  | GameSessionEndedFailed
  | GameSessionNotReady
  | GameSessionReadyFailed
  | GamesessionIDNotSet
  | InitializationMismatch
  | NotInitialized
  | NoTargetAliasIDSet
  | NoTargetFleetSet
  | ProcessEndingFailed
  | ProcessNotActive
  | ProcessNotReady
  | ProcessReadyFailed
  | SdkVersionDetectionFailed
  | ServiceCallFailed
  | UnexpectedPlayerSession
  | LocalConnectionFailed
  | NetworkNotInitialized
  | TerminationTimeNotSet
  | BadRequestException
  | InternalServiceException
  | WebsocketConnectFailure
  | WebsocketRetriableSendMessageFailure
  | WebsocketSendMessageFailure
  | WebsocketClosingError
  deriving DecidableEq

/-- The struct `GameLiftError`: an error type with the embedded
`errorDescription` (name and message overrides; empty means catalogue
default). -/
structure GameLiftError where
  ErrorType : GameLiftErrorType
  name : String
  message : String
  deriving DecidableEq

/-- A non-nil Go `error` value. `gameLift` is a `*GameLiftError`;
`closeError` is a `*websocket.CloseError` with its close code and the text
of its `Error()`; `other` is any other error, carrying the text of its
`Error()`. -/
inductive GoError
  | gameLift (e : GameLiftError)
  | closeError (code : Int) (text : String)
  | other (text : String)
  deriving DecidableEq

/-- The numeric value of an error type (`iota`), as printed by `%d`. -/
def GameLiftErrorType.toNat : GameLiftErrorType → Nat
  | AlreadyInitialized => 0
  | FleetMismatch => 1
  | GameLiftClientNotInitialized => 2
  | GameLiftServerNotInitialized => 3
  | GameSessionEndedFailed => 4
  | GameSessionNotReady => 5
  | GameSessionReadyFailed => 6
  | GamesessionIDNotSet => 7
  | InitializationMismatch => 8
  | NotInitialized => 9
  | NoTargetAliasIDSet => 10
  | NoTargetFleetSet => 11
  | ProcessEndingFailed => 12
  | ProcessNotActive => 13
  | ProcessNotReady => 14
  | ProcessReadyFailed => 15
  | SdkVersionDetectionFailed => 16
  | ServiceCallFailed => 17
  | UnexpectedPlayerSession => 18
  | LocalConnectionFailed => 19
  | NetworkNotInitialized => 20
  | TerminationTimeNotSet => 21
  | BadRequestException => 22
  | InternalServiceException => 23
  | WebsocketConnectFailure => 24
  | WebsocketRetriableSendMessageFailure => 25
  | WebsocketSendMessageFailure => 26
  | WebsocketClosingError => 27

/-- The struct `errorDescription`. -/
structure errorDescription where
  name : String
  message : String
  deriving DecidableEq

/-- The read-only map `errorMessages`, as a lookup. -/
def errorMessages : GameLiftErrorType → Option errorDescription
  | GameLiftErrorType.AlreadyInitialized => some
    { name := "Already Initialized",
      message := "GameLift has already been initialized. You must call destroy() before reinitializing the client or server." }
  | GameLiftErrorType.FleetMismatch => some
    { name := "Fleet mismatch.",
      message := "The Target fleet does not match the request fleet. " ++
        "Make sure GameSessions and PlayerSessions belong to your target fleet." }
  | GameLiftErrorType.GameLiftClientNotInitialized => some
    { name := "GameLift client not initialized.",
      message := "The GameLift client has not been initialized. Please call SetTargetFleet or SetTArgetAliasId." }
  | GameLiftErrorType.GameLiftServerNotInitialized => some
    { name := "GameLift server not initialized.",
      message := "The GameLift server has not been initialized. Please call InitSDK." }
  | GameLiftErrorType.GameSessionEndedFailed => some
    { name := "Game session failed.",
      message := "The GameSessionEnded invocation failed." }
  | GameLiftErrorType.GameSessionNotReady => some
    { name := "Game session not activated.",
      message := "The Game session associated with this server was not activated." }
  | GameLiftErrorType.GameSessionReadyFailed => some
    { name := "Game session failed.",
      message := "The GameSessionReady invocation failed." }
  | GameLiftErrorType.GamesessionIDNotSet => some
    { name := "GameSession id is not set.",
      message := "No game sessions are bound to this process." }
  | GameLiftErrorType.InitializationMismatch => some
    { name := "Initialization mismatch.",
      message := "The current call does not match the initialization state. " ++
        "Client calls require a call to Client::Initialize(), and Server calls require Server::Initialize(). " ++
        "Only one may be active at a time." }
  | GameLiftErrorType.NotInitialized => some
    { name := "Not Initialized",
      message := "GameLift has not been initialized! You must call Client::Initialize() or Server::InitSDK() before making GameLift calls." }
  | GameLiftErrorType.NoTargetAliasIDSet => some
    { name := "No target aliasId set.",
      message := "The aliasId has not been set. Clients should call SetTargetAliasId() before making calls that require an alias." }
  | GameLiftErrorType.NoTargetFleetSet => some
    { name := "No target fleet set.",
      message := "The target fleet has not been set. Clients should call SetTargetFleet() before making calls that require a fleet." }
  | GameLiftErrorType.ProcessEndingFailed => some
    { name := "Process ending failed.",
      message := "processEnding call to GameLift failed." }
  | GameLiftErrorType.ProcessNotActive => some
    { name := "Process not activated.",
      message := "The process has not yet been activated." }
  | GameLiftErrorType.ProcessNotReady => some
    { name := "Process not ready.",
      message := "The process has not yet been activated by calling ProcessReady(). " ++
        "Processes in standby cannot receive StartGameSession callbacks." }
  | GameLiftErrorType.ProcessReadyFailed => some
    { name := "Process ready failed.",
      message := "ProcessReady call to GameLift failed." }
  | GameLiftErrorType.SdkVersionDetectionFailed => some
    { name := "Could not detect SDK version.",
      message := "Could not detect SDK version." }
  | GameLiftErrorType.ServiceCallFailed => some
    { name := "Service call failed.",
      message := "An AWS service call has failed. See the root cause error for more information." }
  | GameLiftErrorType.UnexpectedPlayerSession => some
    { name := "Unexpected player session.",
      message := "The player session was not expected by the server. " ++
        "Clients wishing to connect to a server must obtain a PlayerSessionID from GameLift " ++
        "by creating a player session on the desired server's game instance." }
  | GameLiftErrorType.LocalConnectionFailed => some
    { name := "Local connection failed.",
      message := "Connection to local agent could not be established." }
  | GameLiftErrorType.NetworkNotInitialized => some
    { name := "Network not initialized.",
      message := "Local network was not initialized. Have you called InitSDK()?" }
  | GameLiftErrorType.TerminationTimeNotSet => some
    { name := "TerminationTime is not set.",
      message := "TerminationTime has not been sent to this process." }
  | GameLiftErrorType.BadRequestException => some
    { name := "Bad request exception.",
      message := "Bad request exception." }
  | GameLiftErrorType.InternalServiceException => some
    { name := "Internal service exception.",
      message := "Internal service exception." }
  | GameLiftErrorType.WebsocketConnectFailure => some
    { name := "WebSocket Connection Failed",
      message := "Connection to the GameLift Service WebSocket has failed" }
  | GameLiftErrorType.WebsocketRetriableSendMessageFailure => some
    { name := "WebSocket Send Message Failed",
      message := "Sending Message to the GameLift Service WebSocket has failed" }
  | GameLiftErrorType.WebsocketSendMessageFailure => some
    { name := "WebSocket Send Message Failed",
      message := "Sending Message to the GameLift Service WebSocket has failed" }
  | GameLiftErrorType.WebsocketClosingError => some
    { name := "WebSocket close error",
      message := "An error has occurred in closing the connection" }

/-- The method `getMessageOrDefaultForErrorType`. -/
def GameLiftError.getMessageOrDefaultForErrorType (e : GameLiftError) : String :=
  if e.message ≠ "" then e.message
  else
    match errorMessages e.ErrorType with
    | some description => description.message
    | none => "An unexpected error has occurred."

/-- The method `getNameOrDefaultForErrorType`. -/
def GameLiftError.getNameOrDefaultForErrorType (e : GameLiftError) : String :=
  if e.name ≠ "" then e.name
  else
    match errorMessages e.ErrorType with
    | some description => description.name
    | none => "Unknown Error"

/-- The method `Error` of `*GameLiftError`. -/
def GameLiftError.Error (e : GameLiftError) : String :=
  "[GameLiftError: ErrorType=\x7b" ++ toString e.ErrorType.toNat ++
    "\x7d, ErrorName=\x7b" ++ e.getNameOrDefaultForErrorType ++
    "\x7d, ErrorMessage=\x7b" ++ e.getMessageOrDefaultForErrorType ++ "\x7d]"

/-- The method `Error` of the `error` interface: for a foreign error the
text it carries. -/
def GoError.Error : GoError → String
  | GoError.gameLift e => e.Error
  | GoError.closeError _ text => text
  | GoError.other text => text

/-- The function `NewGameLiftError`. -/
def NewGameLiftError (errorType : GameLiftErrorType) (name message : String) : GoError :=
  GoError.gameLift { ErrorType := errorType, name := name, message := message }

/-- The function `getErrorTypeForStatusCode`; `http.StatusBadRequest` is 400
and `http.StatusInternalServerError` is 500. -/
def getErrorTypeForStatusCode (statusCode : Int) : GameLiftErrorType :=
  if statusCode ≥ 400 ∧ statusCode < 500 then
    GameLiftErrorType.BadRequestException
  else
    GameLiftErrorType.InternalServiceException

/-- The function `NewGameLiftErrorFromStatusCode`. -/
def NewGameLiftErrorFromStatusCode (statusCode : Int) (errorMessage : String) : GoError :=
  NewGameLiftError (getErrorTypeForStatusCode statusCode) "" errorMessage

/-- The kind of an error value: the `ErrorType` of a `*GameLiftError`,
nothing for a foreign error. -/
def GoError.kind : GoError → Option GameLiftErrorType
  | GoError.gameLift e => some e.ErrorType
  | _ => none

/-! ## model/message/message.go, common/outcome.go -/

/-- The type `MessageAction` (a string). -/
abbrev MessageAction := String

/-- The struct `Message`. -/
structure Message where
  Action : MessageAction
  RequestID : String
  deriving DecidableEq

/-- The struct `ResponseMessage`: an embedded `Message` plus status. A field
absent from the decoded JSON keeps its zero value (`""`, `0`). -/
structure ResponseMessage extends Message where
  StatusCode : Int
  ErrorMessage : String
  deriving DecidableEq

/-- The struct `Outcome`. -/
structure Outcome where
  Data : Option (List UInt8)
  Error : Option GoError
  deriving DecidableEq

/-! ## Go maps -/

/-- Map lookup `m[k]` with the comma-ok result. -/
def mapGet {κ ν : Type} [DecidableEq κ] : List (κ × ν) → κ → Option ν
  | [], _ => none
  | (k1, v) :: rest, k => if k1 = k then some v else mapGet rest k

/-- The builtin `delete(m, k)`. -/
def mapDelete {κ ν : Type} [DecidableEq κ] (m : List (κ × ν)) (k : κ) : List (κ × ν) :=
  m.filter (fun e => decide (e.1 ≠ k))

/-- Map assignment `m[k] = v`. -/
def mapSet {κ ν : Type} [DecidableEq κ] (m : List (κ × ν)) (k : κ) (v : ν) : List (κ × ν) :=
  (k, v) :: mapDelete m k

/-! ## encoding/json -/

/-- The call `json.Unmarshal(data, &v)`: `dec` is the decoder for the target
type on non-empty input; nil and empty input are rejected by the library
("unexpected end of JSON input"). `none` stands for a non-nil error. -/
def jsonUnmarshal {ρ : Type} (dec : List UInt8 → Option ρ) (data : Option (List UInt8)) : Option ρ :=
  match data with
  | none => none
  | some bs => if bs = [] then none else dec bs

/-! ## server/internal/websocket_client.go -/

/-- Identity of a response channel `chan<- common.Outcome`. -/
abbrev ChanId := Nat

/-- Identity of an async handler `func([]byte)`. -/
abbrev HandlerId := Nat

/-- What the client does to the outside: channel operations, handler calls
and transport calls. -/
inductive Event
  | chanSend (ch : ChanId) (o : Outcome)
  | chanClose (ch : ChanId)
  | handlerCall (h : HandlerId) (data : Option (List UInt8))
  | transportWrite (data : List UInt8)
  | transportClose
  deriving DecidableEq

/-- The struct `websocketClient`: the two tables, and the log of the events
performed so far. -/
structure websocketClient where
  responses : List (String × ChanId)
  asyncHandlers : List (MessageAction × HandlerId)
  events : List Event
  deriving DecidableEq

/-- The method `init`: empty tables. -/
def websocketClient.init : websocketClient :=
  { responses := [], asyncHandlers := [], events := [] }

/-- Results of the collaborators of one `SendMessage` call: `json.Marshal`
(the error text, or the bytes) and `iTransport.Write`. -/
structure SendEnv where
  marshalled : Except String (List UInt8)
  written : Option GoError

/-- The method `storeResponse`. -/
def websocketClient.storeResponse (c : websocketClient) (requestID : String) (resp : ChanId) :
    websocketClient × Option GoError :=
  match mapGet c.responses requestID with
  | some _ => (c, some (NewGameLiftError GameLiftErrorType.InternalServiceException "" ""))
  | none => ({ c with responses := mapSet c.responses requestID resp }, none)

/-- The method `sendResponse`. -/
def websocketClient.sendResponse (c : websocketClient) (requestID : String)
    (data : Option (List UInt8)) (err : Option GoError) : websocketClient :=
  match mapGet c.responses requestID with
  | none => c
  | some resp =>
    let c1 :=
      if data ≠ none then
        { c with events := c.events ++ [Event.chanSend resp { Data := data, Error := err }] }
      else c
    let c2 := { c1 with events := c1.events ++ [Event.chanClose resp] }
    { c2 with responses := mapDelete c2.responses requestID }

/-- The method `SendMessage`. -/
def websocketClient.SendMessage (c : websocketClient)
    (env : SendEnv) : websocketClient × Option GoError :=
  match env.marshalled with
  | Except.error e =>
    (c, some (NewGameLiftError GameLiftErrorType.ServiceCallFailed "Failed serialize data" e))
  | Except.ok data =>
    let c1 := { c with events := c.events ++ [Event.transportWrite data] }
    match env.written with
    | some err =>
      (c1, some (NewGameLiftError GameLiftErrorType.ServiceCallFailed "Failed write data"
        err.Error))
    | none => (c1, none)

/-- The method `SendRequest`; `req` is `req.GetMessage()`, `resp = none` is
the nil channel. -/
def websocketClient.SendRequest (c : websocketClient)
    (req : Message) (resp : Option ChanId) (env : SendEnv) : websocketClient × Option GoError :=
  match resp with
  | none =>
    (c, some (NewGameLiftError GameLiftErrorType.BadRequestException "" "invalid input parameters"))
  | some ch =>
    if req.RequestID = "" then
      (c, some (NewGameLiftError GameLiftErrorType.BadRequestException "" "empty RequestID"))
    else
      match c.storeResponse req.RequestID ch with
      | (c1, some err) => (c1, some err)
      | (c1, none) =>
        match c1.SendMessage env with
        | (c2, some err) => (c2.sendResponse req.RequestID none (some err), some err)
        | (c2, none) => (c2, none)

/-- The method `AddHandler`. -/
def websocketClient.AddHandler (c : websocketClient) (action : MessageAction) (handler : HandlerId) :
    websocketClient :=
  { c with asyncHandlers := mapSet c.asyncHandlers action handler }

/-- The method `CancelRequest`. -/
def websocketClient.CancelRequest (c : websocketClient) (requestID : String) : websocketClient :=
  c.sendResponse requestID none none

/-- The loop of `Close` over the entries of the table: close the channel,
delete the entry. -/
def websocketClient.closeAll : List (String × ChanId) → websocketClient → websocketClient
  | [], c => c
  | (reqID, resp) :: rest, c =>
    websocketClient.closeAll rest
      { c with events := c.events ++ [Event.chanClose resp],
               responses := mapDelete c.responses reqID }

/-- The method `Close`; `closed` is the result of `iTransport.Close()`. -/
def websocketClient.Close (c : websocketClient) (closed : Option GoError) :
    websocketClient × Option GoError :=
  let c1 := websocketClient.closeAll c.responses c
  ({ c1 with events := c1.events ++ [Event.transportClose] }, closed)

/-- The method `getHandlerByAction`. -/
def websocketClient.getHandlerByAction (c : websocketClient) (action : MessageAction) :
    Option HandlerId :=
  mapGet c.asyncHandlers action

/-- The method `readHandler`; `dec` decodes a `message.ResponseMessage`. -/
def websocketClient.readHandler (dec : List UInt8 → Option ResponseMessage) (c : websocketClient)
    (data : Option (List UInt8)) : websocketClient :=
  match jsonUnmarshal dec data with
  | none => c
  | some resp =>
    if resp.StatusCode ≠ 200 ∧ resp.RequestID ≠ "" then
      let err := NewGameLiftErrorFromStatusCode resp.StatusCode resp.ErrorMessage
      c.sendResponse resp.RequestID data (some err)
    else
      match c.getHandlerByAction resp.Action with
      | some handler => { c with events := c.events ++ [Event.handlerCall handler data] }
      | none => c.sendResponse resp.RequestID data none

/-! ## server/internal/gamelift_manager.go -/

/-- A call made on the `IWebSocketClient` of the manager. -/
inductive ClientCall
  | SendRequest (req : Message)
  | CancelRequest (requestID : String)
  deriving DecidableEq

/-- Which case of the `select` in `HandleRequest` fires: the timer, or a
receive from the response channel. -/
inductive Wait
  | expired
  | received (resultData : Outcome)
  deriving DecidableEq

/-- What one `HandleRequest` call does: the returned error, the value decoded
into `response` (if decoding was reached and succeeded), and the calls made
on the client, in order. -/
structure HandleResult (ρ : Type) where
  err : Option GoError
  response : Option ρ
  calls : List ClientCall

/-- The method `HandleRequest`; `request` is `request.GetMessage()`, `sent`
the result of `client.SendRequest`, `wait` the case of the `select` that
fires, `dec` the decoder of `json.Unmarshal` for the type of `response`. -/
def HandleRequest {ρ : Type} (dec : List UInt8 → Option ρ) (request : Message)
    (sent : Option GoError) (wait : Wait) : HandleResult ρ :=
  match sent with
  | some err => { err := some err, response := none, calls := [ClientCall.SendRequest request] }
  | none =>
    match wait with
    | Wait.expired =>
      { err := some (NewGameLiftError GameLiftErrorType.ServiceCallFailed "" ""),
        response := none,
        calls := [ClientCall.SendRequest request, ClientCall.CancelRequest request.RequestID] }
    | Wait.received resultData =>
      match resultData.Error with
      | some e => { err := some e, response := none, calls := [ClientCall.SendRequest request] }
      | none =>
        match jsonUnmarshal dec resultData.Data with
        | none =>
          { err := some (NewGameLiftError GameLiftErrorType.InternalServiceException "" ""),
            response := none, calls := [ClientCall.SendRequest request] }
        | some v => { err := none, response := some v, calls := [ClientCall.SendRequest request] }

/-! ## Sequences of client operations -/

/-- One operation on a `websocketClient`, with the results of the
collaborators it consults. -/
inductive Op
  | sendRequest (req : Message) (resp : Option ChanId) (env : SendEnv)
  | inbound (data : Option (List UInt8))
  | cancelRequest (requestID : String)
  | close (closed : Option GoError)
  | addHandler (action : MessageAction) (handler : HandlerId)

/-- The client after one operation. -/
def step (dec : List UInt8 → Option ResponseMessage) (c : websocketClient) : Op → websocketClient
  | Op.sendRequest req resp env => (c.SendRequest req resp env).1
  | Op.inbound data => c.readHandler dec data
  | Op.cancelRequest requestID => c.CancelRequest requestID
  | Op.close closed => (c.Close closed).1
  | Op.addHandler action handler => c.AddHandler action handler

/-- The client after a sequence of operations. -/
def run (dec : List UInt8 → Option ResponseMessage) (c : websocketClient) (ops : List Op) :
    websocketClient :=
  ops.foldl (step dec) c

/-- The channels handed to the `SendRequest` calls of a sequence. -/
def channelsOf : List Op → List ChanId
  | [] => []
  | Op.sendRequest _ (some ch) _ :: rest => ch :: channelsOf rest
  | _ :: rest => channelsOf rest

/-- How many times a channel has been closed. -/
def closeCount (ch : ChanId) (events : List Event) : Nat :=
  events.count (Event.chanClose ch)

/-- Invariant of the pending table relative to the channels `used` handed
to the client so far: request ids and channels of the table are pairwise
distinct, every stored channel was handed out and is still open, only
handed-out channels have been closed, and none more than once. -/
def TableInv (used : List ChanId) (c : websocketClient) : Prop :=
  (c.responses.map Prod.fst).Nodup ∧
  (c.responses.map Prod.snd).Nodup ∧
  (∀ e ∈ c.responses, e.2 ∈ used ∧ Event.chanClose e.2 ∉ c.events) ∧
  (∀ ch, Event.chanClose ch ∈ c.events → ch ∈ used) ∧
  (∀ ch, closeCount ch c.events ≤ 1)

/-! ## Reference rule of inbound dispatch -/

/-- The three destinations of an inbound frame. -/
inductive Dispatch
  | drop
  | pendingWaiter (requestID : String) (ch : ChanId) (o : Outcome)
  | asyncHandler (h : HandlerId)
  deriving DecidableEq

/-- The error a response with a non-200 status carries to its waiter. -/
def statusError (resp : ResponseMessage) : GoError :=
  GoError.gameLift
    { ErrorType :=
        if 400 ≤ resp.StatusCode ∧ resp.StatusCode < 500 then GameLiftErrorType.BadRequestException
        else GameLiftErrorType.InternalServiceException,
      name := "",
      message := resp.ErrorMessage }

/-- The pending waiter of a request id receiving an outcome, or a drop when
the table has no entry for the id. -/
def toWaiter (c : websocketClient) (requestID : String) (o : Outcome) : Dispatch :=
  match mapGet c.responses requestID with
  | some ch => Dispatch.pendingWaiter requestID ch o
  | none => Dispatch.drop

/-- Where the reference rule sends a payload. -/
def classify (dec : List UInt8 → Option ResponseMessage) (c : websocketClient)
    (data : Option (List UInt8)) : Dispatch :=
  match jsonUnmarshal dec data with
  | none => Dispatch.drop
  | some resp =>
    if resp.StatusCode ≠ 200 ∧ resp.RequestID ≠ "" then
      toWaiter c resp.RequestID { Data := data, Error := some (statusError resp) }
    else
      match mapGet c.asyncHandlers resp.Action with
      | some h => Dispatch.asyncHandler h
      | none => toWaiter c resp.RequestID { Data := data, Error := none }

/-- The reference rule of inbound dispatch: a dropped frame changes nothing,
a handler is invoked with the raw payload, a waiter receives its outcome on
its channel, which is then closed and removed from the table. -/
def readHandlerRule (dec : List UInt8 → Option ResponseMessage) (c : websocketClient)
    (data : Option (List UInt8)) : websocketClient :=
  match classify dec c data with
  | Dispatch.drop => c
  | Dispatch.asyncHandler h => { c with events := c.events ++ [Event.handlerCall h data] }
  | Dispatch.pendingWaiter requestID ch o =>
    { c with events := c.events ++ [Event.chanSend ch o, Event.chanClose ch],
             responses := mapDelete c.responses requestID }

/-! ## gorilla/websocket close errors -/

/-- The close code `websocket.CloseNormalClosure`. -/
def CloseNormalClosure : Int := 1000

/-- The close code `websocket.CloseGoingAway`. -/
def CloseGoingAway : Int := 1001

/-- The library function `websocket.IsCloseError`: the error is a
`*CloseError` whose code is one of `codes`. -/
def IsCloseError (err : GoError) (codes : List Int) : Bool :=
  match err with
  | GoError.closeError code _ => codes.contains code
  | _ => false

/-- The library function `websocket.IsUnexpectedCloseError`: the error is a
`*CloseError` whose code is not one of `expectedCodes`. -/
def IsUnexpectedCloseError (err : GoError) (expectedCodes : List Int) : Bool :=
  match err with
  | GoError.closeError code _ => !expectedCodes.contains code
  | _ => false

/-! ## common/consts.go -/

/-- The constant `ReconnectOnReadWriteFailureNumber`. -/
def ReconnectOnReadWriteFailureNumber : Int := 2

/-- The constant `MaxReadWriteRetry`. -/
def MaxReadWriteRetry : Int := 5

/-! ## server/internal/transport/websocket.go -/

/-- The function `isAbnormalCloseError`. -/
def isAbnormalCloseError (err : GoError) : Bool :=
  !IsCloseError err [CloseGoingAway, CloseNormalClosure] ||
    IsUnexpectedCloseError err [CloseGoingAway, CloseNormalClosure]

/-- Behaviour of the socket and of the dialer: the result of the n-th
`conn.WriteMessage` call, of the n-th dial loop `retry.Do` of `Connect`
(`none`: a connection was made; `some text`: the attempts are exhausted and
the last dial failed with this text), and of the n-th `conn.Close` call, each
counted from 0 over the life of the transport. -/
structure SocketEnv where
  writeMessage : Nat → Option GoError
  dial : Nat → Option String
  connClose : Nat → Option GoError

/-- The struct `websocketTransport`: the two atomic flags, whether `conn` is
set, the field `writeRetries`, and counters of what the transport has done:
socket writes, dial loops, socket closes, `Reconnect` calls, one-second
sleeps of `Write`, read loops started. The connect URL and the read handler
are left out. -/
structure websocketTransport where
  isConnected : Bool
  reconnecting : Bool
  hasConn : Bool
  writeRetries : Int
  writeCalls : Nat
  dialLoops : Nat
  connCloses : Nat
  reconnectCalls : Nat
  sleeps : Nat
  readLoops : Nat
  deriving DecidableEq

/-- The constructor `Websocket`: zero values. -/
def Websocket : websocketTransport :=
  { isConnected := false, reconnecting := false, hasConn := false, writeRetries := 0,
    writeCalls := 0, dialLoops := 0, connCloses := 0, reconnectCalls := 0, sleeps := 0,
    readLoops := 0 }

/-- The method `Close`. -/
def websocketTransport.Close (env : SocketEnv) (tr : websocketTransport) :
    websocketTransport × Option GoError :=
  if tr.isConnected then
    let tr1 := { tr with isConnected := false }
    if tr1.hasConn then
      let tr2 := { tr1 with connCloses := tr1.connCloses + 1 }
      match env.connClose tr1.connCloses with
      | some err =>
        (tr2, some (NewGameLiftError GameLiftErrorType.WebsocketClosingError "" err.Error))
      | none => (tr2, none)
    else (tr1, none)
  else (tr, none)

/-- The method `Connect`: the error of `Close` is only logged; the dial loop
either fails with a `WebsocketConnectFailure` or sets `conn`, after which the
flags are stored and the read loop is started (the wrapper installed by
`setCloseHandler` is left out). -/
def websocketTransport.Connect (env : SocketEnv) (tr : websocketTransport) :
    websocketTransport × Option GoError :=
  let tr1 := { tr with reconnecting := true }
  let tr2 := (tr1.Close env).1
  let tr3 := { tr2 with dialLoops := tr2.dialLoops + 1 }
  match env.dial tr2.dialLoops with
  | some text =>
    (tr3, some (NewGameLiftError GameLiftErrorType.WebsocketConnectFailure "" text))
  | none =>
    ({ tr3 with hasConn := true, isConnected := true, reconnecting := false,
                readLoops := tr3.readLoops + 1 }, none)

/-- The method `Reconnect`, run without a concurrent caller: when the swap
finds `reconnecting` set, the mutex is free and nil is returned at once. -/
def websocketTransport.Reconnect (env : SocketEnv) (tr : websocketTransport) :
    websocketTransport × Option GoError :=
  let tr0 := { tr with reconnectCalls := tr.reconnectCalls + 1 }
  if tr0.reconnecting then
    (tr0, none)
  else
    match ({ tr0 with reconnecting := true }).Connect env with
    | (tr1, err) => ({ tr1 with reconnecting := false }, err)

/-- The method `handleNetworkInterrupt`. -/
def websocketTransport.handleNetworkInterrupt (env : SocketEnv) (tr : websocketTransport)
    (_e : GoError) : websocketTransport × Option GoError :=
  tr.Reconnect env

/-- How a `Write` call ends: it returns, or it dereferences a nil error in
`err.Error()`. -/
inductive WriteResult
  | returned (tr : websocketTransport) (err : Option GoError)
  | nilDereference (tr : websocketTransport)
  deriving DecidableEq

/-- The `for` loop of `Write`, with the local `err`; one unit of fuel per
evaluation of the loop condition, `none` when the fuel runs out. -/
def websocketTransport.writeLoop (env : SocketEnv) :
    Nat → websocketTransport → Option GoError → Option WriteResult
  | 0, _, _ => none
  | fuel + 1, tr, err =>
    if tr.writeRetries < MaxReadWriteRetry then
      let tr1 := { tr with writeCalls := tr.writeCalls + 1 }
      match env.writeMessage tr.writeCalls with
      | some e =>
        if isAbnormalCloseError e then
          if tr1.writeRetries = ReconnectOnReadWriteFailureNumber then
            match tr1.handleNetworkInterrupt env e with
            | (tr2, none) =>
              let tr3 := { tr2 with writeRetries := tr2.writeRetries - 1 }
              websocketTransport.writeLoop env fuel
                { tr3 with writeRetries := tr3.writeRetries + 1 } none
            | (tr2, some reconnectError) =>
              websocketTransport.writeLoop env fuel
                { tr2 with writeRetries := tr2.writeRetries + 1 } (some reconnectError)
          else
            let tr2 := { tr1 with sleeps := tr1.sleeps + 1 }
            websocketTransport.writeLoop env fuel
              { tr2 with writeRetries := tr2.writeRetries + 1 } (some e)
        else some (WriteResult.returned tr1 (some e))
      | none => some (WriteResult.returned tr1 none)
    else
      match err with
      | some e =>
        some (WriteResult.returned tr
          (some (NewGameLiftError GameLiftErrorType.WebsocketSendMessageFailure
            "Failed write data" e.Error)))
      | none => some (WriteResult.nilDereference tr)

/-- The method `Write`. -/
def websocketTransport.Write (env : SocketEnv) (fuel : Nat) (tr : websocketTransport) :
    Option WriteResult :=
  if !tr.isConnected then
    some (WriteResult.returned tr
      (some (NewGameLiftError GameLiftErrorType.GameLiftServerNotInitialized "" "")))
  else
    websocketTransport.writeLoop env fuel { tr with writeRetries := 0 } none

/-! ## server/internal/transport/retry.go -/

/-- The struct `retryTransport`: the configuration; the wrapped transport is
given to `Write` as the results of its successive `Write` calls. The
interval is a `time.Duration`, a count of nanoseconds. -/
structure retryTransport where
  attempt : Int
  factor : Int
  interval : Int
  deriving DecidableEq

/-- The value of a 64-bit signed integer after an arithmetic operation whose
exact result is `x` (two's complement wrap-around). -/
def wrapInt64 (x : Int) : Int :=
  (x + 2 ^ 63) % 2 ^ 64 - 2 ^ 63

/-- The argument of `time.Sleep` after the failed call number `i`:
`time.Duration((i+1)*r.factor) * r.interval`, both products in 64-bit
arithmetic. -/
def retryTransport.sleepDuration (r : retryTransport) (i : Nat) : Int :=
  wrapInt64 (wrapInt64 (((i : Int) + 1) * r.factor) * r.interval)

/-- What one `Write` call of the retry decorator does: the returned error,
the number of calls of the wrapped `Write`, and the arguments of the
`time.Sleep` calls, in order. -/
structure RetryRun where
  err : Option GoError
  calls : Nat
  sleeps : List Int
  deriving DecidableEq

/-- The `for` loop of `retryTransport.Write` from index `i`, with `remaining`
iterations left before `i` reaches `r.attempt`; `next k` is the result of the
k-th call of the wrapped `Write`. -/
def retryTransport.writeFrom (r : retryTransport) (next : Nat → Option GoError) :
    Nat → Nat → List Int → RetryRun
  | 0, i, sleeps =>
    { err := some (NewGameLiftError GameLiftErrorType.WebsocketRetriableSendMessageFailure
        "Failed write retry" "write attempt overflow"),
      calls := i, sleeps := sleeps }
  | remaining + 1, i, sleeps =>
    match next i with
    | none => { err := none, calls := i + 1, sleeps := sleeps }
    | some _ => retryTransport.writeFrom r next remaining (i + 1) (sleeps ++ [r.sleepDuration i])

/-- The method `retryTransport.Write`. -/
def retryTransport.Write (r : retryTransport) (next : Nat → Option GoError) : RetryRun :=
  retryTransport.writeFrom r next r.attempt.toNat 0 []

/-- The default configuration of `WithRetry`: `MaxRetryDefault`,
`RetryFactorDefault`, `RetryIntervalDefault` (2 s in nanoseconds). -/
def WithRetry : retryTransport :=
  { attempt := 5, factor := 2, interval := 2000000000 }

/-! ## Two concurrent Reconnect calls -/

/-- Where a caller of `Reconnect` stands, between two of its accesses to the
shared state (the atomic flags and the write mutex). -/
inductive ReconnectPc
  /-- Before `tr.reconnecting.Swap(true)`. -/
  | swap
  /-- The swap returned true: before `tr.writeMtx.Lock()`. -/
  | waitLock
  /-- Holding the mutex: before the deferred `Unlock` and `return nil`. -/
  | waitUnlock
  /-- The swap returned false, in `Connect`: before `tr.writeMtx.Lock()`. -/
  | connectLock
  /-- Holding the mutex: before `tr.reconnecting.Store(true)`. -/
  | connectStore
  /-- Before `tr.Close()` and the dial loop. -/
  | connectDial
  /-- The dial loop has set `conn`: before the stores of `isConnected` and
  `reconnecting` and the start of the read loop. -/
  | connectSuccess
  /-- Before the deferred `Unlock` of `Connect`, which returns `err`. -/
  | connectUnlock (err : Option GoError)
  /-- Back in `Reconnect`: before `tr.reconnecting.Store(false)`. -/
  | storeFalse (err : Option GoError)
  /-- The call has returned `err`; `dialed` tells whether it ran `Connect`. -/
  | returned (dialed : Bool) (err : Option GoError)
  deriving DecidableEq

/-- One atomic step of a caller of `Reconnect` standing at `pc`, on the
transport `tr` with the mutex state `locked`; a caller that waits for the
mutex, or has returned, changes nothing. -/
def reconnectStep (env : SocketEnv) (tr : websocketTransport) (locked : Bool) :
    ReconnectPc → websocketTransport × Bool × ReconnectPc
  | ReconnectPc.swap =>
    if tr.reconnecting then
      ({ tr with reconnectCalls := tr.reconnectCalls + 1 }, locked, ReconnectPc.waitLock)
    else
      ({ tr with reconnectCalls := tr.reconnectCalls + 1, reconnecting := true }, locked,
        ReconnectPc.connectLock)
  | ReconnectPc.waitLock =>
    if locked then (tr, locked, ReconnectPc.waitLock) else (tr, true, ReconnectPc.waitUnlock)
  | ReconnectPc.waitUnlock => (tr, false, ReconnectPc.returned false none)
  | ReconnectPc.connectLock =>
    if locked then (tr, locked, ReconnectPc.connectLock) else (tr, true, ReconnectPc.connectStore)
  | ReconnectPc.connectStore => ({ tr with reconnecting := true }, locked, ReconnectPc.connectDial)
  | ReconnectPc.connectDial =>
    let tr2 := (tr.Close env).1
    let tr3 := { tr2 with dialLoops := tr2.dialLoops + 1 }
    match env.dial tr2.dialLoops with
    | some text =>
      (tr3, locked, ReconnectPc.connectUnlock
        (some (NewGameLiftError GameLiftErrorType.WebsocketConnectFailure "" text)))
    | none => ({ tr3 with hasConn := true }, locked, ReconnectPc.connectSuccess)
  | ReconnectPc.connectSuccess =>
    ({ tr with isConnected := true, reconnecting := false, readLoops := tr.readLoops + 1 }, locked,
      ReconnectPc.connectUnlock none)
  | ReconnectPc.connectUnlock err => (tr, false, ReconnectPc.storeFalse err)
  | ReconnectPc.storeFalse err =>
    ({ tr with reconnecting := false }, locked, ReconnectPc.returned true err)
  | ReconnectPc.returned dialed err => (tr, locked, ReconnectPc.returned dialed err)

/-- The transport shared by two callers of `Reconnect` (`false` and `true`),
the state of the write mutex, and where each caller stands. -/
structure ReconnectRace where
  tr : websocketTransport
  locked : Bool
  pc : Bool → ReconnectPc

/-- Both callers about to call `Reconnect` on a transport whose mutex is
free. -/
def ReconnectRace.start (tr : websocketTransport) : ReconnectRace :=
  { tr := tr, locked := false, pc := fun _ => ReconnectPc.swap }

/-- One atomic step of caller `who`. -/
def ReconnectRace.step (env : SocketEnv) (s : ReconnectRace) (who : Bool) : ReconnectRace :=
  match reconnectStep env s.tr s.locked (s.pc who) with
  | (tr, locked, pc) => { tr := tr, locked := locked, pc := Function.update s.pc who pc }

/-- The race after a schedule: the list names the caller of each step. -/
def ReconnectRace.run (env : SocketEnv) (s : ReconnectRace) (schedule : List Bool) :
    ReconnectRace :=
  schedule.foldl (ReconnectRace.step env) s

/-- Whether a caller has run the dial loop. -/
def ReconnectPc.dialed : ReconnectPc → Bool
  | ReconnectPc.swap => false
  | ReconnectPc.waitLock => false
  | ReconnectPc.waitUnlock => false
  | ReconnectPc.connectLock => false
  | ReconnectPc.connectStore => false
  | ReconnectPc.connectDial => false
  | ReconnectPc.connectSuccess => true
  | ReconnectPc.connectUnlock _ => true
  | ReconnectPc.storeFalse _ => true
  | ReconnectPc.returned dialed _ => dialed

/-- Whether a caller is on the path through `Connect`. -/
def ReconnectPc.connecting : ReconnectPc → Bool
  | ReconnectPc.swap => false
  | ReconnectPc.waitLock => false
  | ReconnectPc.waitUnlock => false
  | ReconnectPc.connectLock => true
  | ReconnectPc.connectStore => true
  | ReconnectPc.connectDial => true
  | ReconnectPc.connectSuccess => true
  | ReconnectPc.connectUnlock _ => true
  | ReconnectPc.storeFalse _ => true
  | ReconnectPc.returned dialed _ => dialed

/-- The error a caller returns or is about to return, once known. -/
def ReconnectPc.outcome : ReconnectPc → Option (Option GoError)
  | ReconnectPc.swap => none
  | ReconnectPc.waitLock => none
  | ReconnectPc.waitUnlock => none
  | ReconnectPc.connectLock => none
  | ReconnectPc.connectStore => none
  | ReconnectPc.connectDial => none
  | ReconnectPc.connectSuccess => some none
  | ReconnectPc.connectUnlock err => some err
  | ReconnectPc.storeFalse err => some err
  | ReconnectPc.returned _ err => some err

/-- The error of `Connect` for a result of the dial loop. -/
def connectError (dialed : Option String) : Option GoError :=
  dialed.map (fun text => NewGameLiftError GameLiftErrorType.WebsocketConnectFailure "" text)

/-- Invariant of two callers standing at `a` and `b` in a race started with a
clear `reconnecting` flag after `base` dial loops: the dial loops run so far
are those of the callers that dialed; a caller that dialed alone has the
outcome of dial loop number `base`; a caller that returns without dialing
returns nil; and as soon as a caller has swapped the flag, one of them is on
the path through `Connect`. -/
def RaceInv (env : SocketEnv) (base dialLoops : Nat) (reconnecting : Bool)
    (a b : ReconnectPc) : Prop :=
  dialLoops = base + (if a.dialed then 1 else 0) + (if b.dialed then 1 else 0) ∧
  (a.dialed = true → b.dialed = false → a.outcome = some (connectError (env.dial base))) ∧
  (b.dialed = true → a.dialed = false → b.outcome = some (connectError (env.dial base))) ∧
  (∀ err : Option GoError, a = ReconnectPc.returned false err → err = none) ∧
  (∀ err : Option GoError, b = ReconnectPc.returned false err → err = none) ∧
  ((a = ReconnectPc.swap ∧ b = ReconnectPc.swap ∧ reconnecting = false) ∨
    a.connecting = true ∨ b.connecting = true)

/-- A dialer that reconnects once after the initial connection and then
fails. -/
def dialOnce : SocketEnv :=
  { writeMessage := fun _ => none,
    dial := fun n => if n < 1 then none else some "connection error :refused",
    connClose := fun _ => none }

/-! ## crypto/sha256, crypto/hmac, encoding/hex -/

/-- Addition of 32-bit words. -/
def add32 (a b : Nat) : Nat := (a + b) % 4294967296

/-- Rotation of a 32-bit word to the right. -/
def rotr32 (x n : Nat) : Nat := ((x >>> n) ||| (x <<< (32 - n))) % 4294967296

/-- The round constants of SHA-256 (FIPS 180-4, 4.2.2). -/
def sha256K : List Nat :=
  [0x428a2f98, 0x71374491, 0xb5c0fbcf, 0xe9b5dba5, 0x3956c25b, 0x59f111f1, 0x923f82a4, 0xab1c5ed5,
   0xd807aa98, 0x12835b01, 0x243185be, 0x550c7dc3, 0x72be5d74, 0x80deb1fe, 0x9bdc06a7, 0xc19bf174,
   0xe49b69c1, 0xefbe4786, 0x0fc19dc6, 0x240ca1cc, 0x2de92c6f, 0x4a7484aa, 0x5cb0a9dc, 0x76f988da,
   0x983e5152, 0xa831c66d, 0xb00327c8, 0xbf597fc7, 0xc6e00bf3, 0xd5a79147, 0x06ca6351, 0x14292967,
   0x27b70a85, 0x2e1b2138, 0x4d2c6dfc, 0x53380d13, 0x650a7354, 0x766a0abb, 0x81c2c92e, 0x92722c85,
   0xa2bfe8a1, 0xa81a664b, 0xc24b8b70, 0xc76c51a3, 0xd192e819, 0xd6990624, 0xf40e3585, 0x106aa070,
   0x19a4c116, 0x1e376c08, 0x2748774c, 0x34b0bcb5, 0x391c0cb3, 0x4ed8aa4a, 0x5b9cca4f, 0x682e6ff3,
   0x748f82ee, 0x78a5636f, 0x84c87814, 0x8cc70208, 0x90befffa, 0xa4506ceb, 0xbef9a3f7, 0xc67178f2]

/-- The initial hash value of SHA-256 (FIPS 180-4, 5.3.3). -/
def sha256Init : List Nat :=
  [0x6a09e667, 0xbb67ae85, 0x3c6ef372, 0xa54ff53a, 0x510e527f, 0x9b05688c, 0x1f83d9ab, 0x5be0cd19]

/-- One round of the SHA-256 compression function on the eight working
words and the window of the sixteen latest words of the message schedule,
oldest first; the round consumes the oldest word and appends the next one. -/
def sha256Round (st : List Nat × List Nat) (k : Nat) : List Nat × List Nat :=
  match st with
  | ([a, b, c, d, e, f, g, h], w0 :: rest) =>
    let s1 := rotr32 e 6 ^^^ rotr32 e 11 ^^^ rotr32 e 25
    let ch := (e &&& f) ^^^ ((e ^^^ 4294967295) &&& g)
    let t1 := add32 (add32 (add32 (add32 h s1) ch) k) w0
    let s0 := rotr32 a 2 ^^^ rotr32 a 13 ^^^ rotr32 a 22
    let maj := (a &&& b) ^^^ (a &&& c) ^^^ (b &&& c)
    let t2 := add32 s0 maj
    let w1 := rest.getD 0 0
    let w9 := rest.getD 8 0
    let w14 := rest.getD 13 0
    let sg0 := rotr32 w1 7 ^^^ rotr32 w1 18 ^^^ (w1 >>> 3)
    let sg1 := rotr32 w14 17 ^^^ rotr32 w14 19 ^^^ (w14 >>> 10)
    let wnew := add32 (add32 (add32 sg1 w9) sg0) w0
    ([add32 t1 t2, a, b, c, add32 d t1, e, f, g], rest ++ [wnew])
  | other => other

/-- Big-endian 32-bit words of a byte sequence. -/
def wordsOfBytes : List Nat → List Nat
  | b0 :: b1 :: b2 :: b3 :: rest =>
    (b0 * 16777216 + b1 * 65536 + b2 * 256 + b3) :: wordsOfBytes rest
  | _ => []

/-- The four bytes of a 32-bit word, big-endian. -/
def bytesOfWord (w : Nat) : List Nat :=
  [w / 16777216 % 256, w / 65536 % 256, w / 256 % 256, w % 256]

/-- The hash value after one 64-byte block. -/
def sha256Block (h : List Nat) (block : List Nat) : List Nat :=
  List.zipWith add32 h (sha256K.foldl sha256Round (h, wordsOfBytes block)).1

/-- The padding of a message of `n` bytes: the byte 0x80, zero bytes up to
56 modulo 64, and the bit length in eight bytes. -/
def sha256Pad (n : Nat) : List Nat :=
  128 :: List.replicate ((119 - n % 64) % 64) 0 ++
    bytesOfWord (n * 8 / 4294967296) ++ bytesOfWord (n * 8 % 4294967296)

/-- The hash value after `n` blocks of a byte sequence. -/
def sha256Blocks : Nat → List Nat → List Nat → List Nat
  | 0, h, _ => h
  | n + 1, h, bytes => sha256Blocks n (sha256Block h (bytes.take 64)) (bytes.drop 64)

/-- The library function `sha256.Sum256` (the hash of `sha256.New`), on
bytes given as numbers below 256. -/
def sha256 (msg : List Nat) : List Nat :=
  let padded := msg ++ sha256Pad msg.length
  (sha256Blocks (padded.length / 64) sha256Init padded).flatMap bytesOfWord

/-- The library construction `hmac.New(sha256.New, key)` applied to `data`
(RFC 2104). -/
def hmacSha256 (key : List Nat) (data : List Nat) : List Nat :=
  let k0 := if key.length > 64 then sha256 key else key
  let k := k0 ++ List.replicate (64 - k0.length) 0
  sha256 (k.map (fun b => b ^^^ 0x5c) ++ sha256 (k.map (fun b => b ^^^ 0x36) ++ data))

/-- A lower-case hexadecimal digit. -/
def hexDigit (n : Nat) : Char := "0123456789abcdef".toList.getD n '0'

/-- The library function `hex.EncodeToString`. -/
def hexEncodeToString (data : List Nat) : String :=
  String.mk (data.flatMap (fun b => [hexDigit (b / 16), hexDigit (b % 16)]))

/-! ## Go strings, net/url, sort, time -/

/-- The UTF-8 bytes of a character. -/
def utf8Char (c : Char) : List Nat :=
  let n := c.toNat
  if n < 128 then [n]
  else if n < 2048 then [192 + n / 64, 128 + n % 64]
  else if n < 65536 then [224 + n / 4096, 128 + n / 64 % 64, 128 + n % 64]
  else [240 + n / 262144, 128 + n / 4096 % 64, 128 + n / 64 % 64, 128 + n % 64]

/-- The conversion `[]byte(s)`: the bytes of a string. -/
def bytesOf (s : String) : List Nat := s.toList.flatMap utf8Char

/-- An upper-case hexadecimal digit. -/
def upperHexDigit (n : Nat) : Char := "0123456789ABCDEF".toList.getD n '0'

/-- How `url.QueryEscape` writes one byte: letters, digits and `-_.~` stay,
a space becomes `+`, every other byte becomes `%XX`. -/
def escapeByte (b : Nat) : List Char :=
  if (48 ≤ b ∧ b ≤ 57) ∨ (65 ≤ b ∧ b ≤ 90) ∨ (97 ≤ b ∧ b ≤ 122) ∨
      b = 45 ∨ b = 95 ∨ b = 46 ∨ b = 126 then
    [Char.ofNat b]
  else if b = 32 then ['+']
  else ['%', upperHexDigit (b / 16), upperHexDigit (b % 16)]

/-- The library function `url.QueryEscape`. -/
def QueryEscape (s : String) : String := String.mk ((bytesOf s).flatMap escapeByte)

/-- Byte-wise lexicographic order, strict. -/
def bytesLess : List Nat → List Nat → Bool
  | [], [] => false
  | [], _ :: _ => true
  | _ :: _, [] => false
  | a :: as, b :: bs => if a < b then true else if b < a then false else bytesLess as bs

/-- The order `<` of Go strings. -/
def stringLess (a b : String) : Bool := bytesLess (bytesOf a) (bytesOf b)

/-- Insertion of a string into an ascending list. -/
def insertSorted (k : String) : List String → List String
  | [] => [k]
  | x :: rest => if stringLess x k then x :: insertSorted k rest else k :: x :: rest

/-- The library function `sort.Strings`: ascending order. -/
def sortStrings (keys : List String) : List String := keys.foldr insertSorted []

/-- A `time.Time`: seconds since the Unix epoch and nanoseconds within the
second; the location plays no part since every use formats in UTC. -/
structure Time where
  unix : Int
  nsec : Nat
  deriving DecidableEq

/-- The method `Time.IsZero`: January 1, year 1, 00:00:00 UTC. -/
def Time.IsZero (t : Time) : Bool := t.unix = -62135596800 ∧ t.nsec = 0

/-- Year, month and day of a count of days since 1970-01-01 in the proleptic
Gregorian calendar. -/
def civilFromDays (days : Int) : Int × Int × Int :=
  let z := days + 719468
  let era := z / 146097
  let doe := z - era * 146097
  let yoe := (doe - doe / 1460 + doe / 36524 - doe / 146096) / 365
  let doy := doe - (365 * yoe + yoe / 4 - yoe / 100)
  let mp := (5 * doy + 2) / 153
  let d := doy - (153 * mp + 2) / 5 + 1
  let m := if mp < 10 then mp + 3 else mp - 9
  (if m ≤ 2 then yoe + era * 400 + 1 else yoe + era * 400, m, d)

/-- A number in decimal, zero-padded to `width` digits, as `Time.Format`
writes the fields of a layout. -/
def appendInt (x : Int) (width : Nat) : String :=
  let digits := Nat.repr x.natAbs
  (if x < 0 then "-" else "") ++ String.mk (List.replicate (width - digits.length) '0') ++ digits

/-- The call `t.UTC().Format("20060102")`. -/
def formatDate (t : Time) : String :=
  match civilFromDays (t.unix / 86400) with
  | (y, m, d) => appendInt y 4 ++ appendInt m 2 ++ appendInt d 2

/-- The call `t.UTC().Format("20060102T150405Z")`. -/
def formatDateTime (t : Time) : String :=
  let s := t.unix % 86400
  formatDate t ++ "T" ++ appendInt (s / 3600) 2 ++ appendInt (s / 60 % 60) 2 ++
    appendInt (s % 60) 2 ++ "Z"

/-! ## server/internal/security -/

/-- The struct `AwsCredentials`. -/
structure AwsCredentials where
  AccessKey : String
  SecretKey : String
  SessionToken : String
  deriving DecidableEq

/-- The struct `SigV4Parameters`; `QueryParams = none` is the nil map. -/
structure SigV4Parameters where
  AwsRegion : String
  AwsCredentials : AwsCredentials
  QueryParams : Option (List (String × String))
  RequestTime : Time
  deriving DecidableEq

/-- The constant `ServiceName`. -/
def ServiceName : String := "gamelift"

/-- The constant `TerminationString`. -/
def TerminationString : String := "aws4_request"

/-- The constant `SignatureSecretKeyPrefix`. -/
def SignatureSecretKeyPrefix : String := "AWS4"

/-- The constant `Algorithm`. -/
def Algorithm : String := "AWS4-HMAC-SHA256"

/-- The constant `AuthorizationKey`. -/
def AuthorizationKey : String := "Authorization"

/-- The constant `AuthorizationValue`. -/
def AuthorizationValue : String := "SigV4"

/-- The constant `AmzAlgorithmKey`. -/
def AmzAlgorithmKey : String := "X-Amz-Algorithm"

/-- The constant `AmzCredentialKey`. -/
def AmzCredentialKey : String := "X-Amz-Credential"

/-- The constant `AmzDateKey`. -/
def AmzDateKey : String := "X-Amz-Date"

/-- The constant `AmzSecurityTokenHeadersKey`. -/
def AmzSecurityTokenHeadersKey : String := "X-Amz-Security-Token"

/-- The constant `AmzSignatureKey`. -/
def AmzSignatureKey : String := "X-Amz-Signature"

/-- The function `validateParameters`; the error of `fmt.Errorf` carries its
text. -/
def validateParameters (params : SigV4Parameters) : Option GoError :=
  if params.AwsRegion = "" then some (GoError.other "AwsRegion is required")
  else if params.AwsCredentials.AccessKey = "" then some (GoError.other "AccessKey is required")
  else if params.AwsCredentials.SecretKey = "" then some (GoError.other "SecretKey is required")
  else if params.QueryParams = none ∨ (params.QueryParams.getD []).length = 0 then
    some (GoError.other "QueryParams is required")
  else if params.RequestTime.IsZero then some (GoError.other "RequestTime is required")
  else none

/-- The function `computeSha256Hash`. -/
def computeSha256Hash (data : String) : String :=
  hexEncodeToString (sha256 (bytesOf data))

/-- The function `computeHmacSha256`. -/
def computeHmacSha256 (key : List Nat) (data : String) : List Nat :=
  hmacSha256 key (bytesOf data)

/-- The function `toHex`. -/
def toHex (data : List Nat) : String := hexEncodeToString data

/-- The function `generateSignature`. -/
def generateSignature (region secretKey formattedRequestDate serviceName stringToSign : String) :
    String :=
  let encodedKeySecret := bytesOf (SignatureSecretKeyPrefix ++ secretKey)
  let hashDate := computeHmacSha256 encodedKeySecret formattedRequestDate
  let hashRegion := computeHmacSha256 hashDate region
  let hashService := computeHmacSha256 hashRegion serviceName
  let signingKey := computeHmacSha256 hashService TerminationString
  toHex (computeHmacSha256 signingKey stringToSign)

/-- The function `generateSigV4QueryParameters`: the map literal, then the
assignment of the security token when there is one. -/
def generateSigV4QueryParameters (credential formattedRequestDateTime sessionToken
    signature : String) : List (String × String) :=
  let sigV4QueryParams :=
    [(AuthorizationKey, AuthorizationValue),
     (AmzAlgorithmKey, Algorithm),
     (AmzCredentialKey, credential),
     (AmzDateKey, formattedRequestDateTime),
     (AmzSignatureKey, signature)]
  if sessionToken ≠ "" then mapSet sigV4QueryParams AmzSecurityTokenHeadersKey sessionToken
  else sigV4QueryParams

/-- The function `toSortedEncodedQueryString`. -/
def toSortedEncodedQueryString (params : List (String × String)) : String :=
  "&".intercalate ((sortStrings (params.map Prod.fst)).map
    (fun key => QueryEscape key ++ "=" ++ QueryEscape ((mapGet params key).getD "")))

/-- The function `GenerateSigV4QueryParameters`: the map (`none` is nil) and
the error. -/
def GenerateSigV4QueryParameters (params : SigV4Parameters) :
    Option (List (String × String)) × Option GoError :=
  match validateParameters params with
  | some err => (none, some err)
  | none =>
    let formattedRequestDate := formatDate params.RequestTime
    let formattedRequestDateTime := formatDateTime params.RequestTime
    let canonicalRequest := toSortedEncodedQueryString (params.QueryParams.getD [])
    let hashedCanonicalRequest := computeSha256Hash canonicalRequest
    let scope := formattedRequestDate ++ "/" ++ params.AwsRegion ++ "/" ++ ServiceName ++ "/" ++
      TerminationString
    let stringToSign := Algorithm ++ "\n" ++ formattedRequestDateTime ++ "\n" ++ scope ++ "\n" ++
      hashedCanonicalRequest
    let signature := generateSignature params.AwsRegion params.AwsCredentials.SecretKey
      formattedRequestDate ServiceName stringToSign
    let credential := params.AwsCredentials.AccessKey ++ "/" ++ scope
    let queryParameters := generateSigV4QueryParameters credential formattedRequestDateTime
      params.AwsCredentials.SessionToken signature
    (some queryParameters, none)

/-- The parameters of `generateSigV4Parameters` in the signer tests, with a
session token of choice. -/
def testSigV4Parameters (sessionToken : String) : SigV4Parameters :=
  { AwsRegion := "us-east-1",
    AwsCredentials :=
      { AccessKey := "testAccessKey", SecretKey := "testSecretKey", SessionToken := sessionToken },
    QueryParams := some [("param1", "value1"), ("param2", "value2")],
    RequestTime := { unix := 1722852000, nsec := 0 } }

/-! ## net/url: URL and Values -/

/-- A `url.URL`, with the parts that the SDK reads or writes. -/
structure URL where
  Scheme : String
  Host : String
  Path : String
  RawQuery : String
  Fragment : String
  deriving DecidableEq

/-- A `url.Values`: a map from a key to the list of its values. -/
abbrev Values := List (String × List String)

/-- The method `Values.Add`: `v[key] = append(v[key], value)`. -/
def Values.Add (v : Values) (key value : String) : Values :=
  mapSet v key ((mapGet v key).getD [] ++ [value])

/-- The method `Values.Encode`: the keys in ascending order, the values of a
key in their order, each as `key=value` with both sides escaped, joined by
`&`. -/
def Values.Encode (v : Values) : String :=
  "&".intercalate ((sortStrings (v.map Prod.fst)).flatMap
    (fun k => ((mapGet v k).getD []).map (fun x => QueryEscape k ++ "=" ++ QueryEscape x)))

/-! ## common/consts.go: the query of the connection -/

def SdkLanguage : String := "Go"
def SdkLanguageKey : String := "sdkLanguage"
def PidKey : String := "pID"
def SdkVersionKey : String := "sdkVersion"
def SdkVersion : String := "5.2.0"
def AuthTokenKey : String := "Authorization"
def ComputeIDKey : String := "ComputeId"
def FleetIDKey : String := "FleetId"

/-! ## server/internal/gamelift_manager.go: Connect -/

/-- The handlers of the manager that `Connect` registers. -/
inductive ManagerHandler
  | onStartGameSession
  | onUpdateGameSession
  | onRefreshConnection
  | onTerminateProcess
  deriving DecidableEq

/-- A call that `gameLiftManager.Connect` makes on its `IWebSocketClient`. -/
inductive ManagerCall
  | Connect (connectURL : URL)
  | AddHandler (action : String) (handler : ManagerHandler)
  deriving DecidableEq

/-- What one `gameLiftManager.Connect` call does: the returned error and the
calls made on the client, in order. -/
structure ManagerConnectResult where
  err : Option GoError
  calls : List ManagerCall

/-- The `url.Values` that `gameLiftManager.Connect` builds; a nil map of
signed parameters is `none`, and the `range` over the map visits its entries
in the order of the list. -/
def connectParams (processID hostID fleetID authToken : String)
    (sigV4QueryParameters : Option (List (String × String))) : Values :=
  let params : Values := []
  let params := Values.Add params PidKey processID
  let params := Values.Add params SdkVersionKey SdkVersion
  let params := Values.Add params SdkLanguageKey SdkLanguage
  let params := Values.Add params ComputeIDKey hostID
  let params := Values.Add params FleetIDKey fleetID
  if authToken ≠ "" then Values.Add params AuthTokenKey authToken
  else
    match sigV4QueryParameters with
    | some m => m.foldl (fun p e => Values.Add p e.1 e.2) params
    | none => params

/-- The method `gameLiftManager.Connect`; `urlParse` is `url.Parse` and
`clientConnect` the result of `client.Connect` on a URL. -/
def gameLiftManager.Connect (urlParse : String → Except GoError URL)
    (clientConnect : URL → Option GoError)
    (websocketURL processID hostID fleetID authToken : String)
    (sigV4QueryParameters : Option (List (String × String))) : ManagerConnectResult :=
  match urlParse websocketURL with
  | Except.error err => { err := some err, calls := [] }
  | Except.ok connectURL =>
    let params := connectParams processID hostID fleetID authToken sigV4QueryParameters
    let connectURL := { connectURL with RawQuery := Values.Encode params }
    match clientConnect connectURL with
    | some err => { err := some err, calls := [ManagerCall.Connect connectURL] }
    | none =>
      { err := none,
        calls :=
          [ManagerCall.Connect connectURL,
           ManagerCall.AddHandler "CreateGameSession" ManagerHandler.onStartGameSession,
           ManagerCall.AddHandler "UpdateGameSession" ManagerHandler.onUpdateGameSession,
           ManagerCall.AddHandler "RefreshConnection" ManagerHandler.onRefreshConnection,
           ManagerCall.AddHandler "TerminateProcess" ManagerHandler.onTerminateProcess] }

/-- The parameters that the connection query is specified to carry, in the
order in which `Connect` adds them. -/
def connectEntries (processID hostID fleetID authToken : String)
    (sigV4QueryParameters : Option (List (String × String))) : List (String × String) :=
  [("pID", processID), ("sdkVersion", "5.2.0"), ("sdkLanguage", "Go"), ("ComputeId", hostID),
   ("FleetId", fleetID)] ++
    (if authToken ≠ "" then [("Authorization", authToken)] else sigV4QueryParameters.getD [])

/-- The values that a list of parameters gives to a key, in order. -/
def entryValues (entries : List (String × String)) (key : String) : List String :=
  (entries.filter (fun e => decide (e.1 = key))).map Prod.snd

/-- The URL of the manager tests, parsed. -/
def testURL : URL :=
  { Scheme := "https", Host := "example.test", Path := "", RawQuery := "", Fragment := "" }

/-- The map of signed parameters of the manager tests. -/
def testSignedParameters : List (String × String) :=
  [("Authorization", "SigV4"), ("X-Amz-Algorithm", "AWS4-HMAC-SHA256"),
   ("X-Amz-Credential", "testAccessKey/20240805/us-east-1/gamelift/aws4_request"),
   ("X-Amz-Date", "20240805T100000Z"),
   ("X-Amz-Signature", "2601fe291f4b43a63f6ffb0e1d9085a1edbaa2a866c96511e153af3408bfe771"),
   ("X-Amz-Security-Token", "testSessionToken")]

/-! ## github.com/google/uuid, common/env.go -/

/-- A `uuid.UUID`: its sixteen bytes. -/
abbrev UUID := List Nat

/-- The method `UUID.String`: the bytes in hexadecimal, in groups of 4, 2, 2,
2 and 6 bytes separated by `-`. -/
def UUID.String (uuid : UUID) : String :=
  hexEncodeToString (uuid.take 4) ++ "-" ++ hexEncodeToString ((uuid.drop 4).take 2) ++ "-" ++
    hexEncodeToString ((uuid.drop 6).take 2) ++ "-" ++ hexEncodeToString ((uuid.drop 8).take 2) ++
    "-" ++ hexEncodeToString (uuid.drop 10)

/-- The function `GetEnvStringOrDefault`; `lookupEnv` is `os.LookupEnv`. -/
def GetEnvStringOrDefault (lookupEnv : String → Option String) (key defValue : String) : String :=
  match lookupEnv key with
  | none => defValue
  | some value => value

/-- The function `GetEnvDurationOrDefault`; `parseDuration` is
`time.ParseDuration` (`none` is an error), a duration is a count of
nanoseconds. -/
def GetEnvDurationOrDefault (lookupEnv : String → Option String)
    (parseDuration : String → Option Int) (key : String) (defValue : Int) : Int :=
  match lookupEnv key with
  | none => defValue
  | some value =>
    match parseDuration value with
    | none => defValue
    | some duration => duration

/-! ## common/consts.go: the environment and the defaults -/

def Second : Int := 1000000000
def Millisecond : Int := 1000000
def Minute : Int := 60 * Second
def ServiceCallTimeoutDefault : Int := 20 * Second
def HealthcheckIntervalDefault : Int := 60 * Second
def HealthcheckRetryIntervalDefault : Int := 10 * Second
def HealthcheckMaxJitterDefault : Int := 10 * Second
def HealthcheckTimeoutDefault : Int := HealthcheckIntervalDefault - HealthcheckRetryIntervalDefault
def InstanceRoleCredentialTTL : Int := 15 * Minute
def RoleSessionNameMaxLength : Nat := 64
def ComputeTypeContainer : String := "CONTAINER"
def AgentlessContainerProcessId : String := "ManagedResource"
def ServiceCallTimeout : String := "SERVICE_CALL_TIMEOUT"
def HealthcheckMaxJitter : String := "HEALTHCHECK_MAX_JITTER"
def HealthcheckInterval : String := "HEALTHCHECK_INTERVAL"
def HealthcheckTimeout : String := "HEALTHCHECK_TIMEOUT"
def EnvironmentKeyWebsocketURL : String := "GAMELIFT_SDK_WEBSOCKET_URL"
def EnvironmentKeyComputeType : String := "GAMELIFT_COMPUTE_TYPE"
def EnvironmentKeyAuthToken : String := "GAMELIFT_SDK_AUTH_TOKEN"
def EnvironmentKeyProcessID : String := "GAMELIFT_SDK_PROCESS_ID"
def EnvironmentKeyHostID : String := "GAMELIFT_SDK_HOST_ID"
def EnvironmentKeyFleetID : String := "GAMELIFT_SDK_FLEET_ID"
def EnvironmentKeyAwsRegion : String := "GAMELIFT_REGION"
def EnvironmentKeyAccessKey : String := "GAMELIFT_ACCESS_KEY"
def EnvironmentKeySecretKey : String := "GAMELIFT_SECRET_KEY"
def EnvironmentKeySessionToken : String := "GAMELIFT_SESSION_TOKEN"

/-! ## model/request, model/result -/

/-- The function `message.NewMessage`; `id` is the result of `uuid.New()`. -/
def NewMessage (id : UUID) (action : MessageAction) : Message :=
  { Action := action, RequestID := UUID.String id }

/-- The type `model.PlayerSessionCreationPolicy` (an `int`). -/
abbrev PlayerSessionCreationPolicy := Int

/-- The struct `ActivateGameSessionRequest`. -/
structure ActivateGameSessionRequest extends Message where
  GameSessionID : String
  deriving DecidableEq

/-- The struct `UpdatePlayerSessionCreationPolicyRequest`; the policy is a
pointer. -/
structure UpdatePlayerSessionCreationPolicyRequest extends Message where
  GameSessionID : String
  PlayerSessionPolicy : Option PlayerSessionCreationPolicy
  deriving DecidableEq

/-- The struct `AcceptPlayerSessionRequest`. -/
structure AcceptPlayerSessionRequest extends Message where
  GameSessionID : String
  PlayerSessionID : String
  deriving DecidableEq

/-- The struct `RemovePlayerSessionRequest`. -/
structure RemovePlayerSessionRequest extends Message where
  GameSessionID : String
  PlayerSessionID : String
  deriving DecidableEq

/-- The struct `GetFleetRoleCredentialsRequest`. The role session name is
kept as the bytes of the Go string, since `len` counts bytes and the slice
`[:64]` cuts bytes. -/
structure GetFleetRoleCredentialsRequest extends Message where
  RoleArn : String
  RoleSessionName : List Nat
  deriving DecidableEq

/-- The function `NewActivateGameSession`. -/
def NewActivateGameSession (id : UUID) (gameSessionID : String) : ActivateGameSessionRequest :=
  { toMessage := NewMessage id "ActivateGameSession", GameSessionID := gameSessionID }

/-- The function `NewUpdatePlayerSessionCreationPolicy`. -/
def NewUpdatePlayerSessionCreationPolicy (id : UUID) (gameSessionID : String)
    (policy : PlayerSessionCreationPolicy) : UpdatePlayerSessionCreationPolicyRequest :=
  { toMessage := NewMessage id "UpdatePlayerSessionCreationPolicy",
    GameSessionID := gameSessionID, PlayerSessionPolicy := some policy }

/-- The function `NewAcceptPlayerSession`. -/
def NewAcceptPlayerSession (id : UUID) (gameSessionID playerSessionID : String) :
    AcceptPlayerSessionRequest :=
  { toMessage := NewMessage id "AcceptPlayerSession", GameSessionID := gameSessionID,
    PlayerSessionID := playerSessionID }

/-- The function `NewRemovePlayerSession`. -/
def NewRemovePlayerSession (id : UUID) (gameSessionID playerSessionID : String) :
    RemovePlayerSessionRequest :=
  { toMessage := NewMessage id "RemovePlayerSession", GameSessionID := gameSessionID,
    PlayerSessionID := playerSessionID }

/-- Modelled from the spec: the declaration of `result.GetFleetRoleCredentialsResult`
is not in src/. The fields are those that the documentation of
`GetFleetRoleCredentials` lists; `server_state.go` reads `AccessKeyID` and
`Expiration`, a 64-bit count of milliseconds since the Unix epoch. -/
structure GetFleetRoleCredentialsResult where
  AssumedRoleUserArn : String
  AssumedRoleID : String
  AccessKeyID : String
  SecretAccessKey : String
  SessionToken : String
  Expiration : Int
  deriving DecidableEq

/-- The zero value `result.GetFleetRoleCredentialsResult{}`. -/
def GetFleetRoleCredentialsResult.zero : GetFleetRoleCredentialsResult :=
  { AssumedRoleUserArn := "", AssumedRoleID := "", AccessKeyID := "", SecretAccessKey := "",
    SessionToken := "", Expiration := 0 }

/-! ## server/server_state.go -/

/-- Modelled from the spec: the declaration of `ServerParameters` is not in
src/. The fields are those that `init` reads. -/
structure ServerParameters where
  WebSocketURL : String
  ProcessID : String
  HostID : String
  FleetID : String
  AuthToken : String
  AwsRegion : String
  AccessKey : String
  SecretKey : String
  SessionToken : String
  deriving DecidableEq

/-- Modelled from the spec: the declaration of `ProcessParameters` is not in
src/. The fields are those that `server_state.go` and its tests use: for each
callback whether it is set, the port, and the log paths of `LogParameters`. -/
structure ProcessParameters where
  OnStartGameSession : Bool
  OnUpdateGameSession : Bool
  OnProcessTerminate : Bool
  OnHealthCheck : Bool
  Port : Int
  LogPaths : List String
  deriving DecidableEq

/-- The struct `gameLiftServerState`. `wsGameLift` tells whether the field
holds a manager: the manager is an interface, and each method below is given
the results of the calls it makes on it. The cache is `none` while the map
is nil. Durations are counts of nanoseconds. `parameters` and `shutdown` are
`none` while they are nil; `shutdown` holds the identity of the channel. The
mutex is left out. -/
structure gameLiftServerState where
  wsGameLift : Bool
  processID : String
  hostID : String
  fleetID : String
  gameSessionID : String
  terminationTime : Int
  isReadyProcess : Bool
  onManagedEC2 : Bool
  fleetRoleResultCache : Option (List (String × GetFleetRoleCredentialsResult))
  defaultJitterIntervalMs : Int
  healthCheckInterval : Int
  healthCheckTimeout : Int
  serviceCallTimeout : Int
  parameters : Option ProcessParameters := none
  shutdown : Option ChanId := none
  deriving DecidableEq

/-- The zero value of `gameLiftServerState`, as `var state gameLiftServerState`
declares it. -/
def gameLiftServerState.zero : gameLiftServerState :=
  { wsGameLift := false, processID := "", hostID := "", fleetID := "", gameSessionID := "",
    terminationTime := 0, isReadyProcess := false, onManagedEC2 := false,
    fleetRoleResultCache := none, defaultJitterIntervalMs := 0, healthCheckInterval := 0,
    healthCheckTimeout := 0, serviceCallTimeout := 0 }

/-- The arguments of one call of `IGameLiftManager.Connect`. -/
structure ConnectArgs where
  websocketURL : String
  processID : String
  hostID : String
  fleetID : String
  authToken : String
  sigV4QueryParameters : Option (List (String × String))
  deriving DecidableEq

/-- What `init` finds around it: the environment, the parser of durations,
the UUID that `uuid.New()` returns, the clock, the answers of the two
container endpoints (for the metadata, the task id), and the result of the
manager's `Connect`. -/
structure InitEnv where
  lookupEnv : String → Option String
  parseDuration : String → Option Int
  newUUID : UUID
  now : Time
  fetchContainerCredentials : Except GoError AwsCredentials
  fetchContainerTaskMetadata : Except GoError String
  connect : ConnectArgs → Option GoError

/-- How a call of `init` ends: it returns, or `log.Fatalf` ends the process
after printing a message. -/
inductive InitExit
  | returned (err : Option GoError)
  | fatal (message : String)
  deriving DecidableEq

/-- What one call of `init` does: the receiver afterwards, how the call
ends, the calls of the manager's `Connect` and the inputs given to the
signer, in order. -/
structure InitResult where
  state : gameLiftServerState
  exit : InitExit
  connects : List ConnectArgs
  signed : List SigV4Parameters

/-- The function `getSigV4QueryParameters`. It reads the identity from the
package variable `state`, given here as `pkg`. The result is the input given
to the signer and either the message of `log.Fatalf` or the signed map. -/
def getSigV4QueryParameters (pkg : gameLiftServerState) (now : Time)
    (awsRegion accessKey secretKey sessionToken : String) :
    SigV4Parameters × Except String (Option (List (String × String))) :=
  let awsCredentials : AwsCredentials :=
    { AccessKey := accessKey, SecretKey := secretKey, SessionToken := sessionToken }
  let queryParamsToSign : List (String × String) :=
    [(ComputeIDKey, pkg.hostID), (FleetIDKey, pkg.fleetID), (PidKey, pkg.processID)]
  let sigV4Parameters : SigV4Parameters :=
    { AwsRegion := awsRegion, AwsCredentials := awsCredentials,
      QueryParams := some queryParamsToSign, RequestTime := now }
  match GenerateSigV4QueryParameters sigV4Parameters with
  | (_, some err) =>
    (sigV4Parameters, Except.error ("Error generating SigV4 query string: " ++ err.Error ++ "\n"))
  | (sigV4QueryParameters, none) => (sigV4Parameters, Except.ok sigV4QueryParameters)

/-- The first statements of `init`: the cache is made, the identity is
taken from the environment or else from `params`, and the process id is
replaced by the string of a new UUID when the variable of the process id
holds the sentinel. -/
def gameLiftServerState.initIdentity (state : gameLiftServerState) (e : InitEnv)
    (params : ServerParameters) : gameLiftServerState :=
  let state := { state with fleetRoleResultCache := some [] }
  let state :=
    { state with
      processID := GetEnvStringOrDefault e.lookupEnv EnvironmentKeyProcessID params.ProcessID }
  let state :=
    { state with hostID := GetEnvStringOrDefault e.lookupEnv EnvironmentKeyHostID params.HostID }
  let state :=
    { state with fleetID := GetEnvStringOrDefault e.lookupEnv EnvironmentKeyFleetID params.FleetID }
  if GetEnvStringOrDefault e.lookupEnv EnvironmentKeyProcessID "" = AgentlessContainerProcessId
  then { state with processID := UUID.String e.newUUID }
  else state

/-- The statements of `init` after the check of the credentials: the flag
`onManagedEC2` and the four tunables; `Duration.Milliseconds` divides by
`1e6`, rounding towards zero. -/
def gameLiftServerState.initTunables (state : gameLiftServerState) (e : InitEnv) :
    gameLiftServerState :=
  let state := { state with onManagedEC2 := true }
  let state :=
    { state with
      defaultJitterIntervalMs :=
        (GetEnvDurationOrDefault e.lookupEnv e.parseDuration HealthcheckMaxJitter
          HealthcheckMaxJitterDefault).tdiv 1000000 }
  let state :=
    { state with
      healthCheckInterval :=
        GetEnvDurationOrDefault e.lookupEnv e.parseDuration HealthcheckInterval
          HealthcheckIntervalDefault }
  let state :=
    { state with
      healthCheckTimeout :=
        GetEnvDurationOrDefault e.lookupEnv e.parseDuration HealthcheckTimeout
          HealthcheckTimeoutDefault }
  { state with
    serviceCallTimeout :=
      GetEnvDurationOrDefault e.lookupEnv e.parseDuration ServiceCallTimeout
        ServiceCallTimeoutDefault }

/-- The last statements of `init`: the manager is stored and its `Connect`
is called with the identity of the receiver; `signed` are the inputs given
to the signer before. -/
def gameLiftServerState.initConnect (state : gameLiftServerState) (e : InitEnv)
    (websocketUrl authToken : String) (sigV4QueryParameters : Option (List (String × String)))
    (signed : List SigV4Parameters) : InitResult :=
  let state := { state with wsGameLift := true }
  let args : ConnectArgs :=
    { websocketURL := websocketUrl, processID := state.processID, hostID := state.hostID,
      fleetID := state.fleetID, authToken := authToken,
      sigV4QueryParameters := sigV4QueryParameters }
  match e.connect args with
  | some err =>
    { state := state,
      exit := InitExit.returned
        (some (NewGameLiftError GameLiftErrorType.LocalConnectionFailed "" err.Error)),
      connects := [args], signed := signed }
  | none =>
    { state := state, exit := InitExit.returned none, connects := [args], signed := signed }

/-- The call of `getSigV4QueryParameters` in `init` and what follows it;
`pkg` is the package variable `state`, `none` when the receiver is that
variable itself. -/
def gameLiftServerState.initSign (state : gameLiftServerState)
    (pkg : Option gameLiftServerState) (e : InitEnv)
    (websocketUrl authToken awsRegion accessKey secretKey sessionToken : String) : InitResult :=
  match getSigV4QueryParameters (pkg.getD state) e.now awsRegion accessKey secretKey
      sessionToken with
  | (input, Except.error message) =>
    { state := state, exit := InitExit.fatal message, connects := [], signed := [input] }
  | (input, Except.ok sigV4QueryParameters) =>
    state.initConnect e websocketUrl authToken sigV4QueryParameters [input]

/-- The method `init`. The receiver is `state`; `pkg` is the package variable
`state` that `getSigV4QueryParameters` reads, `none` when the receiver is
that variable itself (as in `InitSDK`). A nil `params` is `none`. The two
fetchers are made with a non-nil client, so making them does not fail. -/
def gameLiftServerState.init (state : gameLiftServerState) (pkg : Option gameLiftServerState)
    (e : InitEnv) (params : Option ServerParameters) : InitResult :=
  match params with
  | none =>
    { state := state,
      exit := InitExit.returned
        (some (NewGameLiftError GameLiftErrorType.GameLiftServerNotInitialized "" "")),
      connects := [], signed := [] }
  | some params =>
    let state := state.initIdentity e params
    let websocketUrl :=
      GetEnvStringOrDefault e.lookupEnv EnvironmentKeyWebsocketURL params.WebSocketURL
    let computeType := GetEnvStringOrDefault e.lookupEnv EnvironmentKeyComputeType ""
    let authToken := GetEnvStringOrDefault e.lookupEnv EnvironmentKeyAuthToken params.AuthToken
    let awsRegion := GetEnvStringOrDefault e.lookupEnv EnvironmentKeyAwsRegion params.AwsRegion
    let accessKey := GetEnvStringOrDefault e.lookupEnv EnvironmentKeyAccessKey params.AccessKey
    let secretKey := GetEnvStringOrDefault e.lookupEnv EnvironmentKeySecretKey params.SecretKey
    let sessionToken :=
      GetEnvStringOrDefault e.lookupEnv EnvironmentKeySessionToken params.SessionToken
    let isContainerComputeType : Bool := decide (computeType = ComputeTypeContainer)
    let authTokenPassed : Bool := decide (authToken ≠ "")
    let sigV4ParametersPassed : Bool :=
      decide (awsRegion ≠ "") && decide (accessKey ≠ "") && decide (secretKey ≠ "")
    if !authTokenPassed && !sigV4ParametersPassed && !isContainerComputeType then
      { state := state,
        exit := InitExit.returned
          (some (NewGameLiftError GameLiftErrorType.BadRequestException ""
            "Either AuthToken or AwsRegion and AwsCredentials are required")),
        connects := [], signed := [] }
    else
      let state := state.initTunables e
      if !authTokenPassed then
        if isContainerComputeType then
          match e.fetchContainerCredentials with
          | Except.error err =>
            { state := state,
              exit := InitExit.fatal ("Failed to fetch container credentials: " ++ err.Error),
              connects := [], signed := [] }
          | Except.ok awsCredentials =>
            match e.fetchContainerTaskMetadata with
            | Except.error err =>
              { state := state,
                exit := InitExit.fatal ("Failed to fetch container task metadata: " ++ err.Error),
                connects := [], signed := [] }
            | Except.ok taskId =>
              gameLiftServerState.initSign { state with hostID := taskId } pkg e websocketUrl
                authToken awsRegion awsCredentials.AccessKey awsCredentials.SecretKey
                awsCredentials.SessionToken
        else state.initSign pkg e websocketUrl authToken awsRegion accessKey secretKey sessionToken
      else state.initConnect e websocketUrl authToken none []

/-- What one of the four senders does: the returned error and the messages
handed to `SendMessage` of the manager, in order. -/
structure SendResult (ρ : Type) where
  err : Option GoError
  sent : List ρ

/-- The method `activateGameSession`; `send` is the result of `SendMessage`
of the manager, `id` the UUID drawn for the request. -/
def gameLiftServerState.activateGameSession (state : gameLiftServerState)
    (send : ActivateGameSessionRequest → Option GoError) (id : UUID) :
    SendResult ActivateGameSessionRequest :=
  if !state.isReadyProcess then
    { err := some (NewGameLiftError GameLiftErrorType.ProcessNotReady "" ""), sent := [] }
  else if state.gameSessionID = "" then
    { err := some (NewGameLiftError GameLiftErrorType.GamesessionIDNotSet "" ""), sent := [] }
  else
    let req := NewActivateGameSession id state.gameSessionID
    { err := send req, sent := [req] }

/-- The method `updatePlayerSessionCreationPolicy`; a nil `policy` is `none`. -/
def gameLiftServerState.updatePlayerSessionCreationPolicy (state : gameLiftServerState)
    (send : UpdatePlayerSessionCreationPolicyRequest → Option GoError) (id : UUID)
    (policy : Option PlayerSessionCreationPolicy) :
    SendResult UpdatePlayerSessionCreationPolicyRequest :=
  if !state.isReadyProcess then
    { err := some (NewGameLiftError GameLiftErrorType.ProcessNotReady "" ""), sent := [] }
  else if state.gameSessionID = "" then
    { err := some (NewGameLiftError GameLiftErrorType.GamesessionIDNotSet "" ""), sent := [] }
  else
    match policy with
    | none =>
      { err := some (NewGameLiftError GameLiftErrorType.BadRequestException "" ""), sent := [] }
    | some policy =>
      let req := NewUpdatePlayerSessionCreationPolicy id state.gameSessionID policy
      { err := send req, sent := [req] }

/-- The method `acceptPlayerSession`. -/
def gameLiftServerState.acceptPlayerSession (state : gameLiftServerState)
    (send : AcceptPlayerSessionRequest → Option GoError) (id : UUID) (playerSessionID : String) :
    SendResult AcceptPlayerSessionRequest :=
  if !state.isReadyProcess then
    { err := some (NewGameLiftError GameLiftErrorType.ProcessNotReady "" ""), sent := [] }
  else if state.gameSessionID = "" then
    { err := some (NewGameLiftError GameLiftErrorType.GamesessionIDNotSet "" ""), sent := [] }
  else
    let req := NewAcceptPlayerSession id state.gameSessionID playerSessionID
    { err := send req, sent := [req] }

/-- The method `removePlayerSession`. -/
def gameLiftServerState.removePlayerSession (state : gameLiftServerState)
    (send : RemovePlayerSessionRequest → Option GoError) (id : UUID) (playerSessionID : String) :
    SendResult RemovePlayerSessionRequest :=
  if !state.isReadyProcess then
    { err := some (NewGameLiftError GameLiftErrorType.ProcessNotReady "" ""), sent := [] }
  else if state.gameSessionID = "" then
    { err := some (NewGameLiftError GameLiftErrorType.GamesessionIDNotSet "" ""), sent := [] }
  else
    let req := NewRemovePlayerSession id state.gameSessionID playerSessionID
    { err := send req, sent := [req] }

/-- The method `getRoleCredentialsFromCache`; `now` is
`time.Now().UnixMilli()`. The result is the receiver afterwards, the entry
and the flag. The subtraction and the product with `time.Millisecond` are
64-bit. -/
def gameLiftServerState.getRoleCredentialsFromCache (state : gameLiftServerState) (now : Int)
    (roleArn : String) : gameLiftServerState × GetFleetRoleCredentialsResult × Bool :=
  match mapGet (state.fleetRoleResultCache.getD []) roleArn with
  | some previousResult =>
    let timeToLive := wrapInt64 (wrapInt64 (previousResult.Expiration - now) * Millisecond)
    if timeToLive > InstanceRoleCredentialTTL then (state, previousResult, true)
    else
      ({ state with
          fleetRoleResultCache := state.fleetRoleResultCache.map (fun m => mapDelete m roleArn) },
        GetFleetRoleCredentialsResult.zero, false)
  | none => (state, GetFleetRoleCredentialsResult.zero, false)

/-- What one call of `getFleetRoleCredentials` does: the receiver afterwards,
the returned result and error, the requests handed to `HandleRequest` of the
manager, and whether the call ended in a run-time panic (a store into a nil
map) instead of returning. -/
structure FleetRoleCredentialsCall where
  state : gameLiftServerState
  res : GetFleetRoleCredentialsResult
  err : Option GoError
  requests : List GetFleetRoleCredentialsRequest
  panicked : Bool

/-- The method `getFleetRoleCredentials`; a nil `req` is `none`, `now` is
`time.Now().UnixMilli()`, and `handle` gives, for the request handed to
`HandleRequest`, the value of `res` after the call and the returned error. -/
def gameLiftServerState.getFleetRoleCredentials (state : gameLiftServerState) (now : Int)
    (handle : GetFleetRoleCredentialsRequest → GetFleetRoleCredentialsResult × Option GoError)
    (req : Option GetFleetRoleCredentialsRequest) : FleetRoleCredentialsCall :=
  match req with
  | none =>
    { state := state, res := GetFleetRoleCredentialsResult.zero,
      err := some (NewGameLiftError GameLiftErrorType.BadRequestException "" ""),
      requests := [], panicked := false }
  | some req =>
    if !state.onManagedEC2 then
      { state := state, res := GetFleetRoleCredentialsResult.zero,
        err := some (NewGameLiftError GameLiftErrorType.BadRequestException "" ""),
        requests := [], panicked := false }
    else
      match state.getRoleCredentialsFromCache now req.RoleArn with
      | (state, res, true) =>
        { state := state, res := res, err := none, requests := [], panicked := false }
      | (state, res, false) =>
        let req :=
          if req.RoleSessionName = [] then
            let name := bytesOf state.fleetID ++ [45] ++ bytesOf state.hostID
            if name.length > RoleSessionNameMaxLength then
              { req with RoleSessionName := name.take RoleSessionNameMaxLength }
            else { req with RoleSessionName := name }
          else req
        if req.RoleSessionName.length > RoleSessionNameMaxLength then
          { state := state, res := res,
            err := some (NewGameLiftError GameLiftErrorType.BadRequestException "" ""),
            requests := [], panicked := false }
        else if !state.isReadyProcess then
          { state := state, res := res,
            err := some (NewGameLiftError GameLiftErrorType.ProcessNotReady "" ""),
            requests := [], panicked := false }
        else
          match handle req with
          | (res, some err) =>
            { state := state, res := res, err := some err, requests := [req], panicked := false }
          | (res, none) =>
            if res.AccessKeyID = "" then
              { state := { state with onManagedEC2 := false }, res := res,
                err := some (NewGameLiftError GameLiftErrorType.BadRequestException "" ""),
                requests := [req], panicked := false }
            else
              match state.fleetRoleResultCache with
              | none =>
                { state := state, res := res, err := none, requests := [req], panicked := true }
              | some cache =>
                { state := { state with fleetRoleResultCache := some (mapSet cache req.RoleArn res) },
                  res := res, err := none, requests := [req], panicked := false }

/-- The parameters of `TestInit`. -/
def testServerParameters : ServerParameters :=
  { WebSocketURL := "wss://test.url", ProcessID := "test-process-id", HostID := "test-host-id",
    FleetID := "test-fleet-id", AuthToken := "test-auth-token", AwsRegion := "", AccessKey := "",
    SecretKey := "", SessionToken := "" }

/-- The surroundings of `init` in the tests of the server state: an
environment with the variables given by `vars`, endpoints that do not answer,
a manager whose `Connect` succeeds. -/
def testInitEnv (vars : List (String × String)) : InitEnv :=
  { lookupEnv := fun key => mapGet vars key,
    parseDuration := fun _ => none,
    newUUID := [1, 35, 69, 103, 137, 171, 205, 239, 1, 35, 69, 103, 137, 171, 205, 239],
    now := { unix := 1722852000, nsec := 0 },
    fetchContainerCredentials := Except.error (GoError.other "no endpoint"),
    fetchContainerTaskMetadata := Except.error (GoError.other "no endpoint"),
    connect := fun _ => none }

/-- A UUID for the requests of the samples. -/
def testUUID : UUID := [1, 35, 69, 103, 137, 171, 205, 239, 1, 35, 69, 103, 137, 171, 205, 239]

/-- A server state after `init`, `processReady` and the start of a game
session. -/
def testReadyState : gameLiftServerState :=
  { gameLiftServerState.zero with
    wsGameLift := true, processID := "test-process-id", hostID := "test-host-id",
    fleetID := "test-fleet-id", gameSessionID := "test-game-session-id", isReadyProcess := true,
    onManagedEC2 := true, fleetRoleResultCache := some [] }

/-- Credentials that expire at `expiration` (milliseconds). -/
def testCredentials (expiration : Int) : GetFleetRoleCredentialsResult :=
  { AssumedRoleUserArn := "arn:aws:sts::123456789012:assumed-role/test/session",
    AssumedRoleID := "AROATEST:session", AccessKeyID := "ASIATEST", SecretAccessKey := "secret",
    SessionToken := "token", Expiration := expiration }

/-- A server state after `processEnding` (the flag `processReady` is false
again) whose cache holds credentials for `TEST_ROLE_ARN` that expire at
`expiration`. -/
def testEndedState (expiration : Int) : gameLiftServerState :=
  { testReadyState with
    isReadyProcess := false,
    fleetRoleResultCache := some [("TEST_ROLE_ARN", testCredentials expiration)] }

/-- A request for the credentials of `TEST_ROLE_ARN`, as
`NewGetFleetRoleCredentials` makes it, without a role session name. -/
def testCredentialsRequest : GetFleetRoleCredentialsRequest :=
  { toMessage := NewMessage testUUID "GetFleetRoleCredentials", RoleArn := "TEST_ROLE_ARN",
    RoleSessionName := [] }

/-! ## Calls on a transport, receives from a channel -/

/-- A later call on a transport: `Reconnect` or `Write`. -/
inductive TransportCall
  | Reconnect
  | Write
  deriving DecidableEq

/-- One call on a transport: the transport afterwards and the returned error;
`none` when `Write` runs out of fuel or dereferences nil. -/
def websocketTransport.call (env : SocketEnv) (fuel : Nat) (tr : websocketTransport) :
    TransportCall → Option (websocketTransport × Option GoError)
  | TransportCall.Reconnect => some (tr.Reconnect env)
  | TransportCall.Write =>
    match tr.Write env fuel with
    | some (WriteResult.returned tr1 err) => some (tr1, err)
    | _ => none

/-- A sequence of calls on a transport, one after the other: the transport
afterwards and the returned errors, in order. -/
def websocketTransport.calls (env : SocketEnv) (fuel : Nat) :
    websocketTransport → List TransportCall → Option (websocketTransport × List (Option GoError))
  | tr, [] => some (tr, [])
  | tr, c :: rest =>
    match tr.call env fuel c with
    | none => none
    | some (tr1, err) =>
      match websocketTransport.calls env fuel tr1 rest with
      | none => none
      | some (tr2, errs) => some (tr2, err :: errs)

/-- What a receive `<-ch` yields once the events have happened: the first
value sent to the channel, else the zero `Outcome` when the channel has been
closed, else nothing (the receive blocks). -/
def chanReceive (events : List Event) (ch : ChanId) : Option Outcome :=
  match events.filterMap
      (fun e => match e with
        | Event.chanSend c o => if c = ch then some o else none
        | _ => none) with
  | o :: _ => some o
  | [] => if Event.chanClose ch ∈ events then some { Data := none, Error := none } else none

/-- A dialer that never gets through. -/
def neverDials : SocketEnv :=
  { writeMessage := fun _ => none,
    dial := fun _ => some "connection error :refused",
    connClose := fun _ => none }

/-- Parameters of `init` with a region and keys instead of an auth token. -/
def testSigV4ServerParameters : ServerParameters :=
  { testServerParameters with
    AuthToken := "", AwsRegion := "us-east-1", AccessKey := "testAccessKey",
    SecretKey := "testSecretKey" }

/-- The request of `getFleetRoleCredentials` after the statement that fills
in an empty role session name: `<fleetId>-<hostId>`, cut to 64 bytes. -/
def gameLiftServerState.withRoleSessionName (state : gameLiftServerState)
    (req : GetFleetRoleCredentialsRequest) : GetFleetRoleCredentialsRequest :=
  if req.RoleSessionName = [] then
    let name := bytesOf state.fleetID ++ [45] ++ bytesOf state.hostID
    if name.length > RoleSessionNameMaxLength then
      { req with RoleSessionName := name.take RoleSessionNameMaxLength }
    else { req with RoleSessionName := name }
  else req

/-- What the signer is given when `init` runs on the package variable with
`testSigV4ServerParameters` in an empty environment. -/
def testSignerInput : SigV4Parameters :=
  { AwsRegion := "us-east-1",
    AwsCredentials :=
      { AccessKey := "testAccessKey", SecretKey := "testSecretKey", SessionToken := "" },
    QueryParams :=
      some [("ComputeId", "test-host-id"), ("FleetId", "test-fleet-id"),
        ("pID", "test-process-id")],
    RequestTime := { unix := 1722852000, nsec := 0 } }

/-! ## server/server_state.go: the life of the process -/

/-- The server state together with the channels of the program: `made`
channels have been made so far, with the identities below `made`; `closes`
lists the `close` calls so far, in order; `heartbeats` lists the `done`
channels of the `startHealthCheck` goroutines started so far. -/
structure Server where
  state : gameLiftServerState
  made : Nat
  closes : List ChanId
  heartbeats : List ChanId
  deriving DecidableEq

/-- The program before any call: the zero state, no channel. -/
def Server.start : Server :=
  { state := gameLiftServerState.zero, made := 0, closes := [], heartbeats := [] }

/-- What a call on the server does: the server afterwards, the returned
error, and whether the call ended in a run-time panic (a call on the nil
manager) instead of returning. -/
structure ServerCallResult where
  server : Server
  err : Option GoError
  panicked : Bool
  deriving DecidableEq

/-- The function `isChannelOpen`, for a channel to which nothing is ever
sent: a receive is ready only on a closed channel, and never on the nil
channel. -/
def isChannelOpen (closes : List ChanId) (ch : Option ChanId) : Bool :=
  match ch with
  | none => true
  | some c => !closes.contains c

/-- The method `stopServerProcess`; the swap takes `isReadyProcess` from true
to false. -/
def Server.stopServerProcess (w : Server) : Server :=
  if w.state.isReadyProcess then
    let w := { w with state := { w.state with isReadyProcess := false } }
    if isChannelOpen w.closes w.state.shutdown && decide (w.state.shutdown ≠ none) then
      { w with closes := w.closes ++ w.state.shutdown.toList }
    else w
  else w

/-- The method `processReady`; a nil `params` is `none`, `handled` is the
result of `HandleRequest` for the `ActivateServerProcess` request. -/
def Server.processReady (w : Server) (params : Option ProcessParameters)
    (handled : Option GoError) : ServerCallResult :=
  match params with
  | none =>
    { server := w, err := some (NewGameLiftError GameLiftErrorType.ProcessNotReady "" ""),
      panicked := false }
  | some p =>
    let w := { w with state := { w.state with parameters := some p } }
    if !w.state.wsGameLift then { server := w, err := none, panicked := true }
    else
      match handled with
      | some err =>
        { server := w,
          err := some (NewGameLiftError GameLiftErrorType.ProcessNotReady "" err.Error),
          panicked := false }
      | none =>
        let w := { w with state := { w.state with isReadyProcess := true } }
        let ch := w.made
        let w := { w with state := { w.state with shutdown := some ch }, made := w.made + 1 }
        { server := { w with heartbeats := w.heartbeats ++ [ch] }, err := none,
          panicked := false }

/-- The method `processEnding`; `sent` is the result of `SendMessage` for the
`TerminateServerProcess` request. -/
def Server.processEnding (w : Server) (sent : Option GoError) : ServerCallResult :=
  if !w.state.wsGameLift then { server := w, err := none, panicked := true }
  else
    match sent with
    | some err =>
      { server := w,
        err := some (NewGameLiftError GameLiftErrorType.ProcessEndingFailed "" err.Error),
        panicked := false }
    | none => { server := w.stopServerProcess, err := none, panicked := false }

/-- The method `destroy`; `disconnected` is the result of `Disconnect` of the
manager. -/
def Server.destroy (w : Server) (disconnected : Option GoError) : ServerCallResult :=
  let w := w.stopServerProcess
  if !w.state.wsGameLift then { server := w, err := none, panicked := true }
  else { server := w, err := disconnected, panicked := false }

/-- The method `OnStartGameSession`, as far as the state goes; a nil session
is `none`, else the `GameSessionID` of the session. -/
def gameLiftServerState.OnStartGameSession (state : gameLiftServerState)
    (session : Option String) : gameLiftServerState :=
  match session with
  | none => state
  | some gameSessionID =>
    if !state.isReadyProcess then state else { state with gameSessionID := gameSessionID }

/-- The method `OnTerminateProcess`, as far as the state goes; the division
of 64-bit integers rounds towards zero. -/
def gameLiftServerState.OnTerminateProcess (state : gameLiftServerState)
    (terminationTime : Int) : gameLiftServerState :=
  { state with terminationTime := terminationTime.tdiv 1000 }

/-- The method `getTerminationTime`. -/
def gameLiftServerState.getTerminationTime (state : gameLiftServerState) :
    Int × Option GoError :=
  if state.terminationTime = 0 then
    (0, some (NewGameLiftError GameLiftErrorType.TerminationTimeNotSet "" ""))
  else (state.terminationTime, none)

/-- The method `getNextHealthCheckIntervalSeconds`; `draw` is the result of
`localRnd.Int63n`, which panics (`none`) unless its argument is positive.
Every operation is on 64-bit integers. -/
def gameLiftServerState.getNextHealthCheckIntervalSeconds (state : gameLiftServerState)
    (draw : Int) : Option Int :=
  if state.defaultJitterIntervalMs ≤ 0 then none
  else
    let jitterMs := wrapInt64 (wrapInt64 (2 * draw) - state.defaultJitterIntervalMs)
    some (wrapInt64 (state.healthCheckInterval - wrapInt64 (jitterMs * Millisecond)))

/-- A call that can change the server state. `init` is run on the package
variable, as `InitSDK` runs it. -/
inductive ServerCall
  | init (e : InitEnv) (params : Option ServerParameters)
  | processReady (params : Option ProcessParameters) (handled : Option GoError)
  | processEnding (sent : Option GoError)
  | destroy (disconnected : Option GoError)
  | OnStartGameSession (session : Option String)
  | OnTerminateProcess (terminationTime : Int)
  | getFleetRoleCredentials (now : Int)
      (handle : GetFleetRoleCredentialsRequest → GetFleetRoleCredentialsResult × Option GoError)
      (req : Option GetFleetRoleCredentialsRequest)

/-- One call on the server; `none` when the program ends in the call, by a
panic or by `log.Fatalf`. -/
def Server.call (w : Server) : ServerCall → Option Server
  | ServerCall.init e params =>
    match w.state.init none e params with
    | { state := state, exit := InitExit.returned _, .. } => some { w with state := state }
    | { exit := InitExit.fatal _, .. } => none
  | ServerCall.processReady params handled =>
    if (w.processReady params handled).panicked then none
    else some (w.processReady params handled).server
  | ServerCall.processEnding sent =>
    if (w.processEnding sent).panicked then none else some (w.processEnding sent).server
  | ServerCall.destroy disconnected =>
    if (w.destroy disconnected).panicked then none else some (w.destroy disconnected).server
  | ServerCall.OnStartGameSession session =>
    some { w with state := w.state.OnStartGameSession session }
  | ServerCall.OnTerminateProcess terminationTime =>
    some { w with state := w.state.OnTerminateProcess terminationTime }
  | ServerCall.getFleetRoleCredentials now handle req =>
    if (w.state.getFleetRoleCredentials now handle req).panicked then none
    else some { w with state := (w.state.getFleetRoleCredentials now handle req).state }

/-- A sequence of calls on the server, one after the other. -/
def Server.run : List ServerCall → Server → Option Server
  | [], w => some w
  | c :: rest, w =>
    match w.call c with
    | none => none
    | some w1 => Server.run rest w1

/-- The time carried by the last terminate-process notification among the
calls, if there is one. -/
def lastTermination : List ServerCall → Option Int
  | [] => none
  | c :: rest =>
    match lastTermination rest with
    | some t => some t
    | none =>
      match c with
      | ServerCall.OnTerminateProcess t => some t
      | _ => none

/-- Whether a call is a `processEnding` or a `destroy`. -/
def ServerCall.isStop : ServerCall → Bool
  | ServerCall.processEnding _ => true
  | ServerCall.destroy _ => true
  | _ => false

/-- Whether a call reaches `stopServerProcess`: every `destroy`, and a
`processEnding` whose message is sent. -/
def ServerCall.stops : ServerCall → Bool
  | ServerCall.processEnding sent => sent.isNone
  | ServerCall.destroy _ => true
  | _ => false

/-- The process parameters of the tests of the server state. -/
def testProcessParameters : ProcessParameters :=
  { OnStartGameSession := true, OnUpdateGameSession := false, OnProcessTerminate := true,
    OnHealthCheck := true, Port := 8080, LogPaths := ["/local", "game", "logs"] }

/-- The program after `init` with an auth token. -/
def testServer : Server :=
  { state :=
      { gameLiftServerState.zero with
        wsGameLift := true, processID := "test-process-id", hostID := "test-host-id",
        fleetID := "test-fleet-id", onManagedEC2 := true, fleetRoleResultCache := some [] },
    made := 0, closes := [], heartbeats := [] }

/-! ## strconv, strings -/

/-- Four hexadecimal digits of a number. -/
def hex4 (n : Nat) : List Char :=
  [hexDigit (n / 4096 % 16), hexDigit (n / 256 % 16), hexDigit (n / 16 % 16), hexDigit (n % 16)]

/-- How `strconv.Quote` writes one character; `isPrint` is `strconv.IsPrint`
on the characters that are not ASCII. -/
def quoteChar (isPrint : Char → Bool) (c : Char) : List Char :=
  let n := c.toNat
  if c = '"' ∨ c = '\\' then ['\\', c]
  else if (if n < 128 then decide (32 ≤ n ∧ n < 127) else isPrint c) then [c]
  else if n = 7 then ['\\', 'a']
  else if n = 8 then ['\\', 'b']
  else if n = 12 then ['\\', 'f']
  else if n = 10 then ['\\', 'n']
  else if n = 13 then ['\\', 'r']
  else if n = 9 then ['\\', 't']
  else if n = 11 then ['\\', 'v']
  else if n < 32 ∨ n = 127 then ['\\', 'x', hexDigit (n / 16), hexDigit (n % 16)]
  else if n < 65536 then '\\' :: 'u' :: hex4 n
  else '\\' :: 'U' :: (hex4 (n / 65536) ++ hex4 (n % 65536))

/-- The library function `strconv.Quote`, on a string of valid UTF-8. -/
def Quote (isPrint : Char → Bool) (s : String) : String :=
  String.mk ('"' :: (s.toList.flatMap (quoteChar isPrint) ++ ['"']))

/-- The library function `strconv.Unquote`, on a string of valid UTF-8: a
string in double quotes without a backslash and without a newline gives what
stands between the quotes, provided nothing follows the closing quote;
`unquoteOther` is the library on the inputs with escape sequences, with
single quotes or with back quotes. `none` is an error. -/
def Unquote (unquoteOther : String → Option String) (s : String) : Option String :=
  match s.toList with
  | [] => none
  | c :: rest =>
    if c = '"' then
      if '"' ∈ rest then
        let inner := rest.takeWhile (fun d => d != '"')
        let rem := (rest.dropWhile (fun d => d != '"')).drop 1
        if '\\' ∉ inner ∧ '\n' ∉ inner then
          if rem = [] then some (String.mk inner) else none
        else unquoteOther s
      else none
    else if c = '\'' ∨ c = '`' then unquoteOther s
    else none

/-- The loop of `strings.EqualFold` over bytes that are ASCII; `foldUnicode`
is the library on the rest of the two strings, from the first position where
one of the bytes is not ASCII. -/
def equalFoldBytes (foldUnicode : List Nat → List Nat → Bool) : List Nat → List Nat → Bool
  | [], [] => true
  | [], _ :: _ => false
  | _ :: _, [] => false
  | sr :: s, tr :: t =>
    if sr ≥ 128 ∨ tr ≥ 128 then foldUnicode (sr :: s) (tr :: t)
    else if tr = sr then equalFoldBytes foldUnicode s t
    else if 65 ≤ min sr tr ∧ min sr tr ≤ 90 ∧ max sr tr = min sr tr + 32 then
      equalFoldBytes foldUnicode s t
    else false

/-- The library function `strings.EqualFold`. -/
def EqualFold (foldUnicode : List Nat → List Nat → Bool) (s t : String) : Bool :=
  equalFoldBytes foldUnicode (bytesOf s) (bytesOf t)

/-! ## model: the enumerations -/

/-- The body shared by the `String` methods of the enumerations:
`n := int(*g); if n >= len(strs) { n = 0 }; return strs[n]`. A negative
value indexes out of range: `none` is the panic. -/
def enumString (strs : List String) (v : Int) : Option String :=
  let n := if v ≥ strs.length then 0 else v
  if n < 0 then none else strs[n.toNat]?

/-- The loop shared by the conversions from a name: the index of the first
name that `eq` matches with `s`, counted from `i`, else the zero constant. -/
def enumOfString (eq : String → String → Bool) : List String → Nat → String → Int
  | [], _, _ => 0
  | name :: rest, i, s => if eq name s then (i : Int) else enumOfString eq rest (i + 1) s

/-- The type `gameSessionStatus` (an `int`). -/
abbrev gameSessionStatus := Int

def GameNotSet : gameSessionStatus := 0
def GameActive : gameSessionStatus := 1
def GameActivating : gameSessionStatus := 2
def GameTerminated : gameSessionStatus := 3
def GameTerminating : gameSessionStatus := 4

def gameSessionStatusStrs : List String :=
  ["NOT_SET", "ACTIVE", "ACTIVATING", "TERMINATED", "TERMINATING"]

/-- The method `toGameSessionStatus`: the new value of the receiver. -/
def toGameSessionStatus (s : String) : gameSessionStatus :=
  enumOfString (fun a b => decide (a = b)) gameSessionStatusStrs 0 s

/-- The method `String` of `gameSessionStatus`. -/
def gameSessionStatusString (g : gameSessionStatus) : Option String :=
  enumString gameSessionStatusStrs g

/-- The method `gameSessionStatus.MarshalJSON`: the bytes, as text. -/
def gameSessionStatus.MarshalJSON (isPrint : Char → Bool) (g : gameSessionStatus) :
    Option String :=
  (gameSessionStatusString g).map (Quote isPrint)

/-- The method `gameSessionStatus.UnmarshalJSON`: the new value of the
receiver, `none` for an error (the receiver then keeps its value). -/
def gameSessionStatus.UnmarshalJSON (unquoteOther : String → Option String) (data : String) :
    Option gameSessionStatus :=
  (Unquote unquoteOther data).map toGameSessionStatus

/-- The type `playerSessionStatus` (an `int`). -/
abbrev playerSessionStatus := Int

def PlayerNotSet : playerSessionStatus := 0
def PlayerReserved : playerSessionStatus := 1
def PlayerActive : playerSessionStatus := 2
def PlayerCompleted : playerSessionStatus := 3
def PlayerTimedout : playerSessionStatus := 4

def playerSessionStatusStrs : List String :=
  ["NOT_SET", "RESERVED", "ACTIVE", "COMPLETED", "TIMEDOUT"]

/-- The method `String` of `playerSessionStatus`. -/
def playerSessionStatusString (p : playerSessionStatus) : Option String :=
  enumString playerSessionStatusStrs p

/-- The method `toPlayerSessionStatus`: the new value of the receiver. -/
def toPlayerSessionStatus (s : String) : playerSessionStatus :=
  enumOfString (fun a b => decide (a = b)) playerSessionStatusStrs 0 s

/-- The method `playerSessionStatus.MarshalJSON`. -/
def playerSessionStatus.MarshalJSON (isPrint : Char → Bool) (p : playerSessionStatus) :
    Option String :=
  (playerSessionStatusString p).map (Quote isPrint)

/-- The method `playerSessionStatus.UnmarshalJSON`. -/
def playerSessionStatus.UnmarshalJSON (unquoteOther : String → Option String) (data : String) :
    Option playerSessionStatus :=
  (Unquote unquoteOther data).map toPlayerSessionStatus

/-- The type `UpdateReason` (an `int`). -/
abbrev UpdateReason := Int

def Unknown : UpdateReason := 0
def MatchmakingDataUpdated : UpdateReason := 1
def BackfillFailed : UpdateReason := 2
def BackfillTimedOut : UpdateReason := 3
def BackfillCancelled : UpdateReason := 4

def updateReasonStrs : List String :=
  ["UNKNOWN", "MATCHMAKING_DATA_UPDATED", "BACKFILL_FAILED", "BACKFILL_TIMED_OUT",
   "BACKFILL_CANCELLED"]

/-- The method `String` of `UpdateReason`. -/
def UpdateReasonString (u : UpdateReason) : Option String :=
  enumString updateReasonStrs u

/-- The method `ToUpdateReason`: the new value of the receiver. -/
def ToUpdateReason (s : String) : UpdateReason :=
  enumOfString (fun a b => decide (a = b)) updateReasonStrs 0 s

/-- The method `UpdateReason.MarshalJSON`. -/
def UpdateReason.MarshalJSON (isPrint : Char → Bool) (u : UpdateReason) : Option String :=
  (UpdateReasonString u).map (Quote isPrint)

/-- The method `UpdateReason.UnmarshalJSON`. -/
def UpdateReason.UnmarshalJSON (unquoteOther : String → Option String) (data : String) :
    Option UpdateReason :=
  (Unquote unquoteOther data).map ToUpdateReason

def NotSet : PlayerSessionCreationPolicy := 0
def DenyAll : PlayerSessionCreationPolicy := 1
def AcceptAll : PlayerSessionCreationPolicy := 2

def playerSessionPolicyStr : List String := ["NOT_SET", "DENY_ALL", "ACCEPT_ALL"]

/-- The method `String` of `PlayerSessionCreationPolicy`. -/
def PlayerSessionCreationPolicyString (p : PlayerSessionCreationPolicy) : Option String :=
  enumString playerSessionPolicyStr p

/-- The method `ToPlayerSessionPolicy`: the new value of the receiver. -/
def ToPlayerSessionPolicy (s : String) : PlayerSessionCreationPolicy :=
  enumOfString (fun a b => decide (a = b)) playerSessionPolicyStr 0 s

/-- The method `PlayerSessionCreationPolicy.MarshalJSON`. -/
def PlayerSessionCreationPolicy.MarshalJSON (isPrint : Char → Bool)
    (p : PlayerSessionCreationPolicy) : Option String :=
  (PlayerSessionCreationPolicyString p).map (Quote isPrint)

/-- The method `PlayerSessionCreationPolicy.UnmarshalJSON`. -/
def PlayerSessionCreationPolicy.UnmarshalJSON (unquoteOther : String → Option String)
    (data : String) : Option PlayerSessionCreationPolicy :=
  (Unquote unquoteOther data).map ToPlayerSessionPolicy

/-- The type `attributeType` (an `int`). -/
abbrev attributeType := Int

/-- The constant `None` of `attributeType`. -/
def AttrNone : attributeType := 0
/-- The constant `String` of `attributeType`. -/
def AttrString : attributeType := 1
/-- The constant `Double` of `attributeType`. -/
def AttrDouble : attributeType := 2
/-- The constant `StringList` of `attributeType`. -/
def AttrStringList : attributeType := 3
/-- The constant `StringDoubleMap` of `attributeType`. -/
def AttrStringDoubleMap : attributeType := 4

def attributeTypesStr : List String :=
  ["NONE", "STRING", "DOUBLE", "STRING_LIST", "STRING_DOUBLE_MAP"]

/-- The method `String` of `attributeType`. -/
def attributeTypeString (a : attributeType) : Option String :=
  enumString attributeTypesStr a

/-- The method `attributeType.MarshalJSON`. -/
def attributeType.MarshalJSON (isPrint : Char → Bool) (a : attributeType) : Option String :=
  (attributeTypeString a).map (Quote isPrint)

/-- The method `attributeType.UnmarshalJSON`: the names are compared with
`strings.EqualFold`. -/
def attributeType.UnmarshalJSON (unquoteOther : String → Option String)
    (foldUnicode : List Nat → List Nat → Bool) (data : String) : Option attributeType :=
  (Unquote unquoteOther data).map
    (fun origin => enumOfString (EqualFold foldUnicode) attributeTypesStr 0 origin)

/-! ## model/attribute_value.go, model/player.go, model/matchmaker_data.go

A nil slice and a nil map are the empty list. The order in which a `range`
statement visits the entries of a map is not fixed by the language: it is
the parameter `rangeOrder`, which gives the entries in the order of the
visit. -/

/-- A `float64`, by its bits. -/
structure Float64 where
  bits : Nat
  deriving DecidableEq

/-- An element of a decoded array or object (`interface{}`), by its dynamic
type. -/
inductive AnyElem
  | string (s : String)
  | float64 (f : Float64)
  | other
  deriving DecidableEq

/-- A value of type `any`, by the dynamic types that `MakeAttributeValue`
tells apart: nil, `float64`, `string`, `[]string`, `map[string]float64`,
`[]interface{}`, `map[string]interface{}`, and the rest. -/
inductive Any
  | nil
  | float64 (f : Float64)
  | string (s : String)
  | strings (sl : List String)
  | floats (sdm : List (String × Float64))
  | anys (sl : List AnyElem)
  | object (sdm : List (String × AnyElem))
  | other
  deriving DecidableEq

/-- The struct `AttributeValue`; a nil `AttrType` is `none`. -/
structure AttributeValue where
  AttrType : Option attributeType
  N : Float64
  S : String
  SL : List String
  SDM : List (String × Float64)
  deriving DecidableEq

/-- The function `MakeAttributeValue`. -/
def MakeAttributeValue (rangeOrder : (ν : Type) → List (String × ν) → List (String × ν))
    (arg : Any) : AttributeValue :=
  match arg with
  | Any.float64 f => { AttrType := some AttrDouble, N := f, S := "", SL := [], SDM := [] }
  | Any.string s => { AttrType := some AttrString, N := ⟨0⟩, S := s, SL := [], SDM := [] }
  | Any.strings sl => { AttrType := some AttrStringList, N := ⟨0⟩, S := "", SL := sl, SDM := [] }
  | Any.floats sdm =>
    { AttrType := some AttrStringDoubleMap, N := ⟨0⟩, S := "", SL := [], SDM := sdm }
  | Any.anys sl =>
    { AttrType := some AttrStringList, N := ⟨0⟩, S := "",
      SL := sl.filterMap (fun e => match e with
        | AnyElem.string str => some str
        | _ => none),
      SDM := [] }
  | Any.object sdm =>
    { AttrType := some AttrStringDoubleMap, N := ⟨0⟩, S := "", SL := [],
      SDM := (rangeOrder _ sdm).foldl (fun val e => match e.2 with
        | AnyElem.float64 f => mapSet val e.1 f
        | _ => val) [] }
  | _ => { AttrType := some AttrNone, N := ⟨0⟩, S := "", SL := [], SDM := [] }

/-- The struct `Player`. -/
structure Player where
  PlayerID : String
  Team : String
  PlayerAttributes : List (String × AttributeValue)
  LatencyInMS : List (String × Int)
  deriving DecidableEq

/-- The struct `MatchmakerData`. -/
structure MatchmakerData where
  MatchID : String
  MatchmakingConfigurationArn : String
  Players : List Player
  AutoBackfillTicketID : String
  deriving DecidableEq

/-- The struct `attributeMatchMakerData`. -/
structure attributeMatchMakerData where
  AttributeType : String
  ValueAttribute : Any
  deriving DecidableEq

/-- The struct `playerMatchmakerData`. -/
structure playerMatchmakerData where
  PlayerID : String
  AttributeValue : List (String × attributeMatchMakerData)
  deriving DecidableEq

/-- The struct `teamMatchmakerData`. -/
structure teamMatchmakerData where
  Name : String
  Players : List playerMatchmakerData
  deriving DecidableEq

/-- The struct `matchmakerDataOriginal`. -/
structure matchmakerDataOriginal where
  MatchID : String
  MatchmakingConfigurationArn : String
  Teams : List teamMatchmakerData
  AutoBackfillTicketID : String
  deriving DecidableEq

/-- The zero value `var origin matchmakerDataOriginal`. -/
def matchmakerDataOriginal.zero : matchmakerDataOriginal :=
  { MatchID := "", MatchmakingConfigurationArn := "", Teams := [], AutoBackfillTicketID := "" }

/-- The function `fromAttributesValue`; `none` is the panic of `*a.AttrType`
on a nil pointer. -/
def fromAttributesValue (a : AttributeValue) : Option attributeMatchMakerData :=
  match a.AttrType with
  | none => none
  | some t =>
    if t = AttrString then some { AttributeType := "STRING", ValueAttribute := Any.string a.S }
    else if t = AttrDouble then
      some { AttributeType := "DOUBLE", ValueAttribute := Any.float64 a.N }
    else if t = AttrStringList then
      some { AttributeType := "STRING_LIST", ValueAttribute := Any.strings a.SL }
    else if t = AttrStringDoubleMap then
      some { AttributeType := "STRING_DOUBLE_MAP", ValueAttribute := Any.floats a.SDM }
    else some { AttributeType := "NONE", ValueAttribute := Any.nil }

/-- The first loop of `fromMatchmakerData`: the players are put into the map
`teams`, each behind the players of the same team. -/
def teamsOfPlayers : List Player → List (String × List Player) → List (String × List Player)
  | [], teams => teams
  | p :: rest, teams =>
    let teams1 := match mapGet teams p.Team with
      | some _ => teams
      | none => mapSet teams p.Team []
    teamsOfPlayers rest (mapSet teams1 p.Team ((mapGet teams1 p.Team).getD [] ++ [p]))

/-- The loop of `fromMatchmakerData` over the attributes of one player, on
the entries in the order of the visit. -/
def fromPlayerAttributes : List (String × AttributeValue) →
    List (String × attributeMatchMakerData) → Option (List (String × attributeMatchMakerData))
  | [], attributes => some attributes
  | (k, v) :: rest, attributes =>
    match fromAttributesValue v with
    | none => none
    | some a => fromPlayerAttributes rest (mapSet attributes k a)

/-- The body of the loop of `fromMatchmakerData` over the players of one
team: the wire form of a player. -/
def fromPlayer (rangeOrder : (ν : Type) → List (String × ν) → List (String × ν))
    (singlePlayer : Player) : Option playerMatchmakerData :=
  match fromPlayerAttributes (rangeOrder _ singlePlayer.PlayerAttributes) [] with
  | none => none
  | some attributes => some { PlayerID := singlePlayer.PlayerID, AttributeValue := attributes }

/-- The loop of `fromMatchmakerData` over the players of one team. -/
def fromPlayers (rangeOrder : (ν : Type) → List (String × ν) → List (String × ν)) :
    List Player → List playerMatchmakerData → Option (List playerMatchmakerData)
  | [], pMatchmakerData => some pMatchmakerData
  | singlePlayer :: rest, pMatchmakerData =>
    match fromPlayer rangeOrder singlePlayer with
    | none => none
    | some w => fromPlayers rangeOrder rest (pMatchmakerData ++ [w])

/-- The loop of `fromMatchmakerData` over the map `teams`, on the entries in
the order of the visit. -/
def fromTeams (rangeOrder : (ν : Type) → List (String × ν) → List (String × ν)) :
    List (String × List Player) → List teamMatchmakerData → Option (List teamMatchmakerData)
  | [], teams => some teams
  | (name, players) :: rest, teams =>
    match fromPlayers rangeOrder players [] with
    | none => none
    | some pMatchmakerData =>
      fromTeams rangeOrder rest (teams ++ [{ Name := name, Players := pMatchmakerData }])

/-- The method `fromMatchmakerData`: the new value of the receiver; `none`
is a panic. -/
def matchmakerDataOriginal.fromMatchmakerData
    (rangeOrder : (ν : Type) → List (String × ν) → List (String × ν))
    (mo : matchmakerDataOriginal) (m : MatchmakerData) : Option matchmakerDataOriginal :=
  match fromTeams rangeOrder (rangeOrder _ (teamsOfPlayers m.Players [])) mo.Teams with
  | none => none
  | some teams =>
    some { MatchID := m.MatchID,
           MatchmakingConfigurationArn := m.MatchmakingConfigurationArn,
           Teams := teams,
           AutoBackfillTicketID := m.AutoBackfillTicketID }

/-- The loop of `toMatchmakerData` over the attributes of one player. -/
def toPlayerAttributes (rangeOrder : (ν : Type) → List (String × ν) → List (String × ν))
    (attributeValue : List (String × attributeMatchMakerData)) : List (String × AttributeValue) :=
  (rangeOrder _ attributeValue).foldl
    (fun playerAttributes e =>
      mapSet playerAttributes e.1 (MakeAttributeValue rangeOrder e.2.ValueAttribute)) []

/-- The body of the inner loop of `toMatchmakerData`: the player that is
appended. -/
def toPlayer (rangeOrder : (ν : Type) → List (String × ν) → List (String × ν))
    (team : teamMatchmakerData) (player : playerMatchmakerData) : Player :=
  { Team := team.Name,
    PlayerID := player.PlayerID,
    PlayerAttributes := toPlayerAttributes rangeOrder player.AttributeValue,
    LatencyInMS := [] }

/-- The method `toMatchmakerData`. -/
def matchmakerDataOriginal.toMatchmakerData
    (rangeOrder : (ν : Type) → List (String × ν) → List (String × ν))
    (mo : matchmakerDataOriginal) : MatchmakerData :=
  { MatchID := mo.MatchID,
    MatchmakingConfigurationArn := mo.MatchmakingConfigurationArn,
    AutoBackfillTicketID := mo.AutoBackfillTicketID,
    Players := mo.Teams.foldl (fun players team =>
      team.Players.foldl (fun players player => players ++ [toPlayer rangeOrder team player])
        players) [] }

/-- The method `MatchmakerData.UnmarshalJSON`: the new value of the receiver
and whether the error is non-nil; `decode` is the library decoder for
`matchmakerDataOriginal`. -/
def MatchmakerData.UnmarshalJSON
    (rangeOrder : (ν : Type) → List (String × ν) → List (String × ν))
    (decode : List UInt8 → Option matchmakerDataOriginal)
    (m : MatchmakerData) (data : List UInt8) : MatchmakerData × Bool :=
  if data.length = 0 then (m, false)
  else
    match jsonUnmarshal decode (some data) with
    | none => (m, true)
    | some matchmaker => (matchmaker.toMatchmakerData rangeOrder, false)

/-- The reading of "well formed" for an attribute: its type is one of the
five constants and only the field that goes with the type may differ from
its zero value. -/
def AttributeValue.wellFormed (a : AttributeValue) : Prop :=
  (a.AttrType = some AttrNone ∧ a.N = ⟨0⟩ ∧ a.S = "" ∧ a.SL = [] ∧ a.SDM = []) ∨
  (a.AttrType = some AttrString ∧ a.N = ⟨0⟩ ∧ a.SL = [] ∧ a.SDM = []) ∨
  (a.AttrType = some AttrDouble ∧ a.S = "" ∧ a.SL = [] ∧ a.SDM = []) ∨
  (a.AttrType = some AttrStringList ∧ a.N = ⟨0⟩ ∧ a.S = "" ∧ a.SDM = []) ∨
  (a.AttrType = some AttrStringDoubleMap ∧ a.N = ⟨0⟩ ∧ a.S = "" ∧ a.SL = [])

instance (a : AttributeValue) : Decidable a.wellFormed := by
  unfold AttributeValue.wellFormed
  infer_instance

/-- The relation "the same id, team and attributes" between a player `q` of
the result and a player `p` of the input; the attributes are compared as
maps, key by key. -/
def Player.same (q p : Player) : Prop :=
  q.PlayerID = p.PlayerID ∧ q.Team = p.Team ∧
  ∀ k, mapGet q.PlayerAttributes k = mapGet p.PlayerAttributes k

/-- Matchmaker data with three players in two teams. -/
def testMatchmakerData : MatchmakerData :=
  { MatchID := "match-1",
    MatchmakingConfigurationArn := "arn:aws:gamelift:us-west-2:123456789012:matchmakingconfiguration/cfg",
    AutoBackfillTicketID := "ticket-1",
    Players :=
      [ { PlayerID := "player-1", Team := "red",
          PlayerAttributes :=
            [("skill", { AttrType := some AttrDouble, N := ⟨4636737291354636288⟩, S := "",
                         SL := [], SDM := [] }),
             ("mode", { AttrType := some AttrString, N := ⟨0⟩, S := "deathmatch",
                        SL := [], SDM := [] })],
          LatencyInMS := [("us-west-2", 40)] },
        { PlayerID := "player-2", Team := "blue",
          PlayerAttributes :=
            [("maps", { AttrType := some AttrStringList, N := ⟨0⟩, S := "",
                        SL := ["a", "b"], SDM := [] })],
          LatencyInMS := [] },
        { PlayerID := "player-3", Team := "red",
          PlayerAttributes :=
            [("none", { AttrType := some AttrNone, N := ⟨0⟩, S := "", SL := [], SDM := [] })],
          LatencyInMS := [] } ] }

/-- A decoded wire form with two teams. -/
def testMatchmakerDataOriginal : matchmakerDataOriginal :=
  { MatchID := "match-1",
    MatchmakingConfigurationArn := "",
    AutoBackfillTicketID := "",
    Teams :=
      [ { Name := "blue",
          Players := [ { PlayerID := "player-2",
                         AttributeValue :=
                           [("maps", { AttributeType := "STRING_LIST",
                                       ValueAttribute :=
                                         Any.anys [AnyElem.string "a", AnyElem.string "b"] })] } ] },
        { Name := "red",
          Players := [ { PlayerID := "player-1", AttributeValue := [] },
                       { PlayerID := "player-3", AttributeValue := [] } ] } ] }

/-! ## Sample data -/

/-- A socket on which every write fails with an error that is not a close
error, while every dial succeeds. -/
def alwaysBroken : SocketEnv :=
  { writeMessage := fun _ => some (GoError.other "broken pipe"),
    dial := fun _ => none,
    connClose := fun _ => none }

/-- A socket on which every write fails with an error that is not a close
error; the first two dial loops succeed, the later ones fail. -/
def brokenDialTwice : SocketEnv :=
  { writeMessage := fun _ => some (GoError.other "broken pipe"),
    dial := fun n => if n < 2 then none else some "connection error :refused",
    connClose := fun _ => none }

/-- The scenario of `TestWebsocketReconnectOnClose_Write`: the first three
writes fail with a non-close error, the fourth succeeds; dials succeed. -/
def failThree : SocketEnv :=
  { writeMessage := fun n => if n < 3 then some (GoError.other "broken pipe") else none,
    dial := fun _ => none,
    connClose := fun _ => none }

/-- The scenario of `TestWebsocketWriteDoesNotReconnectForNormalClosure`. -/
def normalClosure : SocketEnv :=
  { writeMessage := fun _ => some (GoError.closeError 1000 "websocket: close 1000 (normal)"),
    dial := fun _ => none,
    connClose := fun _ => none }

/-! ## Sample frames -/

/-- The frame of `TestWebsocketClientHandler`, the bytes of
`{"Action": "CreateGameSession"}`. -/
def createGameSessionRequest : List UInt8 :=
  [123, 34, 65, 99, 116, 105, 111, 110, 34, 58, 32, 34, 67, 114, 101, 97, 116, 101, 71, 97, 109,
   101, 83, 101, 115, 115, 105, 111, 110, 34, 125]

/-- What `createGameSessionRequest` decodes to: the absent `RequestId`,
`StatusCode` and `ErrorMessage` keep their zero values. -/
def createGameSessionEnvelope : ResponseMessage :=
  { Action := "CreateGameSession", RequestID := "", StatusCode := 0, ErrorMessage := "" }

/-- A decoder that knows one frame. -/
def decodeOnly (frame : List UInt8) (resp : ResponseMessage) : List UInt8 → Option ResponseMessage :=
  fun bs => if bs = frame then some resp else none

/-- What the response of `TestWebsocketClientSendRequest` decodes to: it has
`Action` and `RequestId` but no `StatusCode` and no `ErrorMessage`. -/
def describeResponseEnvelope : ResponseMessage :=
  { Action := "DescribePlayerSessions", RequestID := "test-request-id", StatusCode := 0,
    ErrorMessage := "" }

/-- The request message of the client tests. -/
def testRequest : Message :=
  { Action := "DescribePlayerSessions", RequestID := "test-request-id" }

end GameLift

/-! # Theorems -/

namespace GameLift

/-! ## Lemmas on maps and on the pending table -/

section Maps
variable {κ ν : Type} [DecidableEq κ]

theorem mapGet_mapDelete_self (m : List (κ × ν)) (k : κ) : mapGet (mapDelete m k) k = none := by
  induction m with
  | nil => rfl
  | cons e rest ih =>
    obtain ⟨k1, v⟩ := e
    by_cases h : k1 = k
    · simpa [mapDelete, h] using ih
    · simpa [mapDelete, mapGet, h] using ih

theorem mapGet_mapDelete_of_ne (m : List (κ × ν)) {k k2 : κ} (hne : k2 ≠ k) :
    mapGet (mapDelete m k) k2 = mapGet m k2 := by
  induction m with
  | nil => rfl
  | cons e rest ih =>
    obtain ⟨k1, v⟩ := e
    by_cases h : k1 = k
    · subst h
      simpa [mapDelete, mapGet, Ne.symm hne] using ih
    · by_cases h2 : k1 = k2
      · subst h2
        simp [mapDelete, mapGet, h]
      · simpa [mapDelete, mapGet, h, h2] using ih

theorem mem_of_mapGet {m : List (κ × ν)} {k : κ} {v : ν} (h : mapGet m k = some v) : (k, v) ∈ m := by
  induction m with
  | nil => simp [mapGet] at h
  | cons e rest ih =>
    obtain ⟨k1, v1⟩ := e
    by_cases h1 : k1 = k
    · simp [mapGet, h1] at h
      simp [h1, h]
    · simp [mapGet, h1] at h
      exact List.mem_cons_of_mem _ (ih h)

theorem mem_mapDelete {m : List (κ × ν)} {k : κ} {e : κ × ν} :
    e ∈ mapDelete m k ↔ e ∈ m ∧ e.1 ≠ k := by
  simp [mapDelete]

theorem mapDelete_keys_nodup {m : List (κ × ν)} (k : κ) (h : (m.map Prod.fst).Nodup) :
    ((mapDelete m k).map Prod.fst).Nodup :=
  h.sublist ((List.filter_sublist m).map Prod.fst)

theorem mapDelete_vals_nodup {m : List (κ × ν)} (k : κ) (h : (m.map Prod.snd).Nodup) :
    ((mapDelete m k).map Prod.snd).Nodup :=
  h.sublist ((List.filter_sublist m).map Prod.snd)

end Maps

theorem TableInv.mono {used used2 : List ChanId} {c : websocketClient} (h : TableInv used c)
    (hsub : ∀ ch ∈ used, ch ∈ used2) : TableInv used2 c := by
  obtain ⟨h1, h2, h3, h4, h5⟩ := h
  exact ⟨h1, h2, fun e he => ⟨hsub _ (h3 e he).1, (h3 e he).2⟩, fun ch hch => hsub _ (h4 ch hch), h5⟩

theorem sendResponse_of_none {c : websocketClient} {requestID : String}
    (data : Option (List UInt8)) (err : Option GoError)
    (h : mapGet c.responses requestID = none) : c.sendResponse requestID data err = c := by
  simp [websocketClient.sendResponse, h]

theorem sendResponse_of_some {c : websocketClient} {requestID : String} {resp : ChanId}
    (data : Option (List UInt8)) (err : Option GoError)
    (h : mapGet c.responses requestID = some resp) :
    ∃ pre : List Event, (∀ ch, Event.chanClose ch ∉ pre) ∧
      c.sendResponse requestID data err =
        { c with responses := mapDelete c.responses requestID,
                 events := c.events ++ (pre ++ [Event.chanClose resp]) } := by
  cases data with
  | none =>
    refine ⟨[], by simp, ?_⟩
    simp [websocketClient.sendResponse, h]
  | some bs =>
    refine ⟨[Event.chanSend resp { Data := some bs, Error := err }], by simp, ?_⟩
    simp [websocketClient.sendResponse, h]

theorem closeCount_append (ch : ChanId) (l1 l2 : List Event) :
    closeCount ch (l1 ++ l2) = closeCount ch l1 + closeCount ch l2 := by
  simp [closeCount, List.count_append]

theorem closeCount_eq_zero {ch : ChanId} {l : List Event} (h : Event.chanClose ch ∉ l) :
    closeCount ch l = 0 := by
  simpa [closeCount] using List.count_eq_zero.mpr h

theorem closeCount_singleton (ch ch2 : ChanId) :
    closeCount ch [Event.chanClose ch2] = if ch2 = ch then 1 else 0 := by
  by_cases h : ch2 = ch
  · simp [closeCount, h]
  · have hne : ¬ Event.chanClose ch2 = Event.chanClose ch := fun h2 => h (by injection h2)
    simp [closeCount, List.count_cons, h, hne]

theorem TableInv.sendResponse {used : List ChanId} {c : websocketClient} (h : TableInv used c)
    (requestID : String) (data : Option (List UInt8)) (err : Option GoError) :
    TableInv used (c.sendResponse requestID data err) := by
  cases hget : mapGet c.responses requestID with
  | none => rw [sendResponse_of_none data err hget]; exact h
  | some resp =>
    obtain ⟨pre, hpre, heq⟩ := sendResponse_of_some data err hget
    rw [heq]
    obtain ⟨h1, h2, h3, h4, h5⟩ := h
    have hmem := mem_of_mapGet hget
    have hinj := List.inj_on_of_nodup_map h2
    refine ⟨mapDelete_keys_nodup _ h1, mapDelete_vals_nodup _ h2, ?_, ?_, ?_⟩
    · intro e he
      have he2 := mem_mapDelete.mp he
      refine ⟨(h3 e he2.1).1, ?_⟩
      simp only [List.mem_append, List.mem_singleton, not_or]
      refine ⟨(h3 e he2.1).2, hpre _, ?_⟩
      intro heq2
      have hch : e.2 = resp := by injection heq2
      have := hinj he2.1 hmem hch
      exact he2.2 (by rw [this])
    · intro ch hch
      simp only [List.mem_append, List.mem_singleton] at hch
      rcases hch with hch | hch | hch
      · exact h4 ch hch
      · exact absurd hch (hpre ch)
      · have : ch = resp := by injection hch
        rw [this]; exact (h3 _ hmem).1
    · intro ch
      simp only [closeCount_append, closeCount_singleton]
      have hp : closeCount ch pre = 0 := closeCount_eq_zero (hpre ch)
      by_cases hc : resp = ch
      · have h0 : closeCount ch c.events = 0 := closeCount_eq_zero (hc ▸ (h3 _ hmem).2)
        simp [hp, hc, h0]
      · simp [hp, hc, h5 ch]

theorem mapGet_mapSet_of_ne {κ ν : Type} [DecidableEq κ] (m : List (κ × ν)) {k k2 : κ} (v : ν)
    (hne : k2 ≠ k) : mapGet (mapSet m k v) k2 = mapGet m k2 := by
  simp [mapSet, mapGet, Ne.symm hne, mapGet_mapDelete_of_ne m hne]

theorem TableInv.append_events {used : List ChanId} {c : websocketClient} (h : TableInv used c)
    (pre : List Event) (hpre : ∀ ch, Event.chanClose ch ∉ pre) :
    TableInv used { c with events := c.events ++ pre } := by
  obtain ⟨h1, h2, h3, h4, h5⟩ := h
  refine ⟨h1, h2, ?_, ?_, ?_⟩
  · intro e he
    refine ⟨(h3 e he).1, ?_⟩
    simp only [List.mem_append, not_or]
    exact ⟨(h3 e he).2, hpre _⟩
  · intro ch hch
    simp only [List.mem_append] at hch
    rcases hch with hch | hch
    · exact h4 ch hch
    · exact absurd hch (hpre ch)
  · intro ch
    simp only [closeCount_append, closeCount_eq_zero (hpre ch)]
    exact h5 ch

theorem TableInv.store {used : List ChanId} {c : websocketClient} (h : TableInv used c)
    (requestID : String) {ch : ChanId} (hnew : ch ∉ used) :
    TableInv (ch :: used) { c with responses := mapSet c.responses requestID ch } := by
  obtain ⟨h1, h2, h3, h4, h5⟩ := h
  refine ⟨?_, ?_, ?_, ?_, h5⟩
  · simp only [mapSet, List.map_cons, List.nodup_cons]
    refine ⟨?_, mapDelete_keys_nodup _ h1⟩
    intro hmem
    obtain ⟨e, he, hk⟩ := List.mem_map.mp hmem
    exact (mem_mapDelete.mp he).2 hk
  · simp only [mapSet, List.map_cons, List.nodup_cons]
    refine ⟨?_, mapDelete_vals_nodup _ h2⟩
    intro hmem
    obtain ⟨e, he, hv⟩ := List.mem_map.mp hmem
    exact hnew (hv ▸ (h3 e (mem_mapDelete.mp he).1).1)
  · intro e he
    simp only [mapSet, List.mem_cons] at he
    rcases he with he | he
    · subst he
      exact ⟨List.mem_cons_self _ _, fun hc => hnew (h4 _ hc)⟩
    · have := h3 e (mem_mapDelete.mp he).1
      exact ⟨List.mem_cons_of_mem _ this.1, this.2⟩
  · intro c2 hc
    exact List.mem_cons_of_mem _ (h4 c2 hc)

theorem SendMessage_fst (c : websocketClient) (env : SendEnv) :
    ∃ pre : List Event, (∀ ch, Event.chanClose ch ∉ pre) ∧
      (c.SendMessage env).1 = { c with events := c.events ++ pre } := by
  unfold websocketClient.SendMessage
  cases env.marshalled with
  | error e => exact ⟨[], by simp, by simp⟩
  | ok data =>
    refine ⟨[Event.transportWrite data], by simp, ?_⟩
    cases env.written <;> rfl

theorem TableInv.SendRequest {used : List ChanId} {c : websocketClient} (h : TableInv used c)
    (req : Message) (resp : Option ChanId) (env : SendEnv)
    (hnew : ∀ ch, resp = some ch → ch ∉ used) :
    TableInv (channelsOf [Op.sendRequest req resp env] ++ used) (c.SendRequest req resp env).1 := by
  cases resp with
  | none => simpa [websocketClient.SendRequest, channelsOf] using h
  | some ch =>
    have hmono : TableInv (ch :: used) c := h.mono (fun _ hx => List.mem_cons_of_mem _ hx)
    simp only [channelsOf, List.singleton_append]
    unfold websocketClient.SendRequest
    by_cases hid : req.RequestID = ""
    · simpa [hid] using hmono
    · simp only [hid, if_false, websocketClient.storeResponse]
      cases hget : mapGet c.responses req.RequestID with
      | some stored => simpa using hmono
      | none =>
        simp only
        have hst := h.store req.RequestID (hnew ch rfl)
        obtain ⟨pre, hpre, heq⟩ :=
          SendMessage_fst { c with responses := mapSet c.responses req.RequestID ch } env
        have hsm := hst.append_events pre hpre
        rw [← heq] at hsm
        cases hres : websocketClient.SendMessage
            { c with responses := mapSet c.responses req.RequestID ch } env with
        | mk c2 r =>
          rw [hres] at hsm
          cases r with
          | none => exact hsm
          | some err => exact hsm.sendResponse _ _ _

theorem TableInv.readHandler {used : List ChanId} {c : websocketClient} (h : TableInv used c)
    (dec : List UInt8 → Option ResponseMessage) (data : Option (List UInt8)) :
    TableInv used (c.readHandler dec data) := by
  unfold websocketClient.readHandler
  cases jsonUnmarshal dec data with
  | none => exact h
  | some resp =>
    simp only
    split
    · exact h.sendResponse _ _ _
    · cases c.getHandlerByAction resp.Action with
      | some handler => exact h.append_events [Event.handlerCall handler data] (by simp)
      | none => exact h.sendResponse _ _ _

theorem closeAll_responses (l : List (String × ChanId)) (c : websocketClient)
    (h : ∀ e ∈ c.responses, e.1 ∈ l.map Prod.fst) : (websocketClient.closeAll l c).responses = [] := by
  induction l generalizing c with
  | nil =>
    simp only [websocketClient.closeAll]
    exact List.eq_nil_iff_forall_not_mem.mpr (fun e he => by simpa using h e he)
  | cons p rest ih =>
    obtain ⟨reqID, resp⟩ := p
    simp only [websocketClient.closeAll]
    apply ih
    intro e he
    have he2 := mem_mapDelete.mp he
    have := h e he2.1
    simp only [List.map_cons, List.mem_cons] at this
    rcases this with h1 | h1
    · exact absurd h1 he2.2
    · exact h1

theorem closeAll_events (l : List (String × ChanId)) (c : websocketClient) :
    (websocketClient.closeAll l c).events = c.events ++ l.map (fun e => Event.chanClose e.2) := by
  induction l generalizing c with
  | nil => simp [websocketClient.closeAll]
  | cons p rest ih =>
    obtain ⟨reqID, resp⟩ := p
    simp [websocketClient.closeAll, ih]

theorem closeCount_map (ch : ChanId) (l : List (String × ChanId)) :
    closeCount ch (l.map (fun e => Event.chanClose e.2)) = (l.map Prod.snd).count ch := by
  induction l with
  | nil => rfl
  | cons p rest ih =>
    obtain ⟨reqID, resp⟩ := p
    have ih2 : List.count (Event.chanClose ch) (rest.map (fun e => Event.chanClose e.2)) =
        (rest.map Prod.snd).count ch := ih
    by_cases hc : resp = ch
    · simp [closeCount, List.count_cons, hc, ih2]
    · have hne : ¬ Event.chanClose resp = Event.chanClose ch := fun h2 => hc (by injection h2)
      simp [closeCount, List.count_cons, hc, hne, ih2]

theorem TableInv.Close {used : List ChanId} {c : websocketClient} (h : TableInv used c)
    (closed : Option GoError) : TableInv used (c.Close closed).1 := by
  obtain ⟨h1, h2, h3, h4, h5⟩ := h
  have hr : (websocketClient.closeAll c.responses c).responses = [] :=
    closeAll_responses _ _ (fun e he => List.mem_map_of_mem _ he)
  have he := closeAll_events c.responses c
  refine ⟨?_, ?_, ?_, ?_, ?_⟩
  · simp [websocketClient.Close, hr]
  · simp [websocketClient.Close, hr]
  · simp [websocketClient.Close, hr]
  · intro ch hch
    simp only [websocketClient.Close, he, List.mem_append, List.mem_map, List.mem_singleton] at hch
    rcases hch with (hch | ⟨e, hemem, hev⟩) | hch
    · exact h4 ch hch
    · have : e.2 = ch := by injection hev
      exact this ▸ (h3 e hemem).1
    · cases hch
  · intro ch
    simp only [websocketClient.Close, he, closeCount_append, closeCount_map]
    have ht : closeCount ch [Event.transportClose] = 0 := closeCount_eq_zero (by simp)
    rw [ht, Nat.add_zero]
    by_cases hmem : ch ∈ c.responses.map Prod.snd
    · obtain ⟨e, hemem, hev⟩ := List.mem_map.mp hmem
      have h0 : closeCount ch c.events = 0 := closeCount_eq_zero (hev ▸ (h3 e hemem).2)
      rw [h0, Nat.zero_add]
      exact List.nodup_iff_count_le_one.mp h2 ch
    · rw [List.count_eq_zero.mpr hmem, Nat.add_zero]
      exact h5 ch

theorem TableInv.AddHandler {used : List ChanId} {c : websocketClient} (h : TableInv used c)
    (action : MessageAction) (handler : HandlerId) : TableInv used (c.AddHandler action handler) :=
  h

theorem tableInv_step {used : List ChanId} {c : websocketClient} (h : TableInv used c)
    (dec : List UInt8 → Option ResponseMessage) (op : Op)
    (hnew : ∀ ch ∈ channelsOf [op], ch ∉ used) :
    TableInv (channelsOf [op] ++ used) (step dec c op) := by
  cases op with
  | sendRequest req resp env =>
    apply h.SendRequest
    intro ch hch
    subst hch
    exact hnew ch (by simp [channelsOf])
  | inbound data => exact h.readHandler dec data
  | cancelRequest requestID => exact h.sendResponse requestID none none
  | close closed => exact h.Close closed
  | addHandler action handler => exact h.AddHandler action handler

theorem channelsOf_append (ops1 ops2 : List Op) :
    channelsOf (ops1 ++ ops2) = channelsOf ops1 ++ channelsOf ops2 := by
  induction ops1 with
  | nil => rfl
  | cons op rest ih =>
    cases op with
    | sendRequest req resp env =>
      cases resp with
      | none => simpa [channelsOf] using ih
      | some ch => simpa [channelsOf] using ih
    | inbound data => simpa [channelsOf] using ih
    | cancelRequest requestID => simpa [channelsOf] using ih
    | close closed => simpa [channelsOf] using ih
    | addHandler action handler => simpa [channelsOf] using ih

theorem tableInv_run (dec : List UInt8 → Option ResponseMessage) (ops : List Op) :
    ∀ (used : List ChanId) (c : websocketClient), TableInv used c →
      (channelsOf ops).Nodup → (∀ ch ∈ channelsOf ops, ch ∉ used) →
      ∃ used2, TableInv used2 (run dec c ops) ∧
        ∀ ch, ch ∈ used2 ↔ ch ∈ used ∨ ch ∈ channelsOf ops := by
  induction ops with
  | nil =>
    intro used c h _ _
    exact ⟨used, h, fun ch => by simp [channelsOf]⟩
  | cons op rest ih =>
    intro used c h hnd hfresh
    have happ : channelsOf (op :: rest) = channelsOf [op] ++ channelsOf rest :=
      channelsOf_append [op] rest
    rw [happ] at hnd hfresh
    have hstep := tableInv_step h dec op (fun ch hch => hfresh ch (List.mem_append_left _ hch))
    obtain ⟨used2, hinv, hused⟩ := ih (channelsOf [op] ++ used) (step dec c op) hstep
      (List.Nodup.of_append_right hnd)
      (by
        intro ch hch hmem
        rcases List.mem_append.mp hmem with hm | hm
        · exact (List.nodup_append.mp hnd).2.2 hm hch
        · exact hfresh ch (List.mem_append_right _ hch) hm)
    refine ⟨used2, hinv, ?_⟩
    intro ch
    rw [hused ch, happ]
    simp only [List.mem_append]
    tauto

theorem tableInv_init : TableInv [] websocketClient.init := by
  simp [TableInv, websocketClient.init, closeCount]

theorem sendResponse_leaves (c : websocketClient) (requestID : String)
    (data : Option (List UInt8)) (err : Option GoError) :
    ∃ new : List Event, (c.sendResponse requestID data err).events = c.events ++ new ∧
      ∀ (id : String) (ch : ChanId), mapGet c.responses id = some ch →
        mapGet (c.sendResponse requestID data err).responses id ≠ some ch →
        Event.chanClose ch ∈ new := by
  cases hget : mapGet c.responses requestID with
  | none =>
    rw [sendResponse_of_none data err hget]
    exact ⟨[], by simp, fun id ch h1 h2 => absurd h1 h2⟩
  | some resp =>
    obtain ⟨pre, _, heq⟩ := sendResponse_of_some data err hget
    rw [heq]
    refine ⟨pre ++ [Event.chanClose resp], rfl, ?_⟩
    intro id ch h1 h2
    by_cases hid : id = requestID
    · subst hid
      rw [hget] at h1
      injection h1 with h1
      simp [h1]
    · exact absurd ((mapGet_mapDelete_of_ne c.responses hid).trans h1) h2

theorem SendRequest_leaves (c : websocketClient) (req : Message) (resp : Option ChanId)
    (env : SendEnv) :
    ∃ new : List Event, (c.SendRequest req resp env).1.events = c.events ++ new ∧
      ∀ (id : String) (ch : ChanId), mapGet c.responses id = some ch →
        mapGet (c.SendRequest req resp env).1.responses id ≠ some ch →
        Event.chanClose ch ∈ new := by
  cases resp with
  | none =>
    exact ⟨[], by simp [websocketClient.SendRequest],
      fun id ch h1 h2 => absurd h1 (by simpa [websocketClient.SendRequest] using h2)⟩
  | some ch0 =>
    unfold websocketClient.SendRequest
    by_cases hid : req.RequestID = ""
    · exact ⟨[], by simp [hid], fun id ch h1 h2 => absurd h1 (by simpa [hid] using h2)⟩
    · simp only [hid, if_false, websocketClient.storeResponse]
      cases hget : mapGet c.responses req.RequestID with
      | some stored => exact ⟨[], by simp, fun id ch h1 h2 => absurd h1 (by simpa using h2)⟩
      | none =>
        simp only
        obtain ⟨pre, _, heq⟩ :=
          SendMessage_fst { c with responses := mapSet c.responses req.RequestID ch0 } env
        cases hres : websocketClient.SendMessage
            { c with responses := mapSet c.responses req.RequestID ch0 } env with
        | mk c2 r =>
          rw [hres] at heq
          simp only at heq
          have hkeep : ∀ (id : String) (ch : ChanId), mapGet c.responses id = some ch →
              mapGet c2.responses id = some ch := by
            intro id ch h1
            have hne : id ≠ req.RequestID := by
              intro h; rw [h, hget] at h1; cases h1
            rw [heq]
            exact (mapGet_mapSet_of_ne c.responses ch0 hne).trans h1
          cases r with
          | none =>
            exact ⟨pre, by simp [heq], fun id ch h1 h2 => absurd (hkeep id ch h1) h2⟩
          | some err =>
            obtain ⟨new, hev, hl⟩ := sendResponse_leaves c2 req.RequestID none (some err)
            refine ⟨pre ++ new, ?_, ?_⟩
            · rw [hev, heq]
              simp only [List.append_assoc]
            · intro id ch h1 h2
              exact List.mem_append_right _ (hl id ch (hkeep id ch h1) h2)

theorem readHandler_leaves (dec : List UInt8 → Option ResponseMessage) (c : websocketClient)
    (data : Option (List UInt8)) :
    ∃ new : List Event, (c.readHandler dec data).events = c.events ++ new ∧
      ∀ (id : String) (ch : ChanId), mapGet c.responses id = some ch →
        mapGet (c.readHandler dec data).responses id ≠ some ch →
        Event.chanClose ch ∈ new := by
  unfold websocketClient.readHandler
  cases jsonUnmarshal dec data with
  | none => exact ⟨[], by simp, fun id ch h1 h2 => absurd h1 h2⟩
  | some resp =>
    simp only
    split
    · exact sendResponse_leaves _ _ _ _
    · cases c.getHandlerByAction resp.Action with
      | some handler =>
        exact ⟨[Event.handlerCall handler data], rfl, fun id ch h1 h2 => absurd h1 h2⟩
      | none => exact sendResponse_leaves _ _ _ _

theorem Close_responses (c : websocketClient) (closed : Option GoError) :
    (c.Close closed).1.responses = [] := by
  simpa [websocketClient.Close] using
    closeAll_responses c.responses c (fun e he => List.mem_map_of_mem _ he)

theorem Close_leaves (c : websocketClient) (closed : Option GoError) :
    ∃ new : List Event, (c.Close closed).1.events = c.events ++ new ∧
      ∀ (id : String) (ch : ChanId), mapGet c.responses id = some ch →
        mapGet (c.Close closed).1.responses id ≠ some ch →
        Event.chanClose ch ∈ new := by
  refine ⟨c.responses.map (fun e => Event.chanClose e.2) ++ [Event.transportClose], ?_, ?_⟩
  · simp [websocketClient.Close, closeAll_events]
  · intro id ch h1 _
    exact List.mem_append_left _ (List.mem_map.mpr ⟨(id, ch), mem_of_mapGet h1, rfl⟩)

theorem step_leaves (dec : List UInt8 → Option ResponseMessage) (c : websocketClient) (op : Op) :
    ∃ new : List Event, (step dec c op).events = c.events ++ new ∧
      ∀ (id : String) (ch : ChanId), mapGet c.responses id = some ch →
        mapGet (step dec c op).responses id ≠ some ch →
        Event.chanClose ch ∈ new := by
  cases op with
  | sendRequest req resp env => exact SendRequest_leaves c req resp env
  | inbound data => exact readHandler_leaves dec c data
  | cancelRequest requestID => exact sendResponse_leaves c requestID none none
  | close closed => exact Close_leaves c closed
  | addHandler action handler =>
    exact ⟨[], by simp [step, websocketClient.AddHandler], fun id ch h1 h2 => absurd h1 h2⟩

theorem run_append (dec : List UInt8 → Option ResponseMessage) (c : websocketClient)
    (ops : List Op) (op : Op) : run dec c (ops ++ [op]) = step dec (run dec c ops) op := by
  simp [run, List.foldl_append]

theorem mapGet_mapDelete_none {κ ν : Type} [DecidableEq κ] {m : List (κ × ν)} {k : κ} (k2 : κ)
    (h : mapGet m k = none) : mapGet (mapDelete m k2) k = none := by
  by_cases hk : k = k2
  · subst hk; exact mapGet_mapDelete_self m k
  · rw [mapGet_mapDelete_of_ne m hk]; exact h

theorem sendResponse_no_empty_id {c : websocketClient} (h : mapGet c.responses "" = none)
    (requestID : String) (data : Option (List UInt8)) (err : Option GoError) :
    mapGet (c.sendResponse requestID data err).responses "" = none := by
  cases hget : mapGet c.responses requestID with
  | none => rw [sendResponse_of_none data err hget]; exact h
  | some resp =>
    obtain ⟨pre, _, heq⟩ := sendResponse_of_some data err hget
    rw [heq]
    exact mapGet_mapDelete_none requestID h

theorem step_no_empty_id (dec : List UInt8 → Option ResponseMessage) {c : websocketClient}
    (h : mapGet c.responses "" = none) (op : Op) :
    mapGet (step dec c op).responses "" = none := by
  cases op with
  | sendRequest req resp env =>
    simp only [step]
    cases resp with
    | none => simpa [websocketClient.SendRequest] using h
    | some ch0 =>
      unfold websocketClient.SendRequest
      by_cases hid : req.RequestID = ""
      · simpa [hid] using h
      · simp only [hid, if_false, websocketClient.storeResponse]
        cases hget : mapGet c.responses req.RequestID with
        | some stored => simpa using h
        | none =>
          simp only
          obtain ⟨pre, _, heq⟩ :=
            SendMessage_fst { c with responses := mapSet c.responses req.RequestID ch0 } env
          cases hres : websocketClient.SendMessage
              { c with responses := mapSet c.responses req.RequestID ch0 } env with
          | mk c2 r =>
            rw [hres] at heq
            simp only at heq
            have h2 : mapGet c2.responses "" = none := by
              rw [heq]
              exact (mapGet_mapSet_of_ne c.responses ch0 (Ne.symm hid)).trans h
            cases r with
            | none => exact h2
            | some err => exact sendResponse_no_empty_id h2 _ _ _
  | inbound data =>
    simp only [step, websocketClient.readHandler]
    cases jsonUnmarshal dec data with
    | none => exact h
    | some resp =>
      simp only
      split
      · exact sendResponse_no_empty_id h _ _ _
      · cases c.getHandlerByAction resp.Action with
        | some handler => exact h
        | none => exact sendResponse_no_empty_id h _ _ _
  | cancelRequest requestID => exact sendResponse_no_empty_id h _ _ _
  | close closed => simp [step, Close_responses, mapGet]
  | addHandler action handler => exact h

theorem run_no_empty_id (dec : List UInt8 → Option ResponseMessage) (ops : List Op) :
    ∀ c : websocketClient, mapGet c.responses "" = none →
      mapGet (run dec c ops).responses "" = none := by
  induction ops with
  | nil => intro c h; exact h
  | cons op rest ih => intro c h; exact ih _ (step_no_empty_id dec h op)


/-! ## Lemmas on the transport and on the retry decorator -/

theorem isAbnormalCloseError_iff (e : GoError) :
    isAbnormalCloseError e = true ↔
      ∀ text : String, e ≠ GoError.closeError 1000 text ∧ e ≠ GoError.closeError 1001 text := by
  cases e with
  | gameLift g => simp [isAbnormalCloseError, IsCloseError, IsUnexpectedCloseError]
  | other t => simp [isAbnormalCloseError, IsCloseError, IsUnexpectedCloseError]
  | closeError code t =>
    simp only [isAbnormalCloseError, IsCloseError, IsUnexpectedCloseError, CloseGoingAway,
      CloseNormalClosure, Bool.or_self, Bool.not_eq_true', ne_eq, GoError.closeError.injEq, not_and]
    constructor
    · intro h text
      have h2 : ¬ (code = 1001 ∨ code = 1000) := by simpa using h
      exact ⟨fun hc _ => h2 (Or.inr hc), fun hc _ => h2 (Or.inl hc)⟩
    · intro h
      have h1 := (h t).1
      have h2 := (h t).2
      have h3 : ¬ (code = 1001 ∨ code = 1000) := by
        rintro (hc | hc)
        · exact h2 hc rfl
        · exact h1 hc rfl
      simpa using h3

theorem Reconnect_fields (env : SocketEnv) (tr : websocketTransport) :
    (tr.Reconnect env).1.writeCalls = tr.writeCalls ∧
    (tr.Reconnect env).1.reconnectCalls = tr.reconnectCalls + 1 ∧
    (tr.Reconnect env).1.writeRetries = tr.writeRetries ∧
    (tr.Reconnect env).1.sleeps = tr.sleeps := by
  unfold websocketTransport.Reconnect websocketTransport.Connect websocketTransport.Close
  cases tr.reconnecting <;> cases tr.isConnected <;> cases tr.hasConn <;> simp <;>
    (try cases env.connClose tr.connCloses <;> simp) <;>
    (try cases env.dial tr.dialLoops <;> simp)

theorem Reconnect_err (env : SocketEnv) (tr : websocketTransport) :
    (tr.Reconnect env).2 =
      if tr.reconnecting then none
      else (env.dial tr.dialLoops).map
        (fun text => NewGameLiftError GameLiftErrorType.WebsocketConnectFailure "" text) := by
  unfold websocketTransport.Reconnect websocketTransport.Connect websocketTransport.Close
  cases tr.reconnecting <;> cases tr.isConnected <;> cases tr.hasConn <;> simp <;>
    (try cases env.connClose tr.connCloses <;> simp) <;>
    (try cases env.dial tr.dialLoops <;> simp)

theorem Reconnect_reconnecting (env : SocketEnv) (tr : websocketTransport)
    (h : tr.reconnecting = false) : (tr.Reconnect env).1.reconnecting = false := by
  unfold websocketTransport.Reconnect websocketTransport.Connect websocketTransport.Close
  rw [h]
  cases tr.isConnected <;> cases tr.hasConn <;> simp

theorem writeLoop_alwaysBroken (fuel : Nat) :
    ∀ (tr : websocketTransport) (err : Option GoError), tr.writeRetries ≤ 2 →
      tr.reconnecting = false → websocketTransport.writeLoop alwaysBroken fuel tr err = none := by
  induction fuel with
  | zero => intro tr err _ _; rfl
  | succ n ih =>
    intro tr err hle hrec
    have hlt : tr.writeRetries < MaxReadWriteRetry := by
      simp only [MaxReadWriteRetry]; omega
    have hab : isAbnormalCloseError (GoError.other "broken pipe") = true := rfl
    have hw : alwaysBroken.writeMessage tr.writeCalls = some (GoError.other "broken pipe") := rfl
    simp only [websocketTransport.writeLoop, hlt, if_true, hw, hab]
    by_cases h2 : tr.writeRetries = ReconnectOnReadWriteFailureNumber
    · simp only [if_pos h2, websocketTransport.handleNetworkInterrupt]
      cases hR : websocketTransport.Reconnect alwaysBroken
          { tr with writeCalls := tr.writeCalls + 1 } with
      | mk tr2 r =>
        have he := Reconnect_err alwaysBroken { tr with writeCalls := tr.writeCalls + 1 }
        have hf := Reconnect_fields alwaysBroken { tr with writeCalls := tr.writeCalls + 1 }
        have hr := Reconnect_reconnecting alwaysBroken { tr with writeCalls := tr.writeCalls + 1 } hrec
        rw [hR] at he hf hr
        simp only [hrec, Bool.false_eq_true, if_false] at he
        have he2 : r = none := he
        subst he2
        simp only at hf hr
        apply ih
        · simp only [hf.2.2.1]
          omega
        · exact hr
    · simp only [if_neg h2]
      apply ih
      · simp only [ReconnectOnReadWriteFailureNumber] at h2
        simp only
        omega
      · exact hrec

theorem wrapInt64_of_inRange (x : Int) (hlo : -(2 ^ 63) ≤ x) (hhi : x < 2 ^ 63) :
    wrapInt64 x = x := by
  unfold wrapInt64
  norm_num at hlo hhi ⊢
  omega

theorem writeFrom_calls_le (r : retryTransport) (next : Nat → Option GoError) (remaining : Nat) :
    ∀ (i : Nat) (sleeps : List Int),
      (retryTransport.writeFrom r next remaining i sleeps).calls ≤ i + remaining := by
  induction remaining with
  | zero => intro i sleeps; simp [retryTransport.writeFrom]
  | succ n ih =>
    intro i sleeps
    simp only [retryTransport.writeFrom]
    cases next i with
    | none => simp only; omega
    | some e =>
      have := ih (i + 1) (sleeps ++ [r.sleepDuration i])
      simp only
      omega

theorem writeFrom_all_fail (r : retryTransport) (next : Nat → Option GoError) (remaining : Nat) :
    ∀ (i : Nat) (sleeps : List Int), (∀ k, i ≤ k → k < i + remaining → next k ≠ none) →
      retryTransport.writeFrom r next remaining i sleeps =
        { err := some (NewGameLiftError GameLiftErrorType.WebsocketRetriableSendMessageFailure
            "Failed write retry" "write attempt overflow"),
          calls := i + remaining,
          sleeps := sleeps ++ (List.range' i remaining).map r.sleepDuration } := by
  induction remaining with
  | zero => intro i sleeps _; simp [retryTransport.writeFrom]
  | succ n ih =>
    intro i sleeps hfail
    simp only [retryTransport.writeFrom]
    cases hn : next i with
    | none => exact absurd hn (hfail i (le_refl _) (by omega))
    | some e =>
      simp only
      rw [ih (i + 1) _ (fun k hk1 hk2 => hfail k (by omega) (by omega))]
      simp [List.range'_succ, Nat.add_assoc, Nat.add_comm 1 n]

theorem writeFrom_first_success (r : retryTransport) (next : Nat → Option GoError)
    (remaining : Nat) :
    ∀ (i : Nat) (sleeps : List Int) (k : Nat), i ≤ k → k < i + remaining → next k = none →
      (∀ j, i ≤ j → j < k → next j ≠ none) →
      retryTransport.writeFrom r next remaining i sleeps =
        { err := none, calls := k + 1,
          sleeps := sleeps ++ (List.range' i (k - i)).map r.sleepDuration } := by
  induction remaining with
  | zero => intro i sleeps k h1 h2; omega
  | succ n ih =>
    intro i sleeps k h1 h2 hk hfail
    simp only [retryTransport.writeFrom]
    by_cases hik : i = k
    · subst hik
      simp [hk]
    · cases hn : next i with
      | none => exact absurd hn (hfail i (le_refl _) (by omega))
      | some e =>
        simp only
        rw [ih (i + 1) _ k (by omega) (by omega) hk (fun j hj1 hj2 => hfail j (by omega) hj2)]
        have hki : k - i = (k - (i + 1)) + 1 := by omega
        rw [hki]
        simp [List.range'_succ]

/-! ## Lemmas on concurrent Reconnect calls -/

theorem Close_dialLoops (env : SocketEnv) (tr : websocketTransport) :
    (tr.Close env).1.dialLoops = tr.dialLoops := by
  unfold websocketTransport.Close
  cases tr.isConnected <;> cases tr.hasConn <;> simp
  cases env.connClose tr.connCloses <;> simp

theorem RaceInv.symm {env : SocketEnv} {base dialLoops : Nat} {reconnecting : Bool}
    {a b : ReconnectPc} (h : RaceInv env base dialLoops reconnecting a b) :
    RaceInv env base dialLoops reconnecting b a := by
  obtain ⟨h1, h2, h3, h4, h5, h6⟩ := h
  refine ⟨by omega, h3, h2, h5, h4, ?_⟩
  rcases h6 with ⟨ha, hb, hr⟩ | h | h
  · exact Or.inl ⟨hb, ha, hr⟩
  · exact Or.inr (Or.inr h)
  · exact Or.inr (Or.inl h)

theorem RaceInv.reconnectStep {env : SocketEnv} {base : Nat} {tr : websocketTransport}
    {a b : ReconnectPc} (locked : Bool)
    (h : RaceInv env base tr.dialLoops tr.reconnecting a b) :
    RaceInv env base (reconnectStep env tr locked a).1.dialLoops
      (reconnectStep env tr locked a).1.reconnecting (reconnectStep env tr locked a).2.2 b := by
  unfold RaceInv at h ⊢
  generalize b.dialed = bd at h ⊢
  generalize b.connecting = bc at h ⊢
  generalize b.outcome = bo at h ⊢
  obtain ⟨h1, h2, h3, h4, h5, h6⟩ := h
  cases a with
  | swap =>
    cases hr : tr.reconnecting <;>
      simp_all [GameLift.reconnectStep, ReconnectPc.dialed, ReconnectPc.connecting,
        ReconnectPc.outcome] <;> assumption
  | waitLock =>
    cases locked <;>
      simp_all [GameLift.reconnectStep, ReconnectPc.dialed, ReconnectPc.connecting,
        ReconnectPc.outcome] <;> assumption
  | waitUnlock =>
    simp_all [GameLift.reconnectStep, ReconnectPc.dialed, ReconnectPc.connecting,
      ReconnectPc.outcome]
    assumption
  | connectLock =>
    cases locked <;>
      simp_all [GameLift.reconnectStep, ReconnectPc.dialed, ReconnectPc.connecting,
        ReconnectPc.outcome] <;> assumption
  | connectStore =>
    simp_all [GameLift.reconnectStep, ReconnectPc.dialed, ReconnectPc.connecting,
      ReconnectPc.outcome]
    assumption
  | connectDial =>
    have hc := Close_dialLoops env tr
    simp only [ReconnectPc.dialed, Bool.false_eq_true, if_false, Nat.add_zero] at h1
    have hbase : bd = false → tr.dialLoops = base := by
      intro hb
      rw [hb] at h1
      simpa using h1
    cases hd : env.dial tr.dialLoops with
    | none =>
      simp only [GameLift.reconnectStep, hc, hd, ReconnectPc.dialed,
        ReconnectPc.connecting, ReconnectPc.outcome, if_true]
      refine ⟨by omega, ?_, ?_, ?_, h5, Or.inr (Or.inl trivial)⟩
      · intro _ hb
        rw [← hbase hb, hd]
        rfl
      · intro _ hf; cases hf
      · intro err hf; cases hf
    | some text =>
      simp only [GameLift.reconnectStep, hc, hd, ReconnectPc.dialed,
        ReconnectPc.connecting, ReconnectPc.outcome, if_true]
      refine ⟨by omega, ?_, ?_, ?_, h5, Or.inr (Or.inl trivial)⟩
      · intro _ hb
        rw [← hbase hb, hd]
        rfl
      · intro _ hf; cases hf
      · intro err hf; cases hf
  | connectSuccess =>
    simp_all [GameLift.reconnectStep, ReconnectPc.dialed, ReconnectPc.connecting,
      ReconnectPc.outcome]
    assumption
  | connectUnlock err =>
    simp_all [GameLift.reconnectStep, ReconnectPc.dialed, ReconnectPc.connecting,
      ReconnectPc.outcome]
    assumption
  | storeFalse err =>
    simp_all [GameLift.reconnectStep, ReconnectPc.dialed, ReconnectPc.connecting,
      ReconnectPc.outcome]
    assumption
  | returned dialed err =>
    exact ⟨h1, h2, h3, h4, h5, h6⟩

theorem raceInv_step {env : SocketEnv} {base : Nat} {s : ReconnectRace}
    (h : RaceInv env base s.tr.dialLoops s.tr.reconnecting (s.pc false) (s.pc true))
    (who : Bool) :
    RaceInv env base (s.step env who).tr.dialLoops (s.step env who).tr.reconnecting
      ((s.step env who).pc false) ((s.step env who).pc true) := by
  cases who with
  | false =>
    have := h.reconnectStep s.locked
    simpa [ReconnectRace.step] using this
  | true =>
    have := (h.symm.reconnectStep s.locked).symm
    simpa [ReconnectRace.step] using this

theorem raceInv_run {env : SocketEnv} {base : Nat} (schedule : List Bool) :
    ∀ s : ReconnectRace,
      RaceInv env base s.tr.dialLoops s.tr.reconnecting (s.pc false) (s.pc true) →
      RaceInv env base (s.run env schedule).tr.dialLoops (s.run env schedule).tr.reconnecting
        ((s.run env schedule).pc false) ((s.run env schedule).pc true) := by
  induction schedule with
  | nil => intro s h; exact h
  | cons who rest ih => intro s h; exact ih _ (raceInv_step h who)

theorem raceInv_start (env : SocketEnv) (tr : websocketTransport) (h : tr.reconnecting = false) :
    RaceInv env tr.dialLoops (ReconnectRace.start tr).tr.dialLoops
      (ReconnectRace.start tr).tr.reconnecting ((ReconnectRace.start tr).pc false)
      ((ReconnectRace.start tr).pc true) := by
  simp [RaceInv, ReconnectRace.start, ReconnectPc.dialed, h]

/-- A caller of `Reconnect` that runs alone through its steps does what the
sequential `Reconnect` does. -/
theorem reconnect_alone (env : SocketEnv) (tr : websocketTransport) :
    ((ReconnectRace.start tr).run env (List.replicate 7 false)).tr = (tr.Reconnect env).1 ∧
    ((ReconnectRace.start tr).run env (List.replicate 7 false)).pc false =
      ReconnectPc.returned (!tr.reconnecting) (tr.Reconnect env).2 ∧
    ((ReconnectRace.start tr).run env (List.replicate 7 false)).locked = false := by
  cases hr : tr.reconnecting <;> cases hc : tr.isConnected <;> cases hh : tr.hasConn <;>
    cases hd : env.dial tr.dialLoops <;> cases hk : env.connClose tr.connCloses <;>
    simp [ReconnectRace.run, ReconnectRace.step, ReconnectRace.start, reconnectStep, List.replicate,
      websocketTransport.Reconnect, websocketTransport.Connect, websocketTransport.Close, hr, hc,
      hh, hd, hk, Function.update]

/-! ## Lemmas on the SigV4 signer -/

/-- Validation does not look at the session token. -/
theorem validateParameters_sessionToken (params : SigV4Parameters) (sessionToken : String) :
    validateParameters
      { params with AwsCredentials := { params.AwsCredentials with SessionToken := sessionToken } } =
      validateParameters params := rfl

/-- The sample input is signed, whatever its session token. -/
theorem testSigV4Parameters_result (sessionToken : String) :
    GenerateSigV4QueryParameters (testSigV4Parameters sessionToken) =
      (some (generateSigV4QueryParameters
        ("testAccessKey" ++ "/" ++
          (formatDate { unix := 1722852000, nsec := 0 } ++ "/" ++ "us-east-1" ++ "/" ++ ServiceName ++
            "/" ++ TerminationString))
        (formatDateTime { unix := 1722852000, nsec := 0 })
        sessionToken
        (generateSignature "us-east-1" "testSecretKey" (formatDate { unix := 1722852000, nsec := 0 })
          ServiceName
          (Algorithm ++ "\n" ++ formatDateTime { unix := 1722852000, nsec := 0 } ++ "\n" ++
            (formatDate { unix := 1722852000, nsec := 0 } ++ "/" ++ "us-east-1" ++ "/" ++
              ServiceName ++ "/" ++ TerminationString) ++ "\n" ++
            computeSha256Hash
              (toSortedEncodedQueryString [("param1", "value1"), ("param2", "value2")])))),
       none) := rfl

/-- The credential of the sample input. -/
theorem testSigV4Parameters_credential :
    "testAccessKey" ++ "/" ++
      (formatDate { unix := 1722852000, nsec := 0 } ++ "/" ++ "us-east-1" ++ "/" ++ ServiceName ++
        "/" ++ TerminationString) =
      "testAccessKey/20240805/us-east-1/gamelift/aws4_request" := by
  decide

/-- The timestamp of the sample input. -/
theorem testSigV4Parameters_dateTime :
    formatDateTime { unix := 1722852000, nsec := 0 } = "20240805T100000Z" := by
  decide

set_option maxRecDepth 1000000 in
/-- The signature of the sample input. -/
theorem testSigV4Parameters_signature :
    generateSignature "us-east-1" "testSecretKey" (formatDate { unix := 1722852000, nsec := 0 })
      ServiceName
      (Algorithm ++ "\n" ++ formatDateTime { unix := 1722852000, nsec := 0 } ++ "\n" ++
        (formatDate { unix := 1722852000, nsec := 0 } ++ "/" ++ "us-east-1" ++ "/" ++
          ServiceName ++ "/" ++ TerminationString) ++ "\n" ++
        computeSha256Hash
          (toSortedEncodedQueryString [("param1", "value1"), ("param2", "value2")])) =
      "2601fe291f4b43a63f6ffb0e1d9085a1edbaa2a866c96511e153af3408bfe771" := by
  decide


/-- The result of the signer on a valid input. -/
theorem GenerateSigV4QueryParameters_of_valid (params : SigV4Parameters)
    (hvalid : validateParameters params = none) :
    GenerateSigV4QueryParameters params =
      (some (generateSigV4QueryParameters
        (params.AwsCredentials.AccessKey ++ "/" ++
          (formatDate params.RequestTime ++ "/" ++ params.AwsRegion ++ "/" ++ ServiceName ++ "/" ++
            TerminationString))
        (formatDateTime params.RequestTime)
        params.AwsCredentials.SessionToken
        (generateSignature params.AwsRegion params.AwsCredentials.SecretKey
          (formatDate params.RequestTime) ServiceName
          (Algorithm ++ "\n" ++ formatDateTime params.RequestTime ++ "\n" ++
            (formatDate params.RequestTime ++ "/" ++ params.AwsRegion ++ "/" ++ ServiceName ++ "/" ++
              TerminationString) ++ "\n" ++
            computeSha256Hash (toSortedEncodedQueryString (params.QueryParams.getD []))))),
       none) := by
  simp only [GenerateSigV4QueryParameters, hvalid]

/-- The keys and the entries of the map of signed parameters. -/
theorem generateSigV4QueryParameters_lookup (credential dateTime sessionToken signature : String) :
    (generateSigV4QueryParameters credential dateTime sessionToken signature).map Prod.fst =
      (if sessionToken = "" then
        ["Authorization", "X-Amz-Algorithm", "X-Amz-Credential", "X-Amz-Date", "X-Amz-Signature"]
      else
        ["X-Amz-Security-Token", "Authorization", "X-Amz-Algorithm", "X-Amz-Credential",
         "X-Amz-Date", "X-Amz-Signature"]) ∧
    mapGet (generateSigV4QueryParameters credential dateTime sessionToken signature)
      "Authorization" = some "SigV4" ∧
    mapGet (generateSigV4QueryParameters credential dateTime sessionToken signature)
      "X-Amz-Algorithm" = some "AWS4-HMAC-SHA256" ∧
    mapGet (generateSigV4QueryParameters credential dateTime sessionToken signature)
      "X-Amz-Credential" = some credential ∧
    mapGet (generateSigV4QueryParameters credential dateTime sessionToken signature)
      "X-Amz-Date" = some dateTime ∧
    mapGet (generateSigV4QueryParameters credential dateTime sessionToken signature)
      "X-Amz-Signature" = some signature ∧
    mapGet (generateSigV4QueryParameters credential dateTime sessionToken signature)
      "X-Amz-Security-Token" = (if sessionToken = "" then none else some sessionToken) := by
  by_cases h : sessionToken = ""
  · simp [generateSigV4QueryParameters, h, mapGet, AuthorizationKey, AuthorizationValue,
      AmzAlgorithmKey, Algorithm, AmzCredentialKey, AmzDateKey, AmzSignatureKey]
  · simp [generateSigV4QueryParameters, h, mapGet, mapSet, mapDelete, AuthorizationKey,
      AuthorizationValue, AmzAlgorithmKey, Algorithm, AmzCredentialKey, AmzDateKey, AmzSignatureKey,
      AmzSecurityTokenHeadersKey]

/-- The session token only affects the entry of the security token. -/
theorem generateSigV4QueryParameters_other_keys (credential dateTime signature : String)
    (token1 token2 key : String) (hkey : key ≠ "X-Amz-Security-Token") :
    mapGet (generateSigV4QueryParameters credential dateTime token1 signature) key =
      mapGet (generateSigV4QueryParameters credential dateTime token2 signature) key := by
  have h : ∀ token : String,
      mapGet (generateSigV4QueryParameters credential dateTime token signature) key =
        mapGet [(AuthorizationKey, AuthorizationValue), (AmzAlgorithmKey, Algorithm),
          (AmzCredentialKey, credential), (AmzDateKey, dateTime), (AmzSignatureKey, signature)]
          key := by
    intro token
    unfold generateSigV4QueryParameters
    by_cases ht : token = ""
    · simp [ht]
    · simp only [ne_eq, ht, not_false_eq_true, if_true]
      exact mapGet_mapSet_of_ne _ _ hkey
  rw [h token1, h token2]

/-! ## Inbound dispatch -/

/-- C1. Inbound frame dispatch equals the reference rule for every payload,
every decoder and every client state: an undecodable payload changes nothing;
a non-200 status with a non-empty request id resolves the pending entry (if
any) with the payload and the error built from the status code and message,
without calling a handler; otherwise a registered handler is called with the
raw payload and the table is untouched; otherwise the pending entry (if any)
receives the payload with a nil error; with neither, the frame is dropped.
In particular a frame decoded with status 0 (no `StatusCode` in the JSON) and
a non-empty request id takes the error branch: its waiter receives the
payload with an `InternalServiceException`, whatever handlers exist. -/
theorem readHandler_eq_readHandlerRule (dec : List UInt8 → Option ResponseMessage)
    (c : websocketClient) (data : Option (List UInt8)) :
    c.readHandler dec data = readHandlerRule dec c data ∧
    (∀ (resp : ResponseMessage) (ch : ChanId), jsonUnmarshal dec data = some resp →
      resp.StatusCode = 0 → resp.RequestID ≠ "" → mapGet c.responses resp.RequestID = some ch →
      c.readHandler dec data =
        { c with
          events := c.events ++
            [Event.chanSend ch
              { Data := data,
                Error := some (NewGameLiftError GameLiftErrorType.InternalServiceException ""
                  resp.ErrorMessage) },
             Event.chanClose ch],
          responses := mapDelete c.responses resp.RequestID }) := by
  have hmain : c.readHandler dec data = readHandlerRule dec c data := by
    unfold websocketClient.readHandler readHandlerRule classify
    cases hdec : jsonUnmarshal dec data with
    | none => rfl
    | some resp =>
      have hdata : data ≠ none := by
        intro h
        rw [h] at hdec
        simp [jsonUnmarshal] at hdec
      by_cases hbr : resp.StatusCode ≠ 200 ∧ resp.RequestID ≠ ""
      · simp only [if_pos hbr, websocketClient.sendResponse, toWaiter]
        cases hget : mapGet c.responses resp.RequestID with
        | none => rfl
        | some ch =>
          simp [hdata, NewGameLiftErrorFromStatusCode, NewGameLiftError,
            getErrorTypeForStatusCode, statusError, ge_iff_le]
      · simp only [if_neg hbr, websocketClient.getHandlerByAction]
        cases hh : mapGet c.asyncHandlers resp.Action with
        | some h => rfl
        | none =>
          simp only [websocketClient.sendResponse, toWaiter]
          cases hget : mapGet c.responses resp.RequestID with
          | none => rfl
          | some ch => simp [hdata]
  refine ⟨hmain, ?_⟩
  intro resp ch hdec hstatus hid hget
  have hbr : resp.StatusCode ≠ 200 ∧ resp.RequestID ≠ "" := ⟨by rw [hstatus]; decide, hid⟩
  rw [hmain]
  simp only [readHandlerRule, classify, hdec, if_pos hbr, toWaiter, hget, statusError, hstatus,
    NewGameLiftError]
  simp [hid]

/-- Witness of C1: the response of `TestWebsocketClientSendRequest` carries no
`StatusCode`; with the request pending on channel 1 its waiter receives the
payload together with an `InternalServiceException`. -/
theorem readHandler_eq_readHandlerRule_witness :
    ({ responses := [("test-request-id", 1)], asyncHandlers := [], events := [] } :
        websocketClient).readHandler (decodeOnly [123, 125] describeResponseEnvelope)
        (some [123, 125]) =
      { responses := [], asyncHandlers := [],
        events :=
          [Event.chanSend 1
            { Data := some [123, 125],
              Error := some (NewGameLiftError GameLiftErrorType.InternalServiceException "" "") },
           Event.chanClose 1] } :=
  ((readHandler_eq_readHandlerRule (decodeOnly [123, 125] describeResponseEnvelope)
    { responses := [("test-request-id", 1)], asyncHandlers := [], events := [] }
    (some [123, 125])).2 describeResponseEnvelope 1 (by decide) (by decide) (by decide)
    (by decide)).trans (by decide)

/-! ## HandleRequest -/

/-- C3. The result of `HandleRequest`, for every request, decoder and
behaviour of the client: the error of `SendRequest` unchanged when it fails
(nothing else is called); on timeout exactly one `CancelRequest` with the
request id of the request and an error of kind `ServiceCallFailed`; on a
received outcome with a non-nil error that same error; otherwise
`InternalServiceException` when the data does not decode, and nil with the
decoded response when it does. -/
theorem HandleRequest_result {ρ : Type} (dec : List UInt8 → Option ρ) (request : Message) :
    (∀ (e : GoError) (wait : Wait),
      (HandleRequest dec request (some e) wait).err = some e ∧
      (HandleRequest dec request (some e) wait).response = none ∧
      (HandleRequest dec request (some e) wait).calls = [ClientCall.SendRequest request]) ∧
    ((HandleRequest dec request none Wait.expired).err =
        some (NewGameLiftError GameLiftErrorType.ServiceCallFailed "" "") ∧
      (HandleRequest dec request none Wait.expired).response = none ∧
      (HandleRequest dec request none Wait.expired).calls =
        [ClientCall.SendRequest request, ClientCall.CancelRequest request.RequestID] ∧
      ((HandleRequest dec request none Wait.expired).calls.filter
        (fun call => decide (call = ClientCall.CancelRequest request.RequestID))).length = 1) ∧
    (∀ (data : Option (List UInt8)) (e : GoError),
      (HandleRequest dec request none (Wait.received { Data := data, Error := some e })).err = some e ∧
      (HandleRequest dec request none (Wait.received { Data := data, Error := some e })).response = none ∧
      (HandleRequest dec request none (Wait.received { Data := data, Error := some e })).calls =
        [ClientCall.SendRequest request]) ∧
    (∀ (data : Option (List UInt8)), jsonUnmarshal dec data = none →
      (HandleRequest dec request none (Wait.received { Data := data, Error := none })).err =
        some (NewGameLiftError GameLiftErrorType.InternalServiceException "" "") ∧
      (HandleRequest dec request none (Wait.received { Data := data, Error := none })).response = none ∧
      (HandleRequest dec request none (Wait.received { Data := data, Error := none })).calls =
        [ClientCall.SendRequest request]) ∧
    (∀ (data : Option (List UInt8)) (v : ρ), jsonUnmarshal dec data = some v →
      (HandleRequest dec request none (Wait.received { Data := data, Error := none })).err = none ∧
      (HandleRequest dec request none (Wait.received { Data := data, Error := none })).response = some v ∧
      (HandleRequest dec request none (Wait.received { Data := data, Error := none })).calls =
        [ClientCall.SendRequest request]) := by
  refine ⟨?_, ?_, ?_, ?_, ?_⟩
  · intro e wait
    simp [HandleRequest]
  · simp [HandleRequest]
  · intro data e
    simp [HandleRequest]
  · intro data hnone
    simp [HandleRequest, hnone]
  · intro data v hsome
    simp [HandleRequest, hsome]

/-- Witness of C3 on the request of the manager tests: a decoder that accepts
every non-empty payload, the nil payload of a channel closed without a value
(undecodable), and a two-byte payload. -/
theorem HandleRequest_result_witness :
    (HandleRequest (fun bs => some bs) testRequest none
        (Wait.received { Data := none, Error := none })).err =
      some (NewGameLiftError GameLiftErrorType.InternalServiceException "" "") ∧
    (HandleRequest (fun bs => some bs) testRequest none
        (Wait.received { Data := some [123, 125], Error := none })).response = some [123, 125] :=
  ⟨((HandleRequest_result (fun bs => some bs) testRequest).2.2.2.1 none (by decide)).1,
   ((HandleRequest_result (fun bs => some bs) testRequest).2.2.2.2 (some [123, 125]) [123, 125]
      (by decide)).2.1⟩

/-! ## SendRequest -/

/-- C4 (the code at the failing input). `SendRequest` on a fresh client with
request id `test-request-id`, channel 1, and a transport whose `Write` fails:
the entry is stored, the write is attempted, and then the channel is closed
and the entry removed without any value being sent on the channel; the error
only reaches the caller as the return value. -/
theorem SendRequest_write_failure_closes_without_value :
    websocketClient.init.SendRequest testRequest (some 1)
        { marshalled := Except.ok [123, 125], written := some (GoError.other "connection lost") } =
      ({ responses := [], asyncHandlers := [],
         events := [Event.transportWrite [123, 125], Event.chanClose 1] },
       some (GoError.gameLift
         { ErrorType := GameLiftErrorType.ServiceCallFailed, name := "Failed write data",
           message := "connection lost" })) := by
  decide

/-- C5. `SendRequest` rejects without side effects: with a nil channel or an
empty request id it returns an error of kind `BadRequestException`, and
(these two checks passed) with a request id already in the pending table an
error of kind `InternalServiceException`; in all three cases the client is
returned unchanged, so the table keeps its entries, the stored channel of a
duplicate id included, and no transport call is made. -/
theorem SendRequest_rejects_without_side_effects (c : websocketClient) (req : Message)
    (resp : Option ChanId) (env : SendEnv) :
    (resp = none ∨ req.RequestID = "" →
      (c.SendRequest req resp env).1 = c ∧
      ((c.SendRequest req resp env).2.bind GoError.kind) =
        some GameLiftErrorType.BadRequestException) ∧
    (∀ (ch stored : ChanId), resp = some ch → req.RequestID ≠ "" →
      mapGet c.responses req.RequestID = some stored →
      (c.SendRequest req resp env).1 = c ∧
      mapGet (c.SendRequest req resp env).1.responses req.RequestID = some stored ∧
      ((c.SendRequest req resp env).2.bind GoError.kind) =
        some GameLiftErrorType.InternalServiceException) := by
  constructor
  · intro h
    cases resp with
    | none => simp [websocketClient.SendRequest, NewGameLiftError, GoError.kind]
    | some ch =>
      have hid : req.RequestID = "" := by
        rcases h with h | h
        · cases h
        · exact h
      simp [websocketClient.SendRequest, hid, NewGameLiftError, GoError.kind]
  · intro ch stored hresp hid hget
    subst hresp
    simp [websocketClient.SendRequest, hid, websocketClient.storeResponse, hget, NewGameLiftError,
      GoError.kind]

/-- Witness of C5: the duplicate case after one accepted request, and the
nil-channel case. -/
theorem SendRequest_rejects_without_side_effects_witness :
    ((({ responses := [("test-request-id", 1)], asyncHandlers := [], events := [] } :
        websocketClient).SendRequest testRequest (some 2)
        { marshalled := Except.ok [123, 125], written := none }).1 =
      { responses := [("test-request-id", 1)], asyncHandlers := [], events := [] }) ∧
    ((websocketClient.init.SendRequest testRequest none
        { marshalled := Except.ok [123, 125], written := none }).1 = websocketClient.init) :=
  ⟨((SendRequest_rejects_without_side_effects
      { responses := [("test-request-id", 1)], asyncHandlers := [], events := [] } testRequest
      (some 2) { marshalled := Except.ok [123, 125], written := none }).2 2 1 rfl (by decide)
      (by decide)).1,
   ((SendRequest_rejects_without_side_effects websocketClient.init testRequest none
      { marshalled := Except.ok [123, 125], written := none }).1 (Or.inl rfl)).1⟩

/-! ## The pending-request table -/

/-- C2. Pending-request table invariant. For every sequence of operations
(`SendRequest`, inbound frame, `CancelRequest`, `Close`, `AddHandler`) on a
fresh client in which the `SendRequest` calls are handed pairwise distinct
channels, and for the last operation `op` of the sequence: the table holds at
most one entry per request id; every entry that is in the table before `op`
and not after it has its channel closed among the events of `op`; no channel
has been closed more than once; and if `op` is `Close` the table is empty. -/
theorem pending_table_invariant (dec : List UInt8 → Option ResponseMessage) (ops : List Op)
    (op : Op) (hdistinct : (channelsOf (ops ++ [op])).Nodup) :
    ((step dec (run dec websocketClient.init ops) op).responses.map Prod.fst).Nodup ∧
    (∃ new : List Event,
      (step dec (run dec websocketClient.init ops) op).events =
        (run dec websocketClient.init ops).events ++ new ∧
      ∀ (id : String) (ch : ChanId),
        mapGet (run dec websocketClient.init ops).responses id = some ch →
        mapGet (step dec (run dec websocketClient.init ops) op).responses id ≠ some ch →
        Event.chanClose ch ∈ new) ∧
    (∀ ch : ChanId, closeCount ch (step dec (run dec websocketClient.init ops) op).events ≤ 1) ∧
    (∀ closed : Option GoError, op = Op.close closed →
      (step dec (run dec websocketClient.init ops) op).responses = []) := by
  obtain ⟨used, hinv, _⟩ := tableInv_run dec (ops ++ [op]) [] websocketClient.init tableInv_init
    hdistinct (fun _ _ h => by cases h)
  rw [run_append] at hinv
  refine ⟨hinv.1, step_leaves dec _ op, hinv.2.2.2.2, ?_⟩
  intro closed hop
  subst hop
  exact Close_responses _ closed


/-- Witness of C2: two requests on channels 1 and 2, the first cancelled, then
`Close`. -/
theorem pending_table_invariant_witness :
    (channelsOf
      ([Op.sendRequest testRequest (some 1) { marshalled := Except.ok [123, 125], written := none },
        Op.cancelRequest "test-request-id",
        Op.sendRequest testRequest (some 2) { marshalled := Except.ok [123, 125], written := none }] ++
       [Op.close none])).Nodup ∧
    (∀ ch : ChanId, closeCount ch
      (step (decodeOnly createGameSessionRequest createGameSessionEnvelope)
        (run (decodeOnly createGameSessionRequest createGameSessionEnvelope) websocketClient.init
          [Op.sendRequest testRequest (some 1) { marshalled := Except.ok [123, 125], written := none },
           Op.cancelRequest "test-request-id",
           Op.sendRequest testRequest (some 2) { marshalled := Except.ok [123, 125], written := none }])
        (Op.close none)).events ≤ 1) :=
  ⟨by decide,
   (pending_table_invariant (decodeOnly createGameSessionRequest createGameSessionEnvelope)
      [Op.sendRequest testRequest (some 1) { marshalled := Except.ok [123, 125], written := none },
       Op.cancelRequest "test-request-id",
       Op.sendRequest testRequest (some 2) { marshalled := Except.ok [123, 125], written := none }]
      (Op.close none) (by decide)).2.2.1⟩

/-! ## Frames without a request id -/

/-- C6 (counterexample). The frame of `TestWebsocketClientHandler`,
`{"Action": "CreateGameSession"}`, has status 0 (not 200) and an empty request
id, and it is not dropped: the handler registered for its action is invoked
with the payload. -/
theorem readHandler_invokes_handler_without_id :
    createGameSessionEnvelope.StatusCode ≠ 200 ∧
    createGameSessionEnvelope.RequestID = "" ∧
    jsonUnmarshal (decodeOnly createGameSessionRequest createGameSessionEnvelope)
      (some createGameSessionRequest) = some createGameSessionEnvelope ∧
    ((websocketClient.init.AddHandler "CreateGameSession" 7).readHandler
      (decodeOnly createGameSessionRequest createGameSessionEnvelope)
      (some createGameSessionRequest)).events =
      [Event.handlerCall 7 (some createGameSessionRequest)] := by
  decide

/-- C6 (amended). In every client state reached from a fresh client, an
inbound frame with an empty request id, in particular one whose status is not
200, resolves no pending entry and produces no error outcome; the async
handler registered for its action, if any, is invoked with the raw payload,
and only when there is none is the frame dropped. -/
theorem readHandler_status_without_id (dec : List UInt8 → Option ResponseMessage) (ops : List Op)
    (data : Option (List UInt8)) (resp : ResponseMessage)
    (hdec : jsonUnmarshal dec data = some resp) (hid : resp.RequestID = "") :
    (run dec websocketClient.init ops).readHandler dec data =
      match (run dec websocketClient.init ops).getHandlerByAction resp.Action with
      | some handler =>
        { run dec websocketClient.init ops with
          events := (run dec websocketClient.init ops).events ++ [Event.handlerCall handler data] }
      | none => run dec websocketClient.init ops := by
  have hempty := run_no_empty_id dec ops websocketClient.init rfl
  simp only [websocketClient.readHandler, hdec, hid, ne_eq, not_true_eq_false, and_false, if_false]
  cases (run dec websocketClient.init ops).getHandlerByAction resp.Action with
  | some handler => rfl
  | none => exact sendResponse_of_none data none hempty

/-- Witness of C6 (amended): the frame of the client test after the handler
was registered. -/
theorem readHandler_status_without_id_witness :
    (run (decodeOnly createGameSessionRequest createGameSessionEnvelope) websocketClient.init
        [Op.addHandler "CreateGameSession" 7]).readHandler
        (decodeOnly createGameSessionRequest createGameSessionEnvelope)
        (some createGameSessionRequest) =
      { responses := [], asyncHandlers := [("CreateGameSession", 7)],
        events := [Event.handlerCall 7 (some createGameSessionRequest)] } :=
  (readHandler_status_without_id (decodeOnly createGameSessionRequest createGameSessionEnvelope)
    [Op.addHandler "CreateGameSession" 7] (some createGameSessionRequest)
    createGameSessionEnvelope (by decide) (by decide)).trans (by decide)

/-! ## Write of the transport -/

/-- C7 (the code at the failing inputs). On a connected transport whose
socket fails every write with a non-close error: when every dial succeeds,
`Write` never returns, whatever the fuel (each successful reconnect takes the
counter back to the value that triggers the next reconnect); when the
reconnect of the third failure succeeds and the next one fails, `Write`
returns `WebsocketSendMessageFailure` after six socket writes, one more than
`MaxReadWriteRetry`. -/
theorem Write_attempts_not_capped :
    (∀ fuel : Nat, (Websocket.Connect alwaysBroken).1.Write alwaysBroken fuel = none) ∧
    (Websocket.Connect brokenDialTwice).1.Write brokenDialTwice 7 =
      some (WriteResult.returned
        { isConnected := false, reconnecting := false, hasConn := true, writeRetries := 5,
          writeCalls := 6, dialLoops := 3, connCloses := 2, reconnectCalls := 2, sleeps := 4,
          readLoops := 2 }
        (some (GoError.gameLift
          { ErrorType := GameLiftErrorType.WebsocketSendMessageFailure,
            name := "Failed write data", message := "broken pipe" }))) := by
  constructor
  · intro fuel
    have hW : (Websocket.Connect alwaysBroken).1.Write alwaysBroken fuel =
        websocketTransport.writeLoop alwaysBroken fuel
          { (Websocket.Connect alwaysBroken).1 with writeRetries := 0 } none := rfl
    rw [hW]
    exact writeLoop_alwaysBroken fuel _ none (by decide) rfl
  · decide

/-- C8. On a connected transport: if the first three socket writes of a
`Write` call fail with errors that are not close errors with code 1000 or
1001, a `Reconnect` in the state of the transport returns nil (socket writes
change nothing `Reconnect` depends on) and the fourth socket write succeeds,
then `Write` returns nil after exactly four socket writes and exactly one
`Reconnect` call; and if the first socket write fails with a close error with
code 1000 or 1001, `Write` returns that error after that one write, the
transport otherwise unchanged (no reconnect, no dial). Every amount of fuel
that covers the loop iterations gives the result. -/
theorem Write_reconnects_once_and_stops_on_clean_close (env : SocketEnv)
    (tr : websocketTransport) (hconn : tr.isConnected = true) :
    (∀ e0 e1 e2 : GoError,
      env.writeMessage tr.writeCalls = some e0 →
      env.writeMessage (tr.writeCalls + 1) = some e1 →
      env.writeMessage (tr.writeCalls + 2) = some e2 →
      (∀ text : String, e0 ≠ GoError.closeError 1000 text ∧ e0 ≠ GoError.closeError 1001 text) →
      (∀ text : String, e1 ≠ GoError.closeError 1000 text ∧ e1 ≠ GoError.closeError 1001 text) →
      (∀ text : String, e2 ≠ GoError.closeError 1000 text ∧ e2 ≠ GoError.closeError 1001 text) →
      (tr.Reconnect env).2 = none →
      env.writeMessage (tr.writeCalls + 3) = none →
      ∀ fuel : Nat, 4 ≤ fuel →
        ∃ tr2 : websocketTransport,
          tr.Write env fuel = some (WriteResult.returned tr2 none) ∧
          tr2.writeCalls = tr.writeCalls + 4 ∧
          tr2.reconnectCalls = tr.reconnectCalls + 1) ∧
    (∀ (code : Int) (text : String), code = 1000 ∨ code = 1001 →
      env.writeMessage tr.writeCalls = some (GoError.closeError code text) →
      ∀ fuel : Nat, 1 ≤ fuel →
        tr.Write env fuel =
          some (WriteResult.returned
            { tr with writeRetries := 0, writeCalls := tr.writeCalls + 1 }
            (some (GoError.closeError code text)))) := by
  constructor
  · intro e0 e1 e2 h0 h1 h2 ha0 ha1 ha2 hrec h3 fuel hfuel
    obtain ⟨n, rfl⟩ : ∃ n, fuel = n + 4 := ⟨fuel - 4, by omega⟩
    have hb0 := (isAbnormalCloseError_iff e0).mpr ha0
    have hb1 := (isAbnormalCloseError_iff e1).mpr ha1
    have hb2 := (isAbnormalCloseError_iff e2).mpr ha2
    have herr : ∀ t : websocketTransport, t.reconnecting = tr.reconnecting →
        t.dialLoops = tr.dialLoops → (t.Reconnect env).2 = none := by
      intro t hr hd
      rw [Reconnect_err, hr, hd, ← Reconnect_err]
      exact hrec
    cases hR : websocketTransport.Reconnect env
        { tr with writeRetries := 2, writeCalls := tr.writeCalls + 1 + 1 + 1,
                  sleeps := tr.sleeps + 1 + 1 } with
    | mk tr2 r =>
      have hr : r = none := by
        have := herr { tr with writeRetries := 2, writeCalls := tr.writeCalls + 1 + 1 + 1,
                               sleeps := tr.sleeps + 1 + 1 } rfl rfl
        rw [hR] at this
        exact this
      have hf := Reconnect_fields env
        { tr with writeRetries := 2, writeCalls := tr.writeCalls + 1 + 1 + 1,
                  sleeps := tr.sleeps + 1 + 1 }
      rw [hR] at hf
      simp only at hf
      subst hr
      refine ⟨{ tr2 with writeRetries := 2, writeCalls := tr2.writeCalls + 1 }, ?_, ?_, ?_⟩
      · have hW : tr.Write env (n + 4) =
            websocketTransport.writeLoop env (n + 4) { tr with writeRetries := 0 } none := by
          simp [websocketTransport.Write, hconn]
        rw [hW]
        simp [websocketTransport.writeLoop, h0, h1, h2, hb0, hb1,
          hb2, MaxReadWriteRetry, ReconnectOnReadWriteFailureNumber,
          websocketTransport.handleNetworkInterrupt, hR, hf, h3]
      · simp [hf.1]
      · simp [hf.2.1]
  · intro code text hcode hw fuel hfuel
    obtain ⟨n, rfl⟩ : ∃ n, fuel = n + 1 := ⟨fuel - 1, by omega⟩
    have hab : isAbnormalCloseError (GoError.closeError code text) = false := by
      rcases hcode with h | h <;> subst h <;> rfl
    have hW : tr.Write env (n + 1) =
        websocketTransport.writeLoop env (n + 1) { tr with writeRetries := 0 } none := by
      simp [websocketTransport.Write, hconn]
    rw [hW]
    simp [websocketTransport.writeLoop, hw, hab, MaxReadWriteRetry]

/-- Witness of C8: the scenarios of `TestWebsocketReconnectOnClose_Write` and
of `TestWebsocketWriteDoesNotReconnectForNormalClosure` after the initial
`Connect`. -/
theorem Write_reconnects_once_and_stops_on_clean_close_witness :
    (Websocket.Connect failThree).1.isConnected = true ∧
    (∃ tr2 : websocketTransport,
      (Websocket.Connect failThree).1.Write failThree 4 = some (WriteResult.returned tr2 none) ∧
      tr2.writeCalls = (Websocket.Connect failThree).1.writeCalls + 4 ∧
      tr2.reconnectCalls = (Websocket.Connect failThree).1.reconnectCalls + 1) ∧
    (Websocket.Connect normalClosure).1.Write normalClosure 1 =
      some (WriteResult.returned
        { (Websocket.Connect normalClosure).1 with
          writeRetries := 0, writeCalls := (Websocket.Connect normalClosure).1.writeCalls + 1 }
        (some (GoError.closeError 1000 "websocket: close 1000 (normal)"))) :=
  ⟨by decide,
   (Write_reconnects_once_and_stops_on_clean_close failThree (Websocket.Connect failThree).1
      (by decide)).1 (GoError.other "broken pipe") (GoError.other "broken pipe")
      (GoError.other "broken pipe") (by decide) (by decide) (by decide)
      (fun _ => ⟨by simp, by simp⟩) (fun _ => ⟨by simp, by simp⟩) (fun _ => ⟨by simp, by simp⟩)
      (by decide) (by decide) 4 (by decide),
   (Write_reconnects_once_and_stops_on_clean_close normalClosure
      (Websocket.Connect normalClosure).1 (by decide)).2 1000 "websocket: close 1000 (normal)"
      (Or.inl rfl) (by decide) 1 (by decide)⟩

/-! ## The retry decorator -/

/-- C10. For every configuration and every sequence `next` of results of the
wrapped transport, with n the configured attempt count (no call at all when it
is not positive): `Write` calls the wrapped `Write` at most n times; if call
k < n is the first that succeeds, `Write` returns nil after k+1 calls, having
slept `sleepDuration i` after each failed call i < k; if the first n calls all
fail it returns `WebsocketRetriableSendMessageFailure` with name "Failed write
retry" and message "write attempt overflow" after n calls and n sleeps; it
returns an error exactly when the first n calls all fail; and `sleepDuration
i` is (i+1)*f*d whenever the two products fit 64 bits. -/
theorem retryTransport_Write_spec (r : retryTransport) (next : Nat → Option GoError) :
    (r.Write next).calls ≤ r.attempt.toNat ∧
    (∀ k : Nat, k < r.attempt.toNat → next k = none → (∀ j, j < k → next j ≠ none) →
      r.Write next =
        { err := none, calls := k + 1, sleeps := (List.range k).map r.sleepDuration }) ∧
    ((∀ k : Nat, k < r.attempt.toNat → next k ≠ none) →
      r.Write next =
        { err := some (NewGameLiftError GameLiftErrorType.WebsocketRetriableSendMessageFailure
            "Failed write retry" "write attempt overflow"),
          calls := r.attempt.toNat,
          sleeps := (List.range r.attempt.toNat).map r.sleepDuration }) ∧
    ((r.Write next).err ≠ none ↔ ∀ k : Nat, k < r.attempt.toNat → next k ≠ none) ∧
    (∀ i : Nat, -(2 ^ 63) ≤ ((i : Int) + 1) * r.factor → ((i : Int) + 1) * r.factor < 2 ^ 63 →
      -(2 ^ 63) ≤ ((i : Int) + 1) * r.factor * r.interval →
      ((i : Int) + 1) * r.factor * r.interval < 2 ^ 63 →
      r.sleepDuration i = ((i : Int) + 1) * r.factor * r.interval) := by
  have hsucc : ∀ k : Nat, k < r.attempt.toNat → next k = none → (∀ j, j < k → next j ≠ none) →
      r.Write next =
        { err := none, calls := k + 1, sleeps := (List.range k).map r.sleepDuration } := by
    intro k hk hnone hfail
    have := writeFrom_first_success r next r.attempt.toNat 0 [] k (Nat.zero_le _) (by omega) hnone
      (fun j _ hj => hfail j hj)
    simpa [retryTransport.Write, List.range_eq_range'] using this
  have hall : (∀ k : Nat, k < r.attempt.toNat → next k ≠ none) →
      r.Write next =
        { err := some (NewGameLiftError GameLiftErrorType.WebsocketRetriableSendMessageFailure
            "Failed write retry" "write attempt overflow"),
          calls := r.attempt.toNat,
          sleeps := (List.range r.attempt.toNat).map r.sleepDuration } := by
    intro hfail
    have := writeFrom_all_fail r next r.attempt.toNat 0 []
      (fun k _ hk => hfail k (by omega))
    simpa [retryTransport.Write, List.range_eq_range'] using this
  refine ⟨?_, hsucc, hall, ?_, ?_⟩
  · simpa [retryTransport.Write] using writeFrom_calls_le r next r.attempt.toNat 0 []
  · constructor
    · intro herr
      by_contra hnot
      push_neg at hnot
      have hex : ∃ k, k < r.attempt.toNat ∧ next k = none := hnot
      classical
      have hk := Nat.find_spec hex
      have hmin : ∀ j, j < Nat.find hex → next j ≠ none := by
        intro j hj hnone
        exact Nat.find_min hex hj ⟨by omega, hnone⟩
      rw [hsucc (Nat.find hex) hk.1 hk.2 hmin] at herr
      exact herr rfl
    · intro hfail
      rw [hall hfail]
      simp
  · intro i h1 h2 h3 h4
    unfold retryTransport.sleepDuration
    rw [wrapInt64_of_inRange _ h1 h2, wrapInt64_of_inRange _ h3 h4]

/-- Witness of C10: the scenario of `TestRetryTransportWrite` with the
default configuration (one failure, then success; one sleep of 4 s). -/
theorem retryTransport_Write_spec_witness :
    WithRetry.Write (fun n => if n < 1 then some (GoError.other "test error") else none) =
      { err := none, calls := 2, sleeps := [4000000000] } ∧
    WithRetry.sleepDuration 0 = 4000000000 :=
  ⟨((retryTransport_Write_spec WithRetry
      (fun n => if n < 1 then some (GoError.other "test error") else none)).2.1 1 (by decide)
      (by decide) (by intro j hj; have : j = 0 := by omega
                      subst this; decide)).trans (by decide),
   ((retryTransport_Write_spec WithRetry
      (fun n => if n < 1 then some (GoError.other "test error") else none)).2.2.2.2 0 (by decide)
      (by decide) (by decide) (by decide)).trans (by decide)⟩

/-! ## Concurrent Reconnect calls -/

/-- C9 (counterexample). Two overlapping `Reconnect` calls on a connected
transport whose next dial loop fails: the first caller swaps the flag and
takes the mutex, the second finds the flag set and waits for the mutex; the
first returns the connect error, the second returns nil. One dial loop was
run, and the two outcomes differ. -/
theorem Reconnect_race_counterexample :
    ((ReconnectRace.start (Websocket.Connect dialOnce).1).run dialOnce
        [false, false, true, true, false, false, false, false, true, true]).pc false =
      ReconnectPc.returned true
        (some (NewGameLiftError GameLiftErrorType.WebsocketConnectFailure ""
          "connection error :refused")) ∧
    ((ReconnectRace.start (Websocket.Connect dialOnce).1).run dialOnce
        [false, false, true, true, false, false, false, false, true, true]).pc true =
      ReconnectPc.returned false none ∧
    ((ReconnectRace.start (Websocket.Connect dialOnce).1).run dialOnce
        [false, false, true, true, false, false, false, false, true, true]).tr.dialLoops =
      (Websocket.Connect dialOnce).1.dialLoops + 1 := by
  decide

/-- C9 (amended). For every interleaving of the steps of two `Reconnect`
calls started on a transport whose `reconnecting` flag is clear, and every
behaviour of the dialer, once both calls have returned: at least one of them
ran `Connect`; the dial loops run are exactly those of the calls that ran
`Connect`; and a call that found a reconnect in progress ran no dial loop
and returned nil, while the other call returned the outcome (nil or the
connect error) of the single dial loop of the race. -/
theorem Reconnect_race_outcomes (env : SocketEnv) (tr : websocketTransport)
    (hflag : tr.reconnecting = false) (schedule : List Bool) (dA dB : Bool)
    (eA eB : Option GoError)
    (hA : ((ReconnectRace.start tr).run env schedule).pc false = ReconnectPc.returned dA eA)
    (hB : ((ReconnectRace.start tr).run env schedule).pc true = ReconnectPc.returned dB eB) :
    (dA = true ∨ dB = true) ∧
    ((ReconnectRace.start tr).run env schedule).tr.dialLoops =
      tr.dialLoops + (if dA then 1 else 0) + (if dB then 1 else 0) ∧
    (dA = false → eA = none ∧ eB = connectError (env.dial tr.dialLoops)) ∧
    (dB = false → eB = none ∧ eA = connectError (env.dial tr.dialLoops)) := by
  have h := raceInv_run schedule _ (raceInv_start env tr hflag)
  rw [hA, hB] at h
  obtain ⟨h1, h2, h3, h4, h5, h6⟩ := h
  simp only [ReconnectPc.dialed, ReconnectPc.outcome, ReconnectPc.connecting] at h1 h2 h3 h6
  have hor : dA = true ∨ dB = true := by
    rcases h6 with ⟨hs, _, _⟩ | h | h
    · cases hs
    · exact Or.inl h
    · exact Or.inr h
  refine ⟨hor, h1, ?_, ?_⟩
  · intro hdA
    subst hdA
    have hdB : dB = true := by simpa using hor
    exact ⟨h4 eA rfl, Option.some.inj (h3 hdB rfl)⟩
  · intro hdB
    subst hdB
    have hdA : dA = true := by simpa using hor
    exact ⟨h5 eB rfl, Option.some.inj (h2 hdA rfl)⟩

/-- Witness of C9 (amended): the interleaving of the counterexample. -/
theorem Reconnect_race_outcomes_witness :
    (Websocket.Connect dialOnce).1.reconnecting = false ∧
    ((ReconnectRace.start (Websocket.Connect dialOnce).1).run dialOnce
        [false, false, true, true, false, false, false, false, true, true]).tr.dialLoops =
      (Websocket.Connect dialOnce).1.dialLoops + (if true then 1 else 0) + (if false then 1 else 0) :=
  ⟨by decide,
   (Reconnect_race_outcomes dialOnce (Websocket.Connect dialOnce).1 (by decide)
      [false, false, true, true, false, false, false, false, true, true] true false
      (some (NewGameLiftError GameLiftErrorType.WebsocketConnectFailure ""
        "connection error :refused")) none (by decide) (by decide)).2.1⟩

/-! ## The SigV4 signer -/

/-- C11. For every valid input `GenerateSigV4QueryParameters` returns a map whose
`X-Amz-Signature` is the hex form of the HMAC-SHA-256 of
`"AWS4-HMAC-SHA256\n<datetime>\n<scope>\n<hex SHA-256 of the sorted, url-encoded query string>"`
under the key derived from `"AWS4" + secret` over date, region, `"gamelift"` and
`"aws4_request"`; and for region `us-east-1`, access key `testAccessKey`, secret `testSecretKey`,
query `{param1: value1, param2: value2}` and time 2024-08-05T10:00:00Z (with any session token)
the signature is `2601fe29...e771`, the credential is
`testAccessKey/20240805/us-east-1/gamelift/aws4_request` and the date is `20240805T100000Z`. -/
theorem GenerateSigV4QueryParameters_signature :
    (∀ params : SigV4Parameters, validateParameters params = none →
      ∃ m : List (String × String),
        GenerateSigV4QueryParameters params = (some m, none) ∧
        mapGet m "X-Amz-Signature" =
          some (hexEncodeToString
            (hmacSha256
              (hmacSha256
                (hmacSha256
                  (hmacSha256
                    (hmacSha256 (bytesOf ("AWS4" ++ params.AwsCredentials.SecretKey))
                      (bytesOf (formatDate params.RequestTime)))
                    (bytesOf params.AwsRegion))
                  (bytesOf "gamelift"))
                (bytesOf "aws4_request"))
              (bytesOf ("AWS4-HMAC-SHA256" ++ "\n" ++ formatDateTime params.RequestTime ++ "\n" ++
                (formatDate params.RequestTime ++ "/" ++ params.AwsRegion ++ "/" ++ "gamelift" ++
                  "/" ++ "aws4_request") ++ "\n" ++
                hexEncodeToString (sha256 (bytesOf
                  (toSortedEncodedQueryString (params.QueryParams.getD []))))))))) ∧
    (∀ sessionToken : String,
      ∃ m : List (String × String),
        GenerateSigV4QueryParameters (testSigV4Parameters sessionToken) = (some m, none) ∧
        mapGet m "X-Amz-Signature" =
          some "2601fe291f4b43a63f6ffb0e1d9085a1edbaa2a866c96511e153af3408bfe771" ∧
        mapGet m "X-Amz-Credential" =
          some "testAccessKey/20240805/us-east-1/gamelift/aws4_request" ∧
        mapGet m "X-Amz-Date" = some "20240805T100000Z") := by
  constructor
  · intro params hvalid
    refine ⟨_, GenerateSigV4QueryParameters_of_valid params hvalid, ?_⟩
    rw [(generateSigV4QueryParameters_lookup _ _ _ _).2.2.2.2.2.1]
    rfl
  · intro sessionToken
    refine ⟨_, testSigV4Parameters_result sessionToken, ?_⟩
    rw [testSigV4Parameters_signature, testSigV4Parameters_credential,
      testSigV4Parameters_dateTime]
    exact ⟨(generateSigV4QueryParameters_lookup _ _ _ _).2.2.2.2.2.1,
      (generateSigV4QueryParameters_lookup _ _ _ _).2.2.2.1,
      (generateSigV4QueryParameters_lookup _ _ _ _).2.2.2.2.1⟩

/-- Witness of C11: the input of `TestGenerateSigV4QueryParameters_ValidParameters`. -/
theorem GenerateSigV4QueryParameters_signature_witness :
    validateParameters (testSigV4Parameters "testSessionToken") = none ∧
    ∃ m : List (String × String),
      GenerateSigV4QueryParameters (testSigV4Parameters "testSessionToken") = (some m, none) ∧
      mapGet m "X-Amz-Signature" =
        some "2601fe291f4b43a63f6ffb0e1d9085a1edbaa2a866c96511e153af3408bfe771" ∧
      mapGet m "X-Amz-Credential" =
        some "testAccessKey/20240805/us-east-1/gamelift/aws4_request" ∧
      mapGet m "X-Amz-Date" = some "20240805T100000Z" :=
  ⟨by decide,
   (GenerateSigV4QueryParameters_signature.1 (testSigV4Parameters "testSessionToken")
      (by decide)).elim
     (fun _ _ => GenerateSigV4QueryParameters_signature.2 "testSessionToken")⟩

/-- C12. For every valid input the returned map has exactly the keys `Authorization`
(`"SigV4"`), `X-Amz-Algorithm` (`"AWS4-HMAC-SHA256"`), `X-Amz-Credential`
(`<access key>/<YYYYMMDD>/<region>/gamelift/aws4_request`), `X-Amz-Date` and `X-Amz-Signature`,
plus `X-Amz-Security-Token` (the session token) exactly when the session token is non-empty; and
an input that differs only in the session token is valid too and yields a map that agrees with
it on every other key, the signature included. -/
theorem GenerateSigV4QueryParameters_keys (params : SigV4Parameters)
    (hvalid : validateParameters params = none) :
    ∃ m : List (String × String),
      GenerateSigV4QueryParameters params = (some m, none) ∧
      m.map Prod.fst =
        (if params.AwsCredentials.SessionToken = "" then
          ["Authorization", "X-Amz-Algorithm", "X-Amz-Credential", "X-Amz-Date", "X-Amz-Signature"]
        else
          ["X-Amz-Security-Token", "Authorization", "X-Amz-Algorithm", "X-Amz-Credential",
           "X-Amz-Date", "X-Amz-Signature"]) ∧
      mapGet m "Authorization" = some "SigV4" ∧
      mapGet m "X-Amz-Algorithm" = some "AWS4-HMAC-SHA256" ∧
      mapGet m "X-Amz-Credential" =
        some (params.AwsCredentials.AccessKey ++ "/" ++
          (formatDate params.RequestTime ++ "/" ++ params.AwsRegion ++ "/" ++ "gamelift" ++ "/" ++
            "aws4_request")) ∧
      mapGet m "X-Amz-Date" = some (formatDateTime params.RequestTime) ∧
      (mapGet m "X-Amz-Signature").isSome = true ∧
      mapGet m "X-Amz-Security-Token" =
        (if params.AwsCredentials.SessionToken = "" then none
         else some params.AwsCredentials.SessionToken) ∧
      ∀ sessionToken : String, ∃ m2 : List (String × String),
        GenerateSigV4QueryParameters
          { params with
            AwsCredentials := { params.AwsCredentials with SessionToken := sessionToken } } =
          (some m2, none) ∧
        ∀ key : String, key ≠ "X-Amz-Security-Token" → mapGet m2 key = mapGet m key := by
  refine ⟨_, GenerateSigV4QueryParameters_of_valid params hvalid, ?_⟩
  have hl := generateSigV4QueryParameters_lookup
    (params.AwsCredentials.AccessKey ++ "/" ++
      (formatDate params.RequestTime ++ "/" ++ params.AwsRegion ++ "/" ++ ServiceName ++ "/" ++
        TerminationString))
    (formatDateTime params.RequestTime) params.AwsCredentials.SessionToken
    (generateSignature params.AwsRegion params.AwsCredentials.SecretKey
      (formatDate params.RequestTime) ServiceName
      (Algorithm ++ "\n" ++ formatDateTime params.RequestTime ++ "\n" ++
        (formatDate params.RequestTime ++ "/" ++ params.AwsRegion ++ "/" ++ ServiceName ++ "/" ++
          TerminationString) ++ "\n" ++
        computeSha256Hash (toSortedEncodedQueryString (params.QueryParams.getD []))))
  refine ⟨hl.1, hl.2.1, hl.2.2.1, hl.2.2.2.1, hl.2.2.2.2.1, ?_, hl.2.2.2.2.2.2, ?_⟩
  · rw [hl.2.2.2.2.2.1]; rfl
  · intro sessionToken
    refine ⟨_, GenerateSigV4QueryParameters_of_valid _
      ((validateParameters_sessionToken params sessionToken).trans hvalid), ?_⟩
    intro key hkey
    exact generateSigV4QueryParameters_other_keys _ _ _ _ _ key hkey

/-- Witness of C12: the input of `TestGenerateSigV4QueryParameters_MissingSessionToken`. -/
theorem GenerateSigV4QueryParameters_keys_witness :
    validateParameters (testSigV4Parameters "") = none ∧
    ∃ m : List (String × String),
      GenerateSigV4QueryParameters (testSigV4Parameters "") = (some m, none) ∧
      m.map Prod.fst =
        ["Authorization", "X-Amz-Algorithm", "X-Amz-Credential", "X-Amz-Date", "X-Amz-Signature"] :=
  ⟨by decide,
   (GenerateSigV4QueryParameters_keys (testSigV4Parameters "") (by decide)).elim
     (fun m h => ⟨m, h.1, h.2.1⟩)⟩

/-- C13. `GenerateSigV4QueryParameters` returns an error exactly when the region is empty, the
access key is empty, the secret key is empty, the query map is nil or empty, or the request time
is the zero time; with an error there is no map and without one there is a map; the message
names the first failing field in the order AwsRegion, AccessKey, SecretKey, QueryParams,
RequestTime; and the session token never changes the error. -/
theorem GenerateSigV4QueryParameters_error (params : SigV4Parameters) :
    ((GenerateSigV4QueryParameters params).2 ≠ none ↔
      params.AwsRegion = "" ∨ params.AwsCredentials.AccessKey = "" ∨
      params.AwsCredentials.SecretKey = "" ∨ params.QueryParams = none ∨
      params.QueryParams = some [] ∨ params.RequestTime = { unix := -62135596800, nsec := 0 }) ∧
    ((GenerateSigV4QueryParameters params).2 ≠ none → (GenerateSigV4QueryParameters params).1 = none) ∧
    ((GenerateSigV4QueryParameters params).2 = none → (GenerateSigV4QueryParameters params).1 ≠ none) ∧
    (params.AwsRegion = "" →
      (GenerateSigV4QueryParameters params).2 = some (GoError.other "AwsRegion is required")) ∧
    (params.AwsRegion ≠ "" → params.AwsCredentials.AccessKey = "" →
      (GenerateSigV4QueryParameters params).2 = some (GoError.other "AccessKey is required")) ∧
    (params.AwsRegion ≠ "" → params.AwsCredentials.AccessKey ≠ "" →
      params.AwsCredentials.SecretKey = "" →
      (GenerateSigV4QueryParameters params).2 = some (GoError.other "SecretKey is required")) ∧
    (params.AwsRegion ≠ "" → params.AwsCredentials.AccessKey ≠ "" →
      params.AwsCredentials.SecretKey ≠ "" →
      params.QueryParams = none ∨ params.QueryParams = some [] →
      (GenerateSigV4QueryParameters params).2 = some (GoError.other "QueryParams is required")) ∧
    (params.AwsRegion ≠ "" → params.AwsCredentials.AccessKey ≠ "" →
      params.AwsCredentials.SecretKey ≠ "" →
      params.QueryParams ≠ none → params.QueryParams ≠ some [] →
      params.RequestTime = { unix := -62135596800, nsec := 0 } →
      (GenerateSigV4QueryParameters params).2 = some (GoError.other "RequestTime is required")) ∧
    (∀ sessionToken : String,
      (GenerateSigV4QueryParameters
        { params with
          AwsCredentials := { params.AwsCredentials with SessionToken := sessionToken } }).2 =
        (GenerateSigV4QueryParameters params).2) := by
  obtain ⟨region, ⟨access, secret, token⟩, query, ⟨unix, nsec⟩⟩ := params
  have hq : (query = none ∨ (query.getD []).length = 0) ↔ (query = none ∨ query = some []) := by
    cases query with
    | none => simp
    | some q => cases q <;> simp
  have ht : Time.IsZero { unix := unix, nsec := nsec } = true ↔
      ({ unix := unix, nsec := nsec } : Time) = { unix := -62135596800, nsec := 0 } := by
    simp [Time.IsZero]
  by_cases h1 : region = ""
  · simp [GenerateSigV4QueryParameters, validateParameters, h1]
  by_cases h2 : access = ""
  · simp [GenerateSigV4QueryParameters, validateParameters, h1, h2]
  by_cases h3 : secret = ""
  · simp [GenerateSigV4QueryParameters, validateParameters, h1, h2, h3]
  by_cases h4 : query = none ∨ (query.getD []).length = 0
  · have h4b := hq.mp h4
    simp only [GenerateSigV4QueryParameters, validateParameters, h1, h2, h3, h4, if_true, if_false]
    rcases h4b with h | h <;> simp [h]
  · have h4b : ¬ (query = none ∨ query = some []) := fun h => h4 (hq.mpr h)
    have h4c : query ≠ none := fun h => h4b (Or.inl h)
    have h4d : query ≠ some [] := fun h => h4b (Or.inr h)
    by_cases h5 : Time.IsZero { unix := unix, nsec := nsec } = true
    · have h5b := ht.mp h5
      simp only [GenerateSigV4QueryParameters, validateParameters, h1, h2, h3, h4, h5, if_true,
        if_false]
      simp [h5b, h4c, h4d]
    · have h5b : ¬ ({ unix := unix, nsec := nsec } : Time) = { unix := -62135596800, nsec := 0 } :=
        fun h => h5 (ht.mpr h)
      simp only [GenerateSigV4QueryParameters, validateParameters, h1, h2, h3, h4, h5, if_false]
      simp [h1, h2, h3, h4c, h4d, h5b]

/-- Witness of C13: the sample input with a nil query map. -/
theorem GenerateSigV4QueryParameters_error_witness :
    (GenerateSigV4QueryParameters { testSigV4Parameters "" with QueryParams := none }).2 =
      some (GoError.other "QueryParams is required") :=
  (GenerateSigV4QueryParameters_error { testSigV4Parameters "" with QueryParams := none }).2.2.2.2.2.2.1
    (by decide) (by decide) (by decide) (Or.inl rfl)

/-! ## Errors from status codes -/

/-- C14. For every integer status code, `NewGameLiftErrorFromStatusCode code msg` is a GameLift
error of kind `BadRequestException` if `400 <= code < 500` and of kind
`InternalServiceException` for every other code; its message is `msg`, and the message it shows
is `msg` when that is non-empty and the catalogue default of its kind otherwise. -/
theorem NewGameLiftErrorFromStatusCode_kind (statusCode : Int) (errorMessage : String) :
    NewGameLiftErrorFromStatusCode statusCode errorMessage =
      GoError.gameLift
        { ErrorType :=
            if 400 ≤ statusCode ∧ statusCode < 500 then GameLiftErrorType.BadRequestException
            else GameLiftErrorType.InternalServiceException,
          name := "", message := errorMessage } ∧
    (400 ≤ statusCode ∧ statusCode < 500 →
      (NewGameLiftErrorFromStatusCode statusCode errorMessage).kind =
        some GameLiftErrorType.BadRequestException) ∧
    (¬ (400 ≤ statusCode ∧ statusCode < 500) →
      (NewGameLiftErrorFromStatusCode statusCode errorMessage).kind =
        some GameLiftErrorType.InternalServiceException) ∧
    (∀ e : GameLiftError, NewGameLiftErrorFromStatusCode statusCode errorMessage = GoError.gameLift e →
      e.message = errorMessage ∧
      e.getMessageOrDefaultForErrorType =
        if errorMessage ≠ "" then errorMessage
        else if 400 ≤ statusCode ∧ statusCode < 500 then "Bad request exception."
        else "Internal service exception.") := by
  by_cases h : 400 ≤ statusCode ∧ statusCode < 500
  · refine ⟨?_, ?_, ?_, ?_⟩
    · simp [NewGameLiftErrorFromStatusCode, NewGameLiftError, getErrorTypeForStatusCode, h]
    · intro _
      simp [NewGameLiftErrorFromStatusCode, NewGameLiftError, getErrorTypeForStatusCode, h,
        GoError.kind]
    · intro hn; exact absurd h hn
    · intro e he
      simp only [NewGameLiftErrorFromStatusCode, NewGameLiftError, getErrorTypeForStatusCode,
        ge_iff_le, h, and_self, if_true, GoError.gameLift.injEq] at he
      subst he
      by_cases hm : errorMessage = ""
      · simp [GameLiftError.getMessageOrDefaultForErrorType, errorMessages, hm, h]
      · simp [GameLiftError.getMessageOrDefaultForErrorType, hm]
  · refine ⟨?_, ?_, ?_, ?_⟩
    · simp [NewGameLiftErrorFromStatusCode, NewGameLiftError, getErrorTypeForStatusCode, h]
    · intro hp; exact absurd hp h
    · intro _
      simp [NewGameLiftErrorFromStatusCode, NewGameLiftError, getErrorTypeForStatusCode, h,
        GoError.kind]
    · intro e he
      simp only [NewGameLiftErrorFromStatusCode, NewGameLiftError, getErrorTypeForStatusCode,
        ge_iff_le, h, if_false, GoError.gameLift.injEq] at he
      subst he
      by_cases hm : errorMessage = ""
      · simp [GameLiftError.getMessageOrDefaultForErrorType, errorMessages, hm, h]
      · simp [GameLiftError.getMessageOrDefaultForErrorType, hm]

/-- Witness of C14: status 400 of `TestWebsocketClientHandlerError`, and status 0. -/
theorem NewGameLiftErrorFromStatusCode_kind_witness :
    (NewGameLiftErrorFromStatusCode 400 "Invalid request: Connect").kind =
      some GameLiftErrorType.BadRequestException ∧
    (NewGameLiftErrorFromStatusCode 0 "").kind = some GameLiftErrorType.InternalServiceException :=
  ⟨(NewGameLiftErrorFromStatusCode_kind 400 "Invalid request: Connect").2.1 (by decide),
   (NewGameLiftErrorFromStatusCode_kind 0 "").2.2.1 (by decide)⟩

/-! ## The query of the connection -/

/-- The values of a key after `Values.Add`. -/
theorem Values.Add_get (v : Values) (key value k : String) :
    (mapGet (Values.Add v key value) k).getD [] =
      (mapGet v k).getD [] ++ (if key = k then [value] else []) := by
  unfold Values.Add
  by_cases h : key = k
  · subst h
    simp [mapSet, mapGet]
  · rw [mapGet_mapSet_of_ne _ _ (fun hk => h hk.symm)]
    simp [h]

/-- The keys after `Values.Add`. -/
theorem Values.Add_keys (v : Values) (key value k : String) :
    k ∈ (Values.Add v key value).map Prod.fst ↔ k = key ∨ k ∈ v.map Prod.fst := by
  unfold Values.Add mapSet
  simp only [List.map_cons, List.mem_cons, List.mem_map, Prod.exists, exists_and_right,
    exists_eq_right]
  constructor
  · rintro (h | ⟨x, hx⟩)
    · exact Or.inl h
    · exact Or.inr ⟨x, (mem_mapDelete.mp hx).1⟩
  · rintro (h | ⟨x, hx⟩)
    · exact Or.inl h
    · by_cases hk : k = key
      · exact Or.inl hk
      · exact Or.inr ⟨x, mem_mapDelete.mpr ⟨hx, hk⟩⟩

/-- The values of a key after a sequence of `Values.Add`. -/
theorem Values.foldl_Add_get (entries : List (String × String)) (v : Values) (k : String) :
    (mapGet (entries.foldl (fun p e => Values.Add p e.1 e.2) v) k).getD [] =
      (mapGet v k).getD [] ++ entryValues entries k := by
  induction entries generalizing v with
  | nil => simp [entryValues]
  | cons e rest ih =>
    rw [List.foldl_cons, ih, Values.Add_get]
    by_cases h : e.1 = k <;> simp [entryValues, h]

/-- The keys after a sequence of `Values.Add`. -/
theorem Values.foldl_Add_keys (entries : List (String × String)) (v : Values) (k : String) :
    k ∈ (entries.foldl (fun p e => Values.Add p e.1 e.2) v).map Prod.fst ↔
      k ∈ v.map Prod.fst ∨ k ∈ entries.map Prod.fst := by
  induction entries generalizing v with
  | nil => simp
  | cons e rest ih =>
    rw [List.foldl_cons, ih, Values.Add_keys]
    simp only [List.map_cons, List.mem_cons]
    tauto

/-- The `url.Values` of `Connect` are built by adding the specified
parameters in order. -/
theorem connectParams_eq_foldl (processID hostID fleetID authToken : String)
    (sigV4QueryParameters : Option (List (String × String))) :
    connectParams processID hostID fleetID authToken sigV4QueryParameters =
      (connectEntries processID hostID fleetID authToken sigV4QueryParameters).foldl
        (fun p e => Values.Add p e.1 e.2) [] := by
  unfold connectParams connectEntries
  by_cases h : authToken = ""
  · cases sigV4QueryParameters <;>
      simp [h, PidKey, SdkVersionKey, SdkVersion, SdkLanguageKey, SdkLanguage, ComputeIDKey,
        FleetIDKey]
  · simp [h, PidKey, SdkVersionKey, SdkVersion, SdkLanguageKey, SdkLanguage, ComputeIDKey,
      FleetIDKey, AuthTokenKey]

/-- The query with an auth token, written out. -/
theorem connectParams_authToken_Encode (processID hostID fleetID authToken : String)
    (sigV4QueryParameters : Option (List (String × String))) (hauth : authToken ≠ "") :
    Values.Encode (connectParams processID hostID fleetID authToken sigV4QueryParameters) =
      "Authorization=" ++ QueryEscape authToken ++ "&" ++ "ComputeId=" ++ QueryEscape hostID ++
        "&" ++ "FleetId=" ++ QueryEscape fleetID ++ "&" ++ "pID=" ++ QueryEscape processID ++
        "&" ++ "sdkLanguage=Go" ++ "&" ++ "sdkVersion=5.2.0" := by
  have hs : sortStrings ["Authorization", "FleetId", "ComputeId", "sdkLanguage", "sdkVersion", "pID"] =
      ["Authorization", "ComputeId", "FleetId", "pID", "sdkLanguage", "sdkVersion"] := by decide
  have hp : connectParams processID hostID fleetID authToken sigV4QueryParameters =
      [("Authorization", [authToken]), ("FleetId", [fleetID]), ("ComputeId", [hostID]),
       ("sdkLanguage", ["Go"]), ("sdkVersion", ["5.2.0"]), ("pID", [processID])] := by
    simp [connectParams, hauth, Values.Add, mapSet, mapDelete, mapGet, PidKey, SdkVersionKey,
      SdkVersion, SdkLanguageKey, SdkLanguage, ComputeIDKey, FleetIDKey, AuthTokenKey]
  have hgo : QueryEscape "Go" = "Go" := by decide
  have hver : QueryEscape "5.2.0" = "5.2.0" := by decide
  have h1 : QueryEscape "Authorization" = "Authorization" := by decide
  have h2 : QueryEscape "ComputeId" = "ComputeId" := by decide
  have h3 : QueryEscape "FleetId" = "FleetId" := by decide
  have h4 : QueryEscape "pID" = "pID" := by decide
  have h5 : QueryEscape "sdkLanguage" = "sdkLanguage" := by decide
  have h6 : QueryEscape "sdkVersion" = "sdkVersion" := by decide
  rw [hp]
  unfold Values.Encode
  simp only [List.map_cons, List.map_nil, hs, List.flatMap_cons, List.flatMap_nil]
  simp [mapGet, hgo, hver, h1, h2, h3, h4, h5, h6, String.intercalate]
  simp only [String.intercalate.go, String.append_assoc]


/-- C15. For every websocket URL that parses, `gameLiftManager.Connect` calls `Connect` of the
client first and once, with the parsed URL whose query is the encoding of a `url.Values` that
gives every key exactly the values of the parameters `pID` = process id, `sdkVersion` = `5.2.0`,
`sdkLanguage` = `Go`, `ComputeId` = host id, `FleetId` = fleet id, followed by `Authorization` =
auth token when the token is non-empty and by the entries of the signed map when it is empty,
and that has no other key; with a non-empty token the query is
`Authorization=..&ComputeId=..&FleetId=..&pID=..&sdkLanguage=Go&sdkVersion=5.2.0`, whatever the
signed map. -/
theorem Connect_query (urlParse : String → Except GoError URL)
    (clientConnect : URL → Option GoError)
    (websocketURL processID hostID fleetID authToken : String)
    (sigV4QueryParameters : Option (List (String × String))) (connectURL : URL)
    (hparse : urlParse websocketURL = Except.ok connectURL) :
    ∃ (params : Values) (handlers : List ManagerCall),
      (gameLiftManager.Connect urlParse clientConnect websocketURL processID hostID fleetID
          authToken sigV4QueryParameters).calls =
        ManagerCall.Connect { connectURL with RawQuery := Values.Encode params } :: handlers ∧
      (∀ u : URL, ManagerCall.Connect u ∉ handlers) ∧
      (∀ key : String,
        (mapGet params key).getD [] =
          entryValues
            ([("pID", processID), ("sdkVersion", "5.2.0"), ("sdkLanguage", "Go"),
              ("ComputeId", hostID), ("FleetId", fleetID)] ++
              (if authToken ≠ "" then [("Authorization", authToken)]
               else sigV4QueryParameters.getD [])) key) ∧
      (∀ key : String,
        key ∈ params.map Prod.fst ↔
          key ∈ ["pID", "sdkVersion", "sdkLanguage", "ComputeId", "FleetId"] ∨
          (if authToken ≠ "" then key = "Authorization"
           else key ∈ (sigV4QueryParameters.getD []).map Prod.fst)) ∧
      (authToken ≠ "" →
        Values.Encode params =
          "Authorization=" ++ QueryEscape authToken ++ "&" ++ "ComputeId=" ++
            QueryEscape hostID ++ "&" ++ "FleetId=" ++ QueryEscape fleetID ++ "&" ++ "pID=" ++
            QueryEscape processID ++ "&" ++ "sdkLanguage=Go" ++ "&" ++ "sdkVersion=5.2.0") := by
  refine ⟨connectParams processID hostID fleetID authToken sigV4QueryParameters,
    (gameLiftManager.Connect urlParse clientConnect websocketURL processID hostID fleetID
      authToken sigV4QueryParameters).calls.tail, ?_, ?_, ?_, ?_, ?_⟩
  · simp only [gameLiftManager.Connect, hparse]
    cases clientConnect
      { connectURL with
        RawQuery := Values.Encode
          (connectParams processID hostID fleetID authToken sigV4QueryParameters) } <;> rfl
  · intro u
    simp only [gameLiftManager.Connect, hparse]
    cases clientConnect
      { connectURL with
        RawQuery := Values.Encode
          (connectParams processID hostID fleetID authToken sigV4QueryParameters) } <;> simp
  · intro key
    rw [connectParams_eq_foldl, Values.foldl_Add_get]
    simp [connectEntries, mapGet]
  · intro key
    rw [connectParams_eq_foldl, Values.foldl_Add_keys]
    by_cases h : authToken = "" <;> simp [connectEntries, h]
    all_goals tauto
  · intro hauth
    exact connectParams_authToken_Encode processID hostID fleetID authToken sigV4QueryParameters
      hauth

/-- Witness of C15: the call of
`TestGameliftManagerHandleRequest_AuthTokenAndSigV4QueryParametersPassed`. -/
theorem Connect_query_witness :
    ∃ (params : Values) (handlers : List ManagerCall),
      (gameLiftManager.Connect (fun _ => Except.ok testURL) (fun _ => none)
          "https://example.test" "processId" "hostId" "fleetId" "authToken" (some testSignedParameters)).calls =
        ManagerCall.Connect { testURL with RawQuery := Values.Encode params } :: handlers ∧
      Values.Encode params =
        "Authorization=authToken&ComputeId=hostId&FleetId=fleetId&pID=processId&sdkLanguage=Go&sdkVersion=5.2.0" :=
  (Connect_query (fun _ => Except.ok testURL) (fun _ => none) "https://example.test" "processId"
      "hostId" "fleetId" "authToken" (some testSignedParameters) testURL rfl).elim
    (fun params h => h.elim (fun handlers h2 =>
      ⟨params, handlers, h2.1, (h2.2.2.2.2 (by decide)).trans (by decide)⟩))

/-! ## Lemmas on the initialisation of the server state -/

/-- The string of a UUID is not the sentinel process id: it has a `-`. -/
theorem UUID.String_ne_sentinel (uuid : UUID) : UUID.String uuid ≠ "ManagedResource" := by
  intro h
  have hmem : '-' ∈ (UUID.String uuid).toList := by
    simp [UUID.String]
  rw [h] at hmem
  revert hmem
  decide

/-- The check of the credentials in `init`. -/
theorem init_guard_iff (authToken awsRegion accessKey secretKey computeType : String) :
    (!decide (authToken ≠ "") &&
        !(decide (awsRegion ≠ "") && decide (accessKey ≠ "") && decide (secretKey ≠ "")) &&
        !decide (computeType = "CONTAINER")) = true ↔
      (authToken = "" ∧ ¬ (awsRegion ≠ "" ∧ accessKey ≠ "" ∧ secretKey ≠ "") ∧
        computeType ≠ "CONTAINER") := by
  by_cases ha : authToken = "" <;> by_cases hb : awsRegion = "" <;>
    by_cases hc : accessKey = "" <;> by_cases hd : secretKey = "" <;>
    by_cases ht : computeType = "CONTAINER" <;> simp_all

/-- The process id that `init` stores first. -/
theorem initIdentity_processID (state : gameLiftServerState) (e : InitEnv)
    (params : ServerParameters) :
    (state.initIdentity e params).processID =
      match e.lookupEnv "GAMELIFT_SDK_PROCESS_ID" with
      | none => params.ProcessID
      | some value => if value = "ManagedResource" then UUID.String e.newUUID else value := by
  unfold gameLiftServerState.initIdentity GetEnvStringOrDefault EnvironmentKeyProcessID
    AgentlessContainerProcessId
  cases h : e.lookupEnv "GAMELIFT_SDK_PROCESS_ID" with
  | none => simp
  | some value => by_cases hv : value = "ManagedResource" <;> simp [hv]

/-- The tunables leave the identity alone. -/
theorem initTunables_processID (state : gameLiftServerState) (e : InitEnv) :
    (state.initTunables e).processID = state.processID := rfl

/-- The last statements of `init` call `Connect` once, with the process id of
the receiver, and return. -/
theorem initConnect_spec (state : gameLiftServerState) (e : InitEnv)
    (websocketUrl authToken : String) (sigV4QueryParameters : Option (List (String × String)))
    (signed : List SigV4Parameters) :
    ∃ (args : ConnectArgs) (err : Option GoError),
      (state.initConnect e websocketUrl authToken sigV4QueryParameters signed).connects = [args] ∧
      (state.initConnect e websocketUrl authToken sigV4QueryParameters signed).exit =
        InitExit.returned err ∧
      (∀ e2 : GoError, err = some e2 → e2.kind = some GameLiftErrorType.LocalConnectionFailed) ∧
      args.processID = state.processID ∧ args.authToken = authToken := by
  unfold gameLiftServerState.initConnect
  simp only []
  split
  · exact ⟨_, _, rfl, rfl, (fun e2 h => (Option.some.inj h) ▸ rfl), rfl, rfl⟩
  · exact ⟨_, _, rfl, rfl, (fun e2 h => nomatch h), rfl, rfl⟩

/-- The signing step of `init` ends the process without a `Connect`, or goes
on as the last statements do. -/
theorem initSign_spec (state : gameLiftServerState) (pkg : Option gameLiftServerState)
    (e : InitEnv) (websocketUrl authToken awsRegion accessKey secretKey sessionToken : String) :
    ((∃ message : String,
        (state.initSign pkg e websocketUrl authToken awsRegion accessKey secretKey
          sessionToken).exit = InitExit.fatal message) ∧
      (state.initSign pkg e websocketUrl authToken awsRegion accessKey secretKey
        sessionToken).connects = []) ∨
    ∃ (args : ConnectArgs) (err : Option GoError),
      (state.initSign pkg e websocketUrl authToken awsRegion accessKey secretKey
        sessionToken).connects = [args] ∧
      (state.initSign pkg e websocketUrl authToken awsRegion accessKey secretKey
        sessionToken).exit = InitExit.returned err ∧
      (∀ e2 : GoError, err = some e2 → e2.kind = some GameLiftErrorType.LocalConnectionFailed) ∧
      args.processID = state.processID ∧ args.authToken = authToken := by
  unfold gameLiftServerState.initSign
  split
  · exact Or.inl ⟨⟨_, rfl⟩, rfl⟩
  · exact Or.inr (initConnect_spec state e websocketUrl authToken _ _)

/-- Past the check of the credentials, `init` ends the process without a
`Connect`, or calls `Connect` once with the process id stored first and
returns nil or `LocalConnectionFailed`. -/
theorem init_accepted (state : gameLiftServerState) (pkg : Option gameLiftServerState)
    (e : InitEnv) (params : ServerParameters)
    (hpass :
      ¬ (GetEnvStringOrDefault e.lookupEnv "GAMELIFT_SDK_AUTH_TOKEN" params.AuthToken = "" ∧
        ¬ (GetEnvStringOrDefault e.lookupEnv "GAMELIFT_REGION" params.AwsRegion ≠ "" ∧
           GetEnvStringOrDefault e.lookupEnv "GAMELIFT_ACCESS_KEY" params.AccessKey ≠ "" ∧
           GetEnvStringOrDefault e.lookupEnv "GAMELIFT_SECRET_KEY" params.SecretKey ≠ "") ∧
        GetEnvStringOrDefault e.lookupEnv "GAMELIFT_COMPUTE_TYPE" "" ≠ "CONTAINER")) :
    ((∃ message : String, (state.init pkg e (some params)).exit = InitExit.fatal message) ∧
      (state.init pkg e (some params)).connects = []) ∨
    ∃ (args : ConnectArgs) (err : Option GoError),
      (state.init pkg e (some params)).connects = [args] ∧
      (state.init pkg e (some params)).exit = InitExit.returned err ∧
      (∀ e2 : GoError, err = some e2 → e2.kind = some GameLiftErrorType.LocalConnectionFailed) ∧
      args.processID = (state.initIdentity e params).processID ∧
      args.authToken =
        GetEnvStringOrDefault e.lookupEnv "GAMELIFT_SDK_AUTH_TOKEN" params.AuthToken := by
  have hguard : (!decide (GetEnvStringOrDefault e.lookupEnv EnvironmentKeyAuthToken
        params.AuthToken ≠ "") &&
      !(decide (GetEnvStringOrDefault e.lookupEnv EnvironmentKeyAwsRegion params.AwsRegion ≠ "") &&
        decide (GetEnvStringOrDefault e.lookupEnv EnvironmentKeyAccessKey params.AccessKey ≠ "") &&
        decide (GetEnvStringOrDefault e.lookupEnv EnvironmentKeySecretKey params.SecretKey ≠ "")) &&
      !decide (GetEnvStringOrDefault e.lookupEnv EnvironmentKeyComputeType "" =
        ComputeTypeContainer)) = false :=
    Bool.eq_false_iff.mpr (fun h => hpass ((init_guard_iff _ _ _ _ _).mp h))
  unfold gameLiftServerState.init
  simp only [hguard, Bool.false_eq_true, if_false]
  split
  · split
    · split
      · exact Or.inl ⟨⟨_, rfl⟩, rfl⟩
      · split
        · exact Or.inl ⟨⟨_, rfl⟩, rfl⟩
        · exact initSign_spec _ pkg e _ _ _ _ _ _
    · exact initSign_spec _ pkg e _ _ _ _ _ _
  · exact Or.inr (initConnect_spec _ e _ _ _ _)

/-- When the check of the credentials fails, `init` returns `BadRequest` and
neither signs nor connects. -/
theorem init_rejected (state : gameLiftServerState) (pkg : Option gameLiftServerState)
    (e : InitEnv) (params : ServerParameters)
    (hpass :
      GetEnvStringOrDefault e.lookupEnv "GAMELIFT_SDK_AUTH_TOKEN" params.AuthToken = "" ∧
        ¬ (GetEnvStringOrDefault e.lookupEnv "GAMELIFT_REGION" params.AwsRegion ≠ "" ∧
           GetEnvStringOrDefault e.lookupEnv "GAMELIFT_ACCESS_KEY" params.AccessKey ≠ "" ∧
           GetEnvStringOrDefault e.lookupEnv "GAMELIFT_SECRET_KEY" params.SecretKey ≠ "") ∧
        GetEnvStringOrDefault e.lookupEnv "GAMELIFT_COMPUTE_TYPE" "" ≠ "CONTAINER") :
    (state.init pkg e (some params)).exit =
        InitExit.returned (some (NewGameLiftError GameLiftErrorType.BadRequestException ""
          "Either AuthToken or AwsRegion and AwsCredentials are required")) ∧
      (state.init pkg e (some params)).signed = [] ∧
      (state.init pkg e (some params)).connects = [] := by
  have hguard : (!decide (GetEnvStringOrDefault e.lookupEnv EnvironmentKeyAuthToken
        params.AuthToken ≠ "") &&
      !(decide (GetEnvStringOrDefault e.lookupEnv EnvironmentKeyAwsRegion params.AwsRegion ≠ "") &&
        decide (GetEnvStringOrDefault e.lookupEnv EnvironmentKeyAccessKey params.AccessKey ≠ "") &&
        decide (GetEnvStringOrDefault e.lookupEnv EnvironmentKeySecretKey params.SecretKey ≠ "")) &&
      !decide (GetEnvStringOrDefault e.lookupEnv EnvironmentKeyComputeType "" =
        ComputeTypeContainer)) = true :=
    (init_guard_iff _ _ _ _ _).mpr hpass
  unfold gameLiftServerState.init
  simp only [hguard, if_true, and_self]

/-! ## Initialisation of the server state -/

/-- C16. With every parameter resolved as the value of its environment variable if that is set
and as the passed-in value otherwise, `init` (on non-nil parameters) returns an error of kind
`BadRequest` without calling `Connect` of the manager if and only if the auth token is empty,
and region, access key and secret key are not all three non-empty, and the compute type is not
`CONTAINER`; the error then carries the message
`Either AuthToken or AwsRegion and AwsCredentials are required` and nothing is signed. -/
theorem init_rejects_iff (state : gameLiftServerState) (pkg : Option gameLiftServerState)
    (e : InitEnv) (params : ServerParameters) :
    (((∃ err : GoError,
          (state.init pkg e (some params)).exit = InitExit.returned (some err) ∧
          err.kind = some GameLiftErrorType.BadRequestException) ∧
        (state.init pkg e (some params)).connects = []) ↔
      (GetEnvStringOrDefault e.lookupEnv "GAMELIFT_SDK_AUTH_TOKEN" params.AuthToken = "" ∧
        ¬ (GetEnvStringOrDefault e.lookupEnv "GAMELIFT_REGION" params.AwsRegion ≠ "" ∧
           GetEnvStringOrDefault e.lookupEnv "GAMELIFT_ACCESS_KEY" params.AccessKey ≠ "" ∧
           GetEnvStringOrDefault e.lookupEnv "GAMELIFT_SECRET_KEY" params.SecretKey ≠ "") ∧
        GetEnvStringOrDefault e.lookupEnv "GAMELIFT_COMPUTE_TYPE" "" ≠ "CONTAINER")) ∧
    ((GetEnvStringOrDefault e.lookupEnv "GAMELIFT_SDK_AUTH_TOKEN" params.AuthToken = "" ∧
        ¬ (GetEnvStringOrDefault e.lookupEnv "GAMELIFT_REGION" params.AwsRegion ≠ "" ∧
           GetEnvStringOrDefault e.lookupEnv "GAMELIFT_ACCESS_KEY" params.AccessKey ≠ "" ∧
           GetEnvStringOrDefault e.lookupEnv "GAMELIFT_SECRET_KEY" params.SecretKey ≠ "") ∧
        GetEnvStringOrDefault e.lookupEnv "GAMELIFT_COMPUTE_TYPE" "" ≠ "CONTAINER") →
      (state.init pkg e (some params)).exit =
        InitExit.returned (some (NewGameLiftError GameLiftErrorType.BadRequestException ""
          "Either AuthToken or AwsRegion and AwsCredentials are required")) ∧
      (state.init pkg e (some params)).signed = []) := by
  by_cases hpass :
      (GetEnvStringOrDefault e.lookupEnv "GAMELIFT_SDK_AUTH_TOKEN" params.AuthToken = "" ∧
        ¬ (GetEnvStringOrDefault e.lookupEnv "GAMELIFT_REGION" params.AwsRegion ≠ "" ∧
           GetEnvStringOrDefault e.lookupEnv "GAMELIFT_ACCESS_KEY" params.AccessKey ≠ "" ∧
           GetEnvStringOrDefault e.lookupEnv "GAMELIFT_SECRET_KEY" params.SecretKey ≠ "") ∧
        GetEnvStringOrDefault e.lookupEnv "GAMELIFT_COMPUTE_TYPE" "" ≠ "CONTAINER")
  · have hres := init_rejected state pkg e params hpass
    refine ⟨⟨fun _ => hpass, fun _ => ⟨⟨_, hres.1, rfl⟩, hres.2.2⟩⟩, fun _ => ⟨hres.1, hres.2.1⟩⟩
  · refine ⟨⟨?_, fun h => absurd h hpass⟩, fun h => absurd h hpass⟩
    rintro ⟨⟨err, hexit, hkind⟩, hconn⟩
    rcases init_accepted state pkg e params hpass with ⟨⟨message, hfatal⟩, _⟩ | ⟨args, err2, hc, _⟩
    · rw [hfatal] at hexit
      cases hexit
    · rw [hc] at hconn
      cases hconn

/-- Witness of C16: the parameters of `TestInit` without the auth token, in an empty
environment. -/
theorem init_rejects_iff_witness :
    (gameLiftServerState.zero.init none (testInitEnv [])
        (some { testServerParameters with AuthToken := "" })).exit =
      InitExit.returned (some (NewGameLiftError GameLiftErrorType.BadRequestException ""
        "Either AuthToken or AwsRegion and AwsCredentials are required")) ∧
    (gameLiftServerState.zero.init none (testInitEnv [])
        (some { testServerParameters with AuthToken := "" })).signed = [] :=
  (init_rejects_iff gameLiftServerState.zero none (testInitEnv [])
    { testServerParameters with AuthToken := "" }).2 (by decide)

/-- Counterexample to C17: with the variable of the process id unset and the sentinel passed in
`ServerParameters.ProcessID`, `init` hands the sentinel to `Connect` and returns nil. -/
theorem init_sentinel_from_parameters :
    (gameLiftServerState.zero.init none (testInitEnv [])
        (some { testServerParameters with ProcessID := "ManagedResource" })).connects =
      [{ websocketURL := "wss://test.url", processID := "ManagedResource",
         hostID := "test-host-id", fleetID := "test-fleet-id", authToken := "test-auth-token",
         sigV4QueryParameters := none }] ∧
    (gameLiftServerState.zero.init none (testInitEnv [])
        (some { testServerParameters with ProcessID := "ManagedResource" })).exit =
      InitExit.returned none := by
  decide

/-- C17 (amended). Every call of `Connect` that `init` makes is its only one, and the process
id handed to it is: the string of a freshly generated UUID, which is not the sentinel, when the
environment variable `GAMELIFT_SDK_PROCESS_ID` holds the sentinel `ManagedResource`; the value
of that variable when it is set to anything else; and the passed-in `ProcessID`, unchanged,
when the variable is unset. -/
theorem init_Connect_processID (state : gameLiftServerState) (pkg : Option gameLiftServerState)
    (e : InitEnv) (params : ServerParameters) (args : ConnectArgs)
    (hcall : args ∈ (state.init pkg e (some params)).connects) :
    (state.init pkg e (some params)).connects = [args] ∧
    (e.lookupEnv "GAMELIFT_SDK_PROCESS_ID" = some "ManagedResource" →
      args.processID = UUID.String e.newUUID ∧ args.processID ≠ "ManagedResource") ∧
    (∀ value : String, e.lookupEnv "GAMELIFT_SDK_PROCESS_ID" = some value →
      value ≠ "ManagedResource" → args.processID = value) ∧
    (e.lookupEnv "GAMELIFT_SDK_PROCESS_ID" = none → args.processID = params.ProcessID) := by
  by_cases hpass :
      (GetEnvStringOrDefault e.lookupEnv "GAMELIFT_SDK_AUTH_TOKEN" params.AuthToken = "" ∧
        ¬ (GetEnvStringOrDefault e.lookupEnv "GAMELIFT_REGION" params.AwsRegion ≠ "" ∧
           GetEnvStringOrDefault e.lookupEnv "GAMELIFT_ACCESS_KEY" params.AccessKey ≠ "" ∧
           GetEnvStringOrDefault e.lookupEnv "GAMELIFT_SECRET_KEY" params.SecretKey ≠ "") ∧
        GetEnvStringOrDefault e.lookupEnv "GAMELIFT_COMPUTE_TYPE" "" ≠ "CONTAINER")
  · rw [(init_rejected state pkg e params hpass).2.2] at hcall
    cases hcall
  · rcases init_accepted state pkg e params hpass with ⟨_, hnone⟩ | ⟨args2, err, hc, _, _, hpid, _⟩
    · rw [hnone] at hcall
      cases hcall
    · rw [hc] at hcall
      have hargs : args = args2 := by simpa using hcall
      subst hargs
      rw [initIdentity_processID] at hpid
      refine ⟨hc, ?_, ?_, ?_⟩
      · intro henv
        rw [henv] at hpid
        simp only [if_true] at hpid
        exact ⟨hpid, hpid ▸ UUID.String_ne_sentinel e.newUUID⟩
      · intro value henv hne
        rw [henv] at hpid
        simpa [hne] using hpid
      · intro henv
        rw [henv] at hpid
        exact hpid

/-- Witness of C17 (amended): the call of `TestInit_AgentlessContainerProcessIdSet`. -/
theorem init_Connect_processID_witness :
    ({ websocketURL := "wss://test.url", processID := "01234567-89ab-cdef-0123-456789abcdef",
       hostID := "test-host-id", fleetID := "test-fleet-id", authToken := "test-auth-token",
       sigV4QueryParameters := none } : ConnectArgs) ∈
      (gameLiftServerState.zero.init none
        (testInitEnv [("GAMELIFT_SDK_PROCESS_ID", "ManagedResource")])
        (some { testServerParameters with ProcessID := "" })).connects ∧
    "01234567-89ab-cdef-0123-456789abcdef" ≠ "ManagedResource" :=
  ⟨by decide,
   ((init_Connect_processID gameLiftServerState.zero none
      (testInitEnv [("GAMELIFT_SDK_PROCESS_ID", "ManagedResource")])
      { testServerParameters with ProcessID := "" }
      { websocketURL := "wss://test.url", processID := "01234567-89ab-cdef-0123-456789abcdef",
        hostID := "test-host-id", fleetID := "test-fleet-id", authToken := "test-auth-token",
        sigV4QueryParameters := none }
      (by decide)).2.1 rfl).2⟩

/-! ## The guarded senders -/

/-- Counterexample to C18: with `processReady` true and a game session id stored,
`updatePlayerSessionCreationPolicy` with a nil policy returns `BadRequest` and sends nothing. -/
theorem updatePlayerSessionCreationPolicy_nil_policy :
    testReadyState.isReadyProcess = true ∧ testReadyState.gameSessionID ≠ "" ∧
    (testReadyState.updatePlayerSessionCreationPolicy (fun _ => none) testUUID none).err =
      some (NewGameLiftError GameLiftErrorType.BadRequestException "" "") ∧
    (testReadyState.updatePlayerSessionCreationPolicy (fun _ => none) testUUID none).sent = [] := by
  decide

/-- C18 (amended). Each of `activateGameSession`, `updatePlayerSessionCreationPolicy`,
`acceptPlayerSession` and `removePlayerSession` returns `ProcessNotReady` when `processReady` is
false, otherwise `GameSessionIdNotSet` when the stored game session id is empty, and
`updatePlayerSessionCreationPolicy` otherwise returns `BadRequest` when its policy is nil; in
these cases no message is sent. When the guards pass, the function sends exactly one message,
which carries the stored game session id (and the player session id or the policy given), and
returns the result of that send. -/
theorem senders_guards (state : gameLiftServerState)
    (sendActivate : ActivateGameSessionRequest → Option GoError)
    (sendUpdate : UpdatePlayerSessionCreationPolicyRequest → Option GoError)
    (sendAccept : AcceptPlayerSessionRequest → Option GoError)
    (sendRemove : RemovePlayerSessionRequest → Option GoError)
    (id : UUID) (playerSessionID : String) (policy : Option PlayerSessionCreationPolicy) :
    (state.isReadyProcess = false →
      state.activateGameSession sendActivate id =
        { err := some (NewGameLiftError GameLiftErrorType.ProcessNotReady "" ""), sent := [] } ∧
      state.updatePlayerSessionCreationPolicy sendUpdate id policy =
        { err := some (NewGameLiftError GameLiftErrorType.ProcessNotReady "" ""), sent := [] } ∧
      state.acceptPlayerSession sendAccept id playerSessionID =
        { err := some (NewGameLiftError GameLiftErrorType.ProcessNotReady "" ""), sent := [] } ∧
      state.removePlayerSession sendRemove id playerSessionID =
        { err := some (NewGameLiftError GameLiftErrorType.ProcessNotReady "" ""), sent := [] }) ∧
    (state.isReadyProcess = true → state.gameSessionID = "" →
      state.activateGameSession sendActivate id =
        { err := some (NewGameLiftError GameLiftErrorType.GamesessionIDNotSet "" ""), sent := [] } ∧
      state.updatePlayerSessionCreationPolicy sendUpdate id policy =
        { err := some (NewGameLiftError GameLiftErrorType.GamesessionIDNotSet "" ""), sent := [] } ∧
      state.acceptPlayerSession sendAccept id playerSessionID =
        { err := some (NewGameLiftError GameLiftErrorType.GamesessionIDNotSet "" ""), sent := [] } ∧
      state.removePlayerSession sendRemove id playerSessionID =
        { err := some (NewGameLiftError GameLiftErrorType.GamesessionIDNotSet "" ""),
          sent := [] }) ∧
    (state.isReadyProcess = true → state.gameSessionID ≠ "" →
      (∃ req : ActivateGameSessionRequest,
        state.activateGameSession sendActivate id = { err := sendActivate req, sent := [req] } ∧
        req.Action = "ActivateGameSession" ∧ req.GameSessionID = state.gameSessionID) ∧
      (policy = none →
        state.updatePlayerSessionCreationPolicy sendUpdate id policy =
          { err := some (NewGameLiftError GameLiftErrorType.BadRequestException "" ""),
            sent := [] }) ∧
      (∀ p : PlayerSessionCreationPolicy, policy = some p →
        ∃ req : UpdatePlayerSessionCreationPolicyRequest,
          state.updatePlayerSessionCreationPolicy sendUpdate id policy =
            { err := sendUpdate req, sent := [req] } ∧
          req.Action = "UpdatePlayerSessionCreationPolicy" ∧
          req.GameSessionID = state.gameSessionID ∧ req.PlayerSessionPolicy = some p) ∧
      (∃ req : AcceptPlayerSessionRequest,
        state.acceptPlayerSession sendAccept id playerSessionID =
          { err := sendAccept req, sent := [req] } ∧
        req.Action = "AcceptPlayerSession" ∧ req.GameSessionID = state.gameSessionID ∧
        req.PlayerSessionID = playerSessionID) ∧
      (∃ req : RemovePlayerSessionRequest,
        state.removePlayerSession sendRemove id playerSessionID =
          { err := sendRemove req, sent := [req] } ∧
        req.Action = "RemovePlayerSession" ∧ req.GameSessionID = state.gameSessionID ∧
        req.PlayerSessionID = playerSessionID)) := by
  refine ⟨?_, ?_, ?_⟩
  · intro hready
    simp [gameLiftServerState.activateGameSession,
      gameLiftServerState.updatePlayerSessionCreationPolicy,
      gameLiftServerState.acceptPlayerSession, gameLiftServerState.removePlayerSession, hready]
  · intro hready hid
    simp [gameLiftServerState.activateGameSession,
      gameLiftServerState.updatePlayerSessionCreationPolicy,
      gameLiftServerState.acceptPlayerSession, gameLiftServerState.removePlayerSession, hready,
      hid]
  · intro hready hid
    refine ⟨⟨NewActivateGameSession id state.gameSessionID, ?_, rfl, rfl⟩, ?_, ?_,
      ⟨NewAcceptPlayerSession id state.gameSessionID playerSessionID, ?_, rfl, rfl, rfl⟩,
      ⟨NewRemovePlayerSession id state.gameSessionID playerSessionID, ?_, rfl, rfl, rfl⟩⟩
    · simp [gameLiftServerState.activateGameSession, hready, hid]
    · intro hp
      subst hp
      simp [gameLiftServerState.updatePlayerSessionCreationPolicy, hready, hid]
    · intro p hp
      subst hp
      refine ⟨NewUpdatePlayerSessionCreationPolicy id state.gameSessionID p, ?_, rfl, rfl, rfl⟩
      simp [gameLiftServerState.updatePlayerSessionCreationPolicy, hready, hid]
    · simp [gameLiftServerState.acceptPlayerSession, hready, hid]
    · simp [gameLiftServerState.removePlayerSession, hready, hid]

/-- Witness of C18 (amended): a ready state with a game session, where the sends succeed. -/
theorem senders_guards_witness :
    ∃ req : AcceptPlayerSessionRequest,
      testReadyState.acceptPlayerSession (fun _ => none) testUUID "test-player-session-id" =
        { err := none, sent := [req] } ∧
      req.Action = "AcceptPlayerSession" ∧ req.GameSessionID = "test-game-session-id" ∧
      req.PlayerSessionID = "test-player-session-id" :=
  ((senders_guards testReadyState (fun _ => none) (fun _ => none) (fun _ => none)
    (fun _ => none) testUUID "test-player-session-id" (some 2)).2.2 (by decide)
    (by decide)).2.2.2.1

/-! ## The credentials of the fleet role -/

/-- A cache miss returns the zero result. -/
theorem getRoleCredentialsFromCache_miss (state : gameLiftServerState) (now : Int)
    (roleArn : String) (hmiss : (state.getRoleCredentialsFromCache now roleArn).2.2 = false) :
    (state.getRoleCredentialsFromCache now roleArn).2.1 = GetFleetRoleCredentialsResult.zero := by
  unfold gameLiftServerState.getRoleCredentialsFromCache at hmiss ⊢
  cases hget : mapGet (state.fleetRoleResultCache.getD []) roleArn with
  | none => rfl
  | some p =>
    rw [hget] at hmiss
    simp only [] at hmiss ⊢
    by_cases hc : wrapInt64 (wrapInt64 (p.Expiration - now) * Millisecond) >
        InstanceRoleCredentialTTL
    · simp [hc] at hmiss
    · simp [hc]

/-- The lookup in the cache leaves the flags and the identity of the state
alone. -/
theorem getRoleCredentialsFromCache_flags (state : gameLiftServerState) (now : Int)
    (roleArn : String) :
    (state.getRoleCredentialsFromCache now roleArn).1.isReadyProcess = state.isReadyProcess ∧
    (state.getRoleCredentialsFromCache now roleArn).1.fleetID = state.fleetID ∧
    (state.getRoleCredentialsFromCache now roleArn).1.hostID = state.hostID := by
  unfold gameLiftServerState.getRoleCredentialsFromCache
  cases hget : mapGet (state.fleetRoleResultCache.getD []) roleArn with
  | none => exact ⟨rfl, rfl, rfl⟩
  | some p =>
    simp only []
    by_cases hc : wrapInt64 (wrapInt64 (p.Expiration - now) * Millisecond) >
        InstanceRoleCredentialTTL
    · simp [hc]
    · simp [hc]

/-- Counterexample to C19: after `processEnding` (the flag `processReady` is false) with fresh
credentials in the cache, `getFleetRoleCredentials` returns those credentials and no error. -/
theorem getFleetRoleCredentials_cached_when_not_ready :
    (testEndedState 1722855600000).isReadyProcess = false ∧
    ((testEndedState 1722855600000).getFleetRoleCredentials 1722852000000
        (fun _ => (GetFleetRoleCredentialsResult.zero, none)) (some testCredentialsRequest)).err =
      none ∧
    ((testEndedState 1722855600000).getFleetRoleCredentials 1722852000000
        (fun _ => (GetFleetRoleCredentialsResult.zero, none)) (some testCredentialsRequest)).res =
      testCredentials 1722855600000 := by
  decide

/-- C19 (amended). In every state in which `processReady` is false, `getFleetRoleCredentials`
on a non-nil request hands no request to the manager, and: it fails with `BadRequest` and the
empty result when `onManagedEC2` is false; otherwise it returns the cached entry and no error
when the lookup in the cache succeeds; otherwise it fails with `BadRequest` and the empty result
when the role session name given is longer than 64 bytes; and otherwise it fails with
`ProcessNotReady` and the empty result. -/
theorem getFleetRoleCredentials_not_ready (state : gameLiftServerState) (now : Int)
    (handle : GetFleetRoleCredentialsRequest → GetFleetRoleCredentialsResult × Option GoError)
    (req : GetFleetRoleCredentialsRequest) (hready : state.isReadyProcess = false) :
    (state.getFleetRoleCredentials now handle (some req)).requests = [] ∧
    (state.getFleetRoleCredentials now handle (some req)).panicked = false ∧
    (state.onManagedEC2 = false →
      (state.getFleetRoleCredentials now handle (some req)).err =
        some (NewGameLiftError GameLiftErrorType.BadRequestException "" "") ∧
      (state.getFleetRoleCredentials now handle (some req)).res =
        GetFleetRoleCredentialsResult.zero) ∧
    (state.onManagedEC2 = true →
      (state.getRoleCredentialsFromCache now req.RoleArn).2.2 = true →
      (state.getFleetRoleCredentials now handle (some req)).err = none ∧
      (state.getFleetRoleCredentials now handle (some req)).res =
        (state.getRoleCredentialsFromCache now req.RoleArn).2.1) ∧
    (state.onManagedEC2 = true →
      (state.getRoleCredentialsFromCache now req.RoleArn).2.2 = false →
      req.RoleSessionName.length > 64 →
      (state.getFleetRoleCredentials now handle (some req)).err =
        some (NewGameLiftError GameLiftErrorType.BadRequestException "" "") ∧
      (state.getFleetRoleCredentials now handle (some req)).res =
        GetFleetRoleCredentialsResult.zero) ∧
    (state.onManagedEC2 = true →
      (state.getRoleCredentialsFromCache now req.RoleArn).2.2 = false →
      req.RoleSessionName.length ≤ 64 →
      (state.getFleetRoleCredentials now handle (some req)).err =
        some (NewGameLiftError GameLiftErrorType.ProcessNotReady "" "") ∧
      (state.getFleetRoleCredentials now handle (some req)).res =
        GetFleetRoleCredentialsResult.zero) := by
  have hflags := getRoleCredentialsFromCache_flags state now req.RoleArn
  have hzero := getRoleCredentialsFromCache_miss state now req.RoleArn
  unfold gameLiftServerState.getFleetRoleCredentials
  by_cases hec2 : state.onManagedEC2 = true
  · rcases hcache : state.getRoleCredentialsFromCache now req.RoleArn with ⟨s2, res, ok⟩
    rw [hcache] at hflags hzero
    simp only [] at hflags hzero
    have hready2 : s2.isReadyProcess = false := hflags.1.trans hready
    cases ok with
    | true => simp [hec2, hcache]
    | false =>
      have hres : res = GetFleetRoleCredentialsResult.zero := hzero rfl
      subst hres
      simp only [hec2, hcache, Bool.not_true, Bool.false_eq_true, if_false, hready2,
        Bool.not_false, if_true]
      by_cases hname : req.RoleSessionName = []
      · simp only [hname, if_true, List.length_nil]
        generalize bytesOf s2.fleetID ++ [45] ++ bytesOf s2.hostID = name
        by_cases hlen : name.length > RoleSessionNameMaxLength
        · have htake : ¬ (List.take RoleSessionNameMaxLength name).length >
              RoleSessionNameMaxLength := by
            rw [List.length_take]
            omega
          simp only [hlen, if_true, htake, if_false]
          simp
        · simp only [hlen, if_false]
          simp
      · simp only [hname, if_false]
        by_cases hlen : req.RoleSessionName.length > RoleSessionNameMaxLength
        · have hlen2 : req.RoleSessionName.length > 64 := hlen
          simp [hlen, hlen2]
        · have hlen2 : ¬ req.RoleSessionName.length > 64 := hlen
          simp [hlen]
          omega
  · have hec3 : state.onManagedEC2 = false := by simpa using hec2
    simp [hec3]

/-- Witness of C19 (amended): after `processEnding`, with an empty cache. -/
theorem getFleetRoleCredentials_not_ready_witness :
    ({ testReadyState with isReadyProcess := false }.getFleetRoleCredentials 1722852000000
        (fun _ => (testCredentials 1722855600000, none)) (some testCredentialsRequest)).err =
      some (NewGameLiftError GameLiftErrorType.ProcessNotReady "" "") ∧
    ({ testReadyState with isReadyProcess := false }.getFleetRoleCredentials 1722852000000
        (fun _ => (testCredentials 1722855600000, none)) (some testCredentialsRequest)).res =
      GetFleetRoleCredentialsResult.zero :=
  (getFleetRoleCredentials_not_ready { testReadyState with isReadyProcess := false }
    1722852000000 (fun _ => (testCredentials 1722855600000, none)) testCredentialsRequest
    rfl).2.2.2.2.2 (by decide) (by decide) (by decide)

/-- C20 (the code, at the failing input and in range). With the clock at 1722852000000 ms
(2024-08-05T10:00:00Z) and a cached entry whose `Expiration` is 9223372036855 ms later, far more
than 15 minutes, `getRoleCredentialsFromCache` returns the empty result and false and evicts
the entry: the time to live in nanoseconds does not fit in 64 bits and wraps to a negative
value. Whenever the time to live in nanoseconds fits in 64 bits, the function returns the entry
and true, leaving the cache alone, if and only if the cache holds an entry for the ARN with
`Expiration - now` above 900000 ms; otherwise it returns the empty result and false, and the
ARN is absent from the cache afterwards. -/
theorem getRoleCredentialsFromCache_overflow :
    ((10946224036855 : Int) - 1722852000000 > 900000 ∧
      (testEndedState 10946224036855).getRoleCredentialsFromCache 1722852000000 "TEST_ROLE_ARN" =
        ({ testEndedState 10946224036855 with fleetRoleResultCache := some [] },
          GetFleetRoleCredentialsResult.zero, false)) ∧
    (∀ (state : gameLiftServerState) (now : Int) (roleArn : String),
      (∀ entry : GetFleetRoleCredentialsResult,
        mapGet (state.fleetRoleResultCache.getD []) roleArn = some entry →
        -2 ^ 63 ≤ (entry.Expiration - now) * 1000000 ∧
          (entry.Expiration - now) * 1000000 < 2 ^ 63) →
      ((state.getRoleCredentialsFromCache now roleArn).2.2 = true ↔
        ∃ entry : GetFleetRoleCredentialsResult,
          mapGet (state.fleetRoleResultCache.getD []) roleArn = some entry ∧
          entry.Expiration - now > 900000) ∧
      ((state.getRoleCredentialsFromCache now roleArn).2.2 = true →
        (state.getRoleCredentialsFromCache now roleArn).1 = state ∧
        mapGet (state.fleetRoleResultCache.getD []) roleArn =
          some (state.getRoleCredentialsFromCache now roleArn).2.1) ∧
      ((state.getRoleCredentialsFromCache now roleArn).2.2 = false →
        (state.getRoleCredentialsFromCache now roleArn).2.1 = GetFleetRoleCredentialsResult.zero ∧
        mapGet ((state.getRoleCredentialsFromCache now roleArn).1.fleetRoleResultCache.getD [])
          roleArn = none)) := by
  refine ⟨⟨by decide, by decide⟩, ?_⟩
  intro state now roleArn hrange
  unfold gameLiftServerState.getRoleCredentialsFromCache
  cases hget : mapGet (state.fleetRoleResultCache.getD []) roleArn with
  | none => simp [hget]
  | some p =>
    have hr := hrange p hget
    have hdiff : wrapInt64 (p.Expiration - now) = p.Expiration - now :=
      wrapInt64_of_inRange _ (by omega) (by omega)
    have hprod : wrapInt64 (wrapInt64 (p.Expiration - now) * Millisecond) =
        (p.Expiration - now) * 1000000 := by
      rw [hdiff]
      exact wrapInt64_of_inRange _ hr.1 hr.2
    simp only [hprod]
    by_cases hc : p.Expiration - now > 900000
    · have hc2 : (p.Expiration - now) * 1000000 > InstanceRoleCredentialTTL := by
        simp only [InstanceRoleCredentialTTL, Minute, Second]
        omega
      simp [hc2, hc]
    · have hc2 : ¬ (p.Expiration - now) * 1000000 > InstanceRoleCredentialTTL := by
        simp only [InstanceRoleCredentialTTL, Minute, Second]
        omega
      simp only [hc2, if_false]
      refine ⟨⟨fun h => ?_, fun ⟨_, h1, h2⟩ => ?_⟩, fun h => ?_, fun _ => ⟨?_, ?_⟩⟩
      · exact absurd h (by simp)
      · cases h1
        exact absurd h2 hc
      · exact absurd h (by simp)
      · trivial
      · cases hcache : state.fleetRoleResultCache with
        | none => rfl
        | some m => exact mapGet_mapDelete_self m roleArn

/-- Witness of C20 (the code in range): the fresh entry of `TestFleetRoleCredentialsCache`,
60 minutes before expiry. -/
theorem getRoleCredentialsFromCache_overflow_witness :
    ((testEndedState 1722855600000).getRoleCredentialsFromCache 1722852000000
        "TEST_ROLE_ARN").2.2 = true :=
  ((getRoleCredentialsFromCache_overflow.2 (testEndedState 1722855600000) 1722852000000
      "TEST_ROLE_ARN" (by decide)).1).mpr ⟨testCredentials 1722855600000, by decide, by decide⟩

/-! ## The role session name -/

/-- The bytes of a string of ASCII characters are its characters. -/
theorem bytesOf_ascii (s : String) (hascii : ∀ c ∈ s.toList, c.toNat < 128) :
    bytesOf s = s.toList.map Char.toNat := by
  unfold bytesOf
  generalize s.toList = l at hascii
  induction l with
  | nil => rfl
  | cons c rest ih =>
    have hc : c.toNat < 128 := hascii c (List.mem_cons_self _ _)
    have hrest := ih (fun d hd => hascii d (List.mem_cons_of_mem _ hd))
    simp only [List.flatMap_cons, List.map_cons, hrest]
    simp [utf8Char, hc]

/-- On a cache miss with `onManagedEC2` set, `getFleetRoleCredentials` rejects a name that is
too long, then an unready process, and otherwise hands the request with its name filled in to
the manager, once. -/
theorem getFleetRoleCredentials_miss (state : gameLiftServerState) (now : Int)
    (handle : GetFleetRoleCredentialsRequest → GetFleetRoleCredentialsResult × Option GoError)
    (req : GetFleetRoleCredentialsRequest) (hec2 : state.onManagedEC2 = true)
    (hmiss : (state.getRoleCredentialsFromCache now req.RoleArn).2.2 = false) :
    ((state.withRoleSessionName req).RoleSessionName.length > 64 →
      (state.getFleetRoleCredentials now handle (some req)).err =
        some (NewGameLiftError GameLiftErrorType.BadRequestException "" "") ∧
      (state.getFleetRoleCredentials now handle (some req)).requests = []) ∧
    (state.isReadyProcess = false →
      (state.getFleetRoleCredentials now handle (some req)).requests = []) ∧
    (¬ (state.withRoleSessionName req).RoleSessionName.length > 64 →
      state.isReadyProcess = true →
      (state.getFleetRoleCredentials now handle (some req)).requests =
        [state.withRoleSessionName req]) := by
  have hflags := getRoleCredentialsFromCache_flags state now req.RoleArn
  unfold gameLiftServerState.getFleetRoleCredentials
  rcases hcache : state.getRoleCredentialsFromCache now req.RoleArn with ⟨s2, res, ok⟩
  rw [hcache] at hflags hmiss
  simp only [] at hflags hmiss
  subst hmiss
  obtain ⟨hready2, hfleet, hhost⟩ := hflags
  have hreq : (if req.RoleSessionName = [] then
        if (bytesOf s2.fleetID ++ [45] ++ bytesOf s2.hostID).length > RoleSessionNameMaxLength then
          { req with
            RoleSessionName :=
              (bytesOf s2.fleetID ++ [45] ++ bytesOf s2.hostID).take RoleSessionNameMaxLength }
        else { req with RoleSessionName := bytesOf s2.fleetID ++ [45] ++ bytesOf s2.hostID }
      else req) = state.withRoleSessionName req := by
    unfold gameLiftServerState.withRoleSessionName
    rw [hfleet, hhost]
  simp only [hec2, hcache, Bool.not_true, Bool.false_eq_true, if_false, hreq, hready2]
  generalize state.withRoleSessionName req = req2
  refine ⟨?_, ?_, ?_⟩
  · intro hlong
    have hlong2 : req2.RoleSessionName.length > RoleSessionNameMaxLength := hlong
    simp only [hlong2, if_true, and_self]
  · intro hready
    by_cases hlong : req2.RoleSessionName.length > RoleSessionNameMaxLength
    · simp only [hlong, if_true]
    · simp only [hlong, if_false, hready, Bool.not_false, if_true]
  · intro hlong hready
    have hlong2 : ¬ req2.RoleSessionName.length > RoleSessionNameMaxLength := hlong
    simp only [hlong2, if_false, hready, Bool.not_true, Bool.false_eq_true]
    rcases hh : handle req2 with ⟨r, e⟩
    cases e with
    | some e => rfl
    | none =>
      simp only []
      by_cases hk : r.AccessKeyID = ""
      · simp only [hk, if_true]
      · simp only [hk, if_false]
        cases s2.fleetRoleResultCache <;> rfl

/-- C21. On a cache miss of `getFleetRoleCredentials` (with `onManagedEC2` set and a non-nil
request), with lengths counted as Go's `len` counts them, in bytes: a role session name longer
than 64 is rejected with `BadRequest` and no request is sent; no request ever carries a name
longer than 64; and when the process is ready, exactly one request is sent, which carries the
caller's name unchanged when that has length 1 to 64, and otherwise (empty name) the first 64
bytes of `<fleetId>-<hostId>`, a prefix of that string of length at most 64. When fleet id and
host id are ASCII, that name is the string of the first 64 characters of `<fleetId>-<hostId>`. -/
theorem getFleetRoleCredentials_roleSessionName (state : gameLiftServerState) (now : Int)
    (handle : GetFleetRoleCredentialsRequest → GetFleetRoleCredentialsResult × Option GoError)
    (req : GetFleetRoleCredentialsRequest) (hec2 : state.onManagedEC2 = true)
    (hmiss : (state.getRoleCredentialsFromCache now req.RoleArn).2.2 = false) :
    (req.RoleSessionName.length > 64 →
      (state.getFleetRoleCredentials now handle (some req)).err =
        some (NewGameLiftError GameLiftErrorType.BadRequestException "" "") ∧
      (state.getFleetRoleCredentials now handle (some req)).requests = []) ∧
    (∀ sent ∈ (state.getFleetRoleCredentials now handle (some req)).requests,
      sent.RoleSessionName.length ≤ 64) ∧
    (state.isReadyProcess = true → 1 ≤ req.RoleSessionName.length →
      req.RoleSessionName.length ≤ 64 →
      (state.getFleetRoleCredentials now handle (some req)).requests = [req]) ∧
    (state.isReadyProcess = true → req.RoleSessionName = [] →
      (state.getFleetRoleCredentials now handle (some req)).requests =
        [{ req with
            RoleSessionName :=
              (bytesOf state.fleetID ++ [45] ++ bytesOf state.hostID).take 64 }] ∧
      (bytesOf state.fleetID ++ [45] ++ bytesOf state.hostID).take 64 <+:
        bytesOf (state.fleetID ++ "-" ++ state.hostID) ∧
      ((bytesOf state.fleetID ++ [45] ++ bytesOf state.hostID).take 64).length ≤ 64 ∧
      ((∀ c ∈ state.fleetID.toList ++ state.hostID.toList, c.toNat < 128) →
        (bytesOf state.fleetID ++ [45] ++ bytesOf state.hostID).take 64 =
          bytesOf (String.mk ((state.fleetID ++ "-" ++ state.hostID).toList.take 64)))) := by
  obtain ⟨hA, hB, hC⟩ := getFleetRoleCredentials_miss state now handle req hec2 hmiss
  have hfull : bytesOf (state.fleetID ++ "-" ++ state.hostID) =
      bytesOf state.fleetID ++ [45] ++ bytesOf state.hostID := by
    simp [bytesOf, utf8Char]
  have hkeep : req.RoleSessionName ≠ [] → state.withRoleSessionName req = req := by
    intro hne
    simp [gameLiftServerState.withRoleSessionName, hne]
  have hfill : req.RoleSessionName = [] →
      state.withRoleSessionName req =
        { req with
          RoleSessionName := (bytesOf state.fleetID ++ [45] ++ bytesOf state.hostID).take 64 } := by
    intro hempty
    unfold gameLiftServerState.withRoleSessionName
    simp only [hempty, if_true]
    by_cases hlen : (bytesOf state.fleetID ++ [45] ++ bytesOf state.hostID).length >
        RoleSessionNameMaxLength
    · simp only [hlen, if_true]
      rfl
    · have htk : List.take 64 (bytesOf state.fleetID ++ [45] ++ bytesOf state.hostID) =
          bytesOf state.fleetID ++ [45] ++ bytesOf state.hostID :=
        List.take_of_length_le (Nat.le_of_not_gt hlen)
      simp only [hlen, if_false]
      rw [htk]
  have htake : ((bytesOf state.fleetID ++ [45] ++ bytesOf state.hostID).take 64).length ≤ 64 := by
    rw [List.length_take]
    omega
  refine ⟨?_, ?_, ?_, ?_⟩
  · intro hlong
    have hne : req.RoleSessionName ≠ [] := by
      intro h
      rw [h] at hlong
      simp at hlong
    exact hA (by rw [hkeep hne]; exact hlong)
  · intro sent hsent
    by_cases hlong : (state.withRoleSessionName req).RoleSessionName.length > 64
    · rw [(hA hlong).2] at hsent
      cases hsent
    · cases hready : state.isReadyProcess with
      | false =>
        rw [hB hready] at hsent
        cases hsent
      | true =>
        rw [hC hlong hready] at hsent
        have hs : sent = state.withRoleSessionName req := by simpa using hsent
        rw [hs]
        exact Nat.le_of_not_gt hlong
  · intro hready h1 h64
    have hne : req.RoleSessionName ≠ [] := by
      intro h
      rw [h] at h1
      simp at h1
    have h := hC (by rw [hkeep hne]; exact Nat.not_lt.mpr h64) hready
    rw [hkeep hne] at h
    exact h
  · intro hready hempty
    refine ⟨?_, ?_, htake, ?_⟩
    · have h := hC (by rw [hfill hempty]; exact Nat.not_lt.mpr htake) hready
      rw [hfill hempty] at h
      exact h
    · rw [hfull]
      exact List.take_prefix _ _
    · intro hascii
      have h1 : bytesOf state.fleetID = state.fleetID.toList.map Char.toNat :=
        bytesOf_ascii _ (fun c hc => hascii c (List.mem_append_left _ hc))
      have h2 : bytesOf state.hostID = state.hostID.toList.map Char.toNat :=
        bytesOf_ascii _ (fun c hc => hascii c (List.mem_append_right _ hc))
      have h3 : bytesOf (String.mk ((state.fleetID ++ "-" ++ state.hostID).toList.take 64)) =
          ((state.fleetID ++ "-" ++ state.hostID).toList.take 64).map Char.toNat := by
        apply bytesOf_ascii
        intro c hc
        have hc2 : c ∈ (state.fleetID ++ "-" ++ state.hostID).toList := List.mem_of_mem_take hc
        simp only [String.toList, String.data_append, List.mem_append] at hc2
        rcases hc2 with (hc2 | hc2) | hc2
        · exact hascii c (List.mem_append_left _ hc2)
        · have : c = '-' := by simpa using hc2
          subst this
          decide
        · exact hascii c (List.mem_append_right _ hc2)
      rw [h3, h1, h2]
      simp [List.map_take]

/-- Witness of C21: a ready state with an empty cache and no name in the request. -/
theorem getFleetRoleCredentials_roleSessionName_witness :
    (testReadyState.getFleetRoleCredentials 1722852000000
        (fun _ => (testCredentials 1722855600000, none)) (some testCredentialsRequest)).requests =
      [{ testCredentialsRequest with
          RoleSessionName := (bytesOf "test-fleet-id" ++ [45] ++ bytesOf "test-host-id").take 64 }] :=
  ((getFleetRoleCredentials_roleSessionName testReadyState 1722852000000
    (fun _ => (testCredentials 1722855600000, none)) testCredentialsRequest (by decide)
    (by decide)).2.2.2 (by decide) (by decide)).1

/-! ## The identity that `init` signs -/

/-- The input that `getSigV4QueryParameters` gives to the signer. -/
theorem getSigV4QueryParameters_input (pkg : gameLiftServerState) (now : Time)
    (awsRegion accessKey secretKey sessionToken : String) :
    (getSigV4QueryParameters pkg now awsRegion accessKey secretKey sessionToken).1.QueryParams =
      some [("ComputeId", pkg.hostID), ("FleetId", pkg.fleetID), ("pID", pkg.processID)] := by
  unfold getSigV4QueryParameters
  simp only []
  split <;> rfl

/-- The signing step of `init` signs the identity of the package variable and connects with the
identity of the receiver. -/
theorem initSign_signed (state : gameLiftServerState) (pkg : Option gameLiftServerState)
    (e : InitEnv) (websocketUrl authToken awsRegion accessKey secretKey sessionToken : String) :
    (∀ p ∈ (state.initSign pkg e websocketUrl authToken awsRegion accessKey secretKey
        sessionToken).signed,
      p.QueryParams =
        some [("ComputeId", (pkg.getD state).hostID), ("FleetId", (pkg.getD state).fleetID),
          ("pID", (pkg.getD state).processID)]) ∧
    (∀ args ∈ (state.initSign pkg e websocketUrl authToken awsRegion accessKey secretKey
        sessionToken).connects,
      args.hostID = state.hostID ∧ args.fleetID = state.fleetID ∧
        args.processID = state.processID) := by
  have hin := getSigV4QueryParameters_input (pkg.getD state) e.now awsRegion accessKey secretKey
    sessionToken
  unfold gameLiftServerState.initSign
  rcases hs : getSigV4QueryParameters (pkg.getD state) e.now awsRegion accessKey secretKey
    sessionToken with ⟨input, r⟩
  rw [hs] at hin
  cases r with
  | error message =>
    refine ⟨fun p hp => ?_, fun args hargs => ?_⟩
    · have : p = input := by simpa using hp
      rw [this]
      exact hin
    · simp at hargs
  | ok m =>
    simp only [gameLiftServerState.initConnect]
    refine ⟨fun p hp => ?_, fun args hargs => ?_⟩
    · have : p = input := by
        revert hp
        cases e.connect _ <;> simp
      rw [this]
      exact hin
    · have : args.hostID = state.hostID ∧ args.fleetID = state.fleetID ∧
          args.processID = state.processID := by
        revert hargs
        cases e.connect _ <;> simp <;> intro h <;> rw [h] <;> exact ⟨rfl, rfl, rfl⟩
      exact this

/-- What `init` signs and where it connects: there is a state, the receiver when `init`
reaches the signer, whose identity every `Connect` call carries, while every input of the signer
carries the identity of the package variable. -/
theorem init_signed (state : gameLiftServerState) (pkg : Option gameLiftServerState)
    (e : InitEnv) (params : ServerParameters) :
    ∃ s : gameLiftServerState,
      (∀ p ∈ (state.init pkg e (some params)).signed,
        p.QueryParams =
          some [("ComputeId", (pkg.getD s).hostID), ("FleetId", (pkg.getD s).fleetID),
            ("pID", (pkg.getD s).processID)]) ∧
      (∀ args ∈ (state.init pkg e (some params)).connects,
        args.hostID = s.hostID ∧ args.fleetID = s.fleetID ∧ args.processID = s.processID) := by
  unfold gameLiftServerState.init
  simp only []
  split
  · exact ⟨state, fun p hp => by simp at hp, fun a ha => by simp at ha⟩
  · split
    · split
      · split
        · exact ⟨state, fun p hp => by simp at hp, fun a ha => by simp at ha⟩
        · split
          · exact ⟨state, fun p hp => by simp at hp, fun a ha => by simp at ha⟩
          · exact ⟨_, initSign_signed _ pkg e _ _ _ _ _ _⟩
      · exact ⟨_, initSign_signed _ pkg e _ _ _ _ _ _⟩
    · refine ⟨(state.initIdentity e params).initTunables e, fun p hp => ?_, fun a ha => ?_⟩
      · simp only [gameLiftServerState.initConnect] at hp
        revert hp
        cases e.connect _ <;> simp
      · simp only [gameLiftServerState.initConnect] at ha
        revert ha
        cases e.connect _ <;> simp <;> intro h <;> rw [h] <;> exact ⟨rfl, rfl, rfl⟩

/-- C27. In the program `init` runs on the package variable `state` (`InitSDK`, its only
caller, passes that variable), which is the variable that `getSigV4QueryParameters` reads. For
every such run: with an auth token nothing is handed to the signer; every query bag handed to
the signer is `ComputeId`, `FleetId`, `pID` with the host id, the fleet id and the process id
that `Connect` then receives; these are the fleet id and the process id stored by the first
statements of `init` (the process id after the sentinel replacement) and the host id stored
there or, for the compute type `CONTAINER`, the task id fetched from the container metadata;
and without an auth token, with a region and keys and another compute type, exactly one bag is
handed to the signer. -/
theorem init_signs_identity (state : gameLiftServerState) (e : InitEnv)
    (params : ServerParameters) :
    (GetEnvStringOrDefault e.lookupEnv "GAMELIFT_SDK_AUTH_TOKEN" params.AuthToken ≠ "" →
      (state.init none e (some params)).signed = []) ∧
    (∀ p ∈ (state.init none e (some params)).signed,
      ∀ args ∈ (state.init none e (some params)).connects,
        p.QueryParams =
          some [("ComputeId", args.hostID), ("FleetId", args.fleetID),
            ("pID", args.processID)]) ∧
    (∀ p ∈ (state.init none e (some params)).signed,
      ∃ hostID : String,
        p.QueryParams =
          some [("ComputeId", hostID),
            ("FleetId", GetEnvStringOrDefault e.lookupEnv "GAMELIFT_SDK_FLEET_ID" params.FleetID),
            ("pID",
              match e.lookupEnv "GAMELIFT_SDK_PROCESS_ID" with
              | none => params.ProcessID
              | some value =>
                if value = "ManagedResource" then UUID.String e.newUUID else value)] ∧
        (if GetEnvStringOrDefault e.lookupEnv "GAMELIFT_COMPUTE_TYPE" "" = "CONTAINER" then
          e.fetchContainerTaskMetadata = Except.ok hostID
        else hostID = GetEnvStringOrDefault e.lookupEnv "GAMELIFT_SDK_HOST_ID" params.HostID)) ∧
    (GetEnvStringOrDefault e.lookupEnv "GAMELIFT_SDK_AUTH_TOKEN" params.AuthToken = "" →
      GetEnvStringOrDefault e.lookupEnv "GAMELIFT_REGION" params.AwsRegion ≠ "" →
      GetEnvStringOrDefault e.lookupEnv "GAMELIFT_ACCESS_KEY" params.AccessKey ≠ "" →
      GetEnvStringOrDefault e.lookupEnv "GAMELIFT_SECRET_KEY" params.SecretKey ≠ "" →
      GetEnvStringOrDefault e.lookupEnv "GAMELIFT_COMPUTE_TYPE" "" ≠ "CONTAINER" →
      (state.init none e (some params)).signed.length = 1) := by
  have hpid := initIdentity_processID state e params
  have hfleet : (state.initIdentity e params).fleetID =
      GetEnvStringOrDefault e.lookupEnv "GAMELIFT_SDK_FLEET_ID" params.FleetID := by
    unfold gameLiftServerState.initIdentity
    simp only []
    split <;> rfl
  have hhost : (state.initIdentity e params).hostID =
      GetEnvStringOrDefault e.lookupEnv "GAMELIFT_SDK_HOST_ID" params.HostID := by
    unfold gameLiftServerState.initIdentity
    simp only []
    split <;> rfl
  refine ⟨?_, ?_, ?_, ?_⟩
  · intro htoken
    have ht : decide (GetEnvStringOrDefault e.lookupEnv EnvironmentKeyAuthToken
        params.AuthToken ≠ "") = true := decide_eq_true htoken
    unfold gameLiftServerState.init
    simp only [ht, Bool.not_true, Bool.false_and, Bool.false_eq_true, if_false]
    unfold gameLiftServerState.initConnect
    simp only []
    split <;> rfl
  · intro p hp args hargs
    obtain ⟨s, hs, hc⟩ := init_signed state none e params
    obtain ⟨h1, h2, h3⟩ := hc args hargs
    rw [hs p hp, h1, h2, h3]
    rfl
  · intro p hp
    rw [← hpid, ← hfleet, ← hhost]
    unfold gameLiftServerState.init at hp
    simp only [] at hp
    split at hp
    · simp at hp
    · split at hp
      · split at hp
        · rename_i hcont
          split at hp
          · simp at hp
          · split at hp
            · simp at hp
            · rename_i taskId hmeta
              have hq := (initSign_signed _ none e _ _ _ _ _ _).1 p hp
              refine ⟨taskId, hq, ?_⟩
              have hct : GetEnvStringOrDefault e.lookupEnv "GAMELIFT_COMPUTE_TYPE" "" =
                  "CONTAINER" := of_decide_eq_true hcont
              rw [if_pos hct]
              exact hmeta
        · rename_i hcont
          have hq := (initSign_signed _ none e _ _ _ _ _ _).1 p hp
          refine ⟨(state.initIdentity e params).hostID, hq, ?_⟩
          have hct : ¬ GetEnvStringOrDefault e.lookupEnv "GAMELIFT_COMPUTE_TYPE" "" =
              "CONTAINER" := fun h => hcont (decide_eq_true h)
          rw [if_neg hct]
      · simp only [gameLiftServerState.initConnect] at hp
        revert hp
        cases e.connect _ <;> simp
  · intro htoken hregion haccess hsecret hct
    have h1 : decide (GetEnvStringOrDefault e.lookupEnv EnvironmentKeyAuthToken
        params.AuthToken ≠ "") = false := decide_eq_false (fun h => h htoken)
    have h2 : decide (GetEnvStringOrDefault e.lookupEnv EnvironmentKeyAwsRegion
        params.AwsRegion ≠ "") = true := decide_eq_true hregion
    have h3 : decide (GetEnvStringOrDefault e.lookupEnv EnvironmentKeyAccessKey
        params.AccessKey ≠ "") = true := decide_eq_true haccess
    have h4 : decide (GetEnvStringOrDefault e.lookupEnv EnvironmentKeySecretKey
        params.SecretKey ≠ "") = true := decide_eq_true hsecret
    have h5 : decide (GetEnvStringOrDefault e.lookupEnv EnvironmentKeyComputeType "" =
        ComputeTypeContainer) = false := decide_eq_false hct
    unfold gameLiftServerState.init
    simp only [h1, h2, h3, h4, h5, Bool.not_false, Bool.not_true, Bool.and_self, Bool.and_false,
      Bool.false_and, Bool.true_and, Bool.false_eq_true, if_false, if_true]
    unfold gameLiftServerState.initSign
    split
    · rfl
    · unfold gameLiftServerState.initConnect
      simp only []
      split <;> rfl

/-- Witness of C27: `init` on the zero state in an empty environment, with a region and keys
and no auth token, hands one bag to the signer, with the three ids of the parameters, which is
what `Connect` receives. -/
theorem init_signs_identity_witness :
    (gameLiftServerState.zero.init none (testInitEnv [])
        (some testSigV4ServerParameters)).signed.length = 1 ∧
    testSignerInput ∈
      (gameLiftServerState.zero.init none (testInitEnv [])
        (some testSigV4ServerParameters)).signed ∧
    ∀ args ∈ (gameLiftServerState.zero.init none (testInitEnv [])
        (some testSigV4ServerParameters)).connects,
      testSignerInput.QueryParams =
        some [("ComputeId", args.hostID), ("FleetId", args.fleetID), ("pID", args.processID)] :=
  have h := init_signs_identity gameLiftServerState.zero (testInitEnv [])
    testSigV4ServerParameters
  ⟨h.2.2.2 (by decide) (by decide) (by decide) (by decide) (by decide), by decide,
   fun args hargs => h.2.1 testSignerInput (by decide) args hargs⟩

/-! ## A failed direct Connect -/

/-- Once `reconnecting` is set and `isConnected` is not, every `Reconnect` returns nil without
dialing and every `Write` returns `GameLiftServerNotInitialized`, and the two flags stay. -/
theorem calls_of_stuck (env : SocketEnv) (fuel : Nat) (cs : List TransportCall) :
    ∀ tr : websocketTransport, tr.reconnecting = true → tr.isConnected = false →
      ∃ tr2 : websocketTransport,
        tr.calls env fuel cs =
          some (tr2, cs.map (fun c =>
            match c with
            | TransportCall.Reconnect => none
            | TransportCall.Write =>
              some (NewGameLiftError GameLiftErrorType.GameLiftServerNotInitialized "" ""))) ∧
        tr2.dialLoops = tr.dialLoops ∧ tr2.writeCalls = tr.writeCalls ∧
        tr2.reconnecting = true ∧ tr2.isConnected = false := by
  induction cs with
  | nil => intro tr h1 h2; exact ⟨tr, rfl, rfl, rfl, h1, h2⟩
  | cons c rest ih =>
    intro tr h1 h2
    cases c with
    | Reconnect =>
      have hr : tr.Reconnect env = ({ tr with reconnectCalls := tr.reconnectCalls + 1 }, none) := by
        simp [websocketTransport.Reconnect, h1]
      obtain ⟨tr2, h3, h4, h5, h6, h7⟩ :=
        ih { tr with reconnectCalls := tr.reconnectCalls + 1 } h1 h2
      refine ⟨tr2, ?_, h4, h5, h6, h7⟩
      simp only [websocketTransport.calls, websocketTransport.call, hr, h3, List.map_cons]
    | Write =>
      have hw : tr.Write env fuel =
          some (WriteResult.returned tr
            (some (NewGameLiftError GameLiftErrorType.GameLiftServerNotInitialized "" ""))) := by
        simp [websocketTransport.Write, h2]
      obtain ⟨tr2, h3, h4, h5, h6, h7⟩ := ih tr h1 h2
      refine ⟨tr2, ?_, h4, h5, h6, h7⟩
      simp only [websocketTransport.calls, websocketTransport.call, hw, h3, List.map_cons]

/-- C28. If a direct call of `Connect` exhausts its dial attempts, it returns the connect error
and leaves `reconnecting` true and `isConnected` false; from that state, in every later sequence
of `Reconnect` and `Write` calls (whatever the socket and the dialer would do), every `Reconnect`
returns nil without a dial and every `Write` returns `GameLiftServerNotInitialized` without a
socket write, and the two flags stay as they are. -/
theorem Connect_failure_sticks (env : SocketEnv) (tr : websocketTransport) (text : String)
    (hdial : env.dial tr.dialLoops = some text) :
    (tr.Connect env).2 =
      some (NewGameLiftError GameLiftErrorType.WebsocketConnectFailure "" text) ∧
    (tr.Connect env).1.reconnecting = true ∧ (tr.Connect env).1.isConnected = false ∧
    ∀ (env2 : SocketEnv) (fuel : Nat) (cs : List TransportCall),
      ∃ tr2 : websocketTransport,
        (tr.Connect env).1.calls env2 fuel cs =
          some (tr2, cs.map (fun c =>
            match c with
            | TransportCall.Reconnect => none
            | TransportCall.Write =>
              some (NewGameLiftError GameLiftErrorType.GameLiftServerNotInitialized "" ""))) ∧
        tr2.dialLoops = (tr.Connect env).1.dialLoops ∧
        tr2.writeCalls = (tr.Connect env).1.writeCalls ∧
        tr2.reconnecting = true ∧ tr2.isConnected = false := by
  have hc : (tr.Connect env).2 =
        some (NewGameLiftError GameLiftErrorType.WebsocketConnectFailure "" text) ∧
      (tr.Connect env).1.reconnecting = true ∧ (tr.Connect env).1.isConnected = false := by
    unfold websocketTransport.Connect websocketTransport.Close
    cases h1 : tr.isConnected <;> cases h2 : tr.hasConn <;> simp [hdial]
    cases env.connClose tr.connCloses <;> simp [hdial]
  exact ⟨hc.1, hc.2.1, hc.2.2, fun env2 fuel cs =>
    calls_of_stuck env2 fuel cs (tr.Connect env).1 hc.2.1 hc.2.2⟩

/-- Witness of C28: a fresh transport whose dialer never gets through, then `Reconnect`,
`Write`, `Reconnect`. -/
theorem Connect_failure_sticks_witness :
    ∃ tr2 : websocketTransport,
      (Websocket.Connect neverDials).1.calls alwaysBroken 7
          [TransportCall.Reconnect, TransportCall.Write, TransportCall.Reconnect] =
        some (tr2,
          [none, some (NewGameLiftError GameLiftErrorType.GameLiftServerNotInitialized "" ""),
           none]) ∧
      tr2.dialLoops = 1 :=
  ((Connect_failure_sticks neverDials Websocket "connection error :refused" rfl).2.2.2
      alwaysBroken 7
      [TransportCall.Reconnect, TransportCall.Write, TransportCall.Reconnect]).elim
    (fun tr2 h => ⟨tr2, h.1, h.2.1.trans (by decide)⟩)

/-! ## A response channel closed without a value -/

/-- C29. When `Close` of the client runs while a request is pending on a channel to which
nothing has been sent, the channel is closed without a value, so a receive from it yields the
empty `Outcome`; and `HandleRequest`, on receiving the empty `Outcome`, returns
`InternalServiceException` (the decoding of nil data fails), not `ServiceCallFailed`, and its only
call on the client is the `SendRequest`: no `CancelRequest`. -/
theorem HandleRequest_closed_channel {ρ : Type} (dec : List UInt8 → Option ρ)
    (c : websocketClient) (request : Message) (ch : ChanId) (closed : Option GoError)
    (hpending : mapGet c.responses request.RequestID = some ch)
    (hquiet : ∀ o : Outcome, Event.chanSend ch o ∉ c.events) :
    chanReceive (c.Close closed).1.events ch = some { Data := none, Error := none } ∧
    (HandleRequest dec request none (Wait.received { Data := none, Error := none })).err =
      some (NewGameLiftError GameLiftErrorType.InternalServiceException "" "") ∧
    (HandleRequest dec request none (Wait.received { Data := none, Error := none })).err.bind
        GoError.kind ≠ some GameLiftErrorType.ServiceCallFailed ∧
    (HandleRequest dec request none (Wait.received { Data := none, Error := none })).calls =
      [ClientCall.SendRequest request] ∧
    (HandleRequest dec request none (Wait.received { Data := none, Error := none })).response =
      none := by
  refine ⟨?_, rfl, ?_, rfl, rfl⟩
  swap
  · show some GameLiftErrorType.InternalServiceException ≠ _
    decide
  have hev : (c.Close closed).1.events =
      c.events ++ (c.responses.map (fun e => Event.chanClose e.2) ++ [Event.transportClose]) := by
    simp [websocketClient.Close, closeAll_events]
  have hmem : Event.chanClose ch ∈ (c.Close closed).1.events := by
    rw [hev]
    apply List.mem_append_right
    apply List.mem_append_left
    exact List.mem_map.mpr ⟨(request.RequestID, ch), mem_of_mapGet hpending, rfl⟩
  have hnone : (c.Close closed).1.events.filterMap
      (fun e => match e with
        | Event.chanSend c2 o => if c2 = ch then some o else none
        | _ => none) = [] := by
    rw [List.filterMap_eq_nil_iff]
    intro e he
    rw [hev] at he
    cases e with
    | chanSend c2 o =>
      by_cases h : c2 = ch
      · subst h
        rcases List.mem_append.mp he with h1 | h1
        · exact absurd h1 (hquiet o)
        · simp at h1
      · simp [h]
    | chanClose _ => rfl
    | handlerCall _ _ => rfl
    | transportWrite _ => rfl
    | transportClose => rfl
  unfold chanReceive
  rw [hnone]
  simp [hmem]

/-- Witness of C29: a client with one pending request, closed. -/
theorem HandleRequest_closed_channel_witness :
    chanReceive
        (({ responses := [("test-request-id", 3)], asyncHandlers := [], events := [] } :
          websocketClient).Close none).1.events 3 =
      some { Data := none, Error := none } :=
  (HandleRequest_closed_channel (decodeOnly createGameSessionRequest createGameSessionEnvelope)
    { responses := [("test-request-id", 3)], asyncHandlers := [], events := [] } testRequest 3
    none (by decide) (fun _ => List.not_mem_nil _)).1

/-! ## Lemmas on the life of the process -/

/-- The first statements of `init` leave the termination time alone. -/
theorem initIdentity_terminationTime (state : gameLiftServerState) (e : InitEnv)
    (params : ServerParameters) :
    (state.initIdentity e params).terminationTime = state.terminationTime := by
  unfold gameLiftServerState.initIdentity
  simp only []
  split <;> rfl

/-- The last statements of `init` leave the termination time alone. -/
theorem initConnect_terminationTime (state : gameLiftServerState) (e : InitEnv)
    (websocketUrl authToken : String) (sigV4QueryParameters : Option (List (String × String)))
    (signed : List SigV4Parameters) :
    (state.initConnect e websocketUrl authToken sigV4QueryParameters signed).state.terminationTime =
      state.terminationTime := by
  unfold gameLiftServerState.initConnect
  simp only []
  split <;> rfl

/-- The signing step of `init` leaves the termination time alone. -/
theorem initSign_terminationTime (state : gameLiftServerState)
    (pkg : Option gameLiftServerState) (e : InitEnv)
    (websocketUrl authToken awsRegion accessKey secretKey sessionToken : String) :
    (state.initSign pkg e websocketUrl authToken awsRegion accessKey secretKey
      sessionToken).state.terminationTime = state.terminationTime := by
  unfold gameLiftServerState.initSign
  split
  · rfl
  · exact initConnect_terminationTime _ _ _ _ _ _

/-- The method `init` leaves the termination time alone. -/
theorem init_terminationTime (state : gameLiftServerState) (pkg : Option gameLiftServerState)
    (e : InitEnv) (params : Option ServerParameters) :
    (state.init pkg e params).state.terminationTime = state.terminationTime := by
  cases params with
  | none => rfl
  | some params =>
    have hid := initIdentity_terminationTime state e params
    unfold gameLiftServerState.init
    simp only []
    split
    · exact hid
    · split
      · split
        · split
          · exact hid
          · split
            · exact hid
            · exact (initSign_terminationTime _ pkg e _ _ _ _ _ _).trans hid
        · exact (initSign_terminationTime _ pkg e _ _ _ _ _ _).trans hid
      · exact (initConnect_terminationTime _ e _ _ _ _).trans hid

/-- The lookup in the cache leaves the termination time alone. -/
theorem getRoleCredentialsFromCache_terminationTime (state : gameLiftServerState) (now : Int)
    (roleArn : String) :
    (state.getRoleCredentialsFromCache now roleArn).1.terminationTime = state.terminationTime := by
  unfold gameLiftServerState.getRoleCredentialsFromCache
  cases hget : mapGet (state.fleetRoleResultCache.getD []) roleArn with
  | none => rfl
  | some p =>
    simp only []
    by_cases hc : wrapInt64 (wrapInt64 (p.Expiration - now) * Millisecond) >
        InstanceRoleCredentialTTL
    · simp [hc]
    · simp [hc]

/-- The method `getFleetRoleCredentials` leaves the termination time alone. -/
theorem getFleetRoleCredentials_terminationTime (state : gameLiftServerState) (now : Int)
    (handle : GetFleetRoleCredentialsRequest → GetFleetRoleCredentialsResult × Option GoError)
    (req : Option GetFleetRoleCredentialsRequest) :
    (state.getFleetRoleCredentials now handle req).state.terminationTime =
      state.terminationTime := by
  have hc := fun arn => getRoleCredentialsFromCache_terminationTime state now arn
  unfold gameLiftServerState.getFleetRoleCredentials
  cases req with
  | none => rfl
  | some req =>
    simp only []
    split
    · rfl
    · rcases hcache : state.getRoleCredentialsFromCache now req.RoleArn with ⟨s2, res, ok⟩
      have h2 : s2.terminationTime = state.terminationTime := by
        have := hc req.RoleArn
        rw [hcache] at this
        exact this
      cases ok with
      | true => exact h2
      | false =>
        simp only []
        repeat' split
        all_goals exact h2

/-- The method `stopServerProcess` leaves the termination time alone. -/
theorem stopServerProcess_terminationTime (w : Server) :
    w.stopServerProcess.state.terminationTime = w.state.terminationTime := by
  unfold Server.stopServerProcess
  simp only []
  split
  · split <;> rfl
  · rfl

/-- Only a terminate-process notification changes the termination time. -/
theorem call_terminationTime (w w1 : Server) (c : ServerCall) :
    w.call c = some w1 →
      w1.state.terminationTime =
        (match lastTermination [c] with
         | some t => t.tdiv 1000
         | none => w.state.terminationTime) := by
  cases c with
  | init e params =>
    intro hcall
    have h := init_terminationTime w.state none e params
    simp only [Server.call] at hcall
    rcases hr : w.state.init none e params with ⟨state, exit, connects, signed⟩
    rw [hr] at hcall h
    cases exit with
    | returned err =>
      simp only [Option.some.injEq] at hcall
      rw [← hcall]
      exact h
    | fatal message => simp at hcall
  | processReady params handled =>
    intro hcall
    simp only [Server.call] at hcall
    split at hcall
    · simp at hcall
    · simp only [Option.some.injEq] at hcall
      rw [← hcall]
      unfold Server.processReady
      cases params with
      | none => rfl
      | some p =>
        simp only []
        split
        · rfl
        · cases handled <;> rfl
  | processEnding sent =>
    intro hcall
    simp only [Server.call] at hcall
    split at hcall
    · simp at hcall
    · simp only [Option.some.injEq] at hcall
      rw [← hcall]
      unfold Server.processEnding
      split
      · rfl
      · cases sent with
        | none => exact stopServerProcess_terminationTime w
        | some err => rfl
  | destroy disconnected =>
    intro hcall
    simp only [Server.call] at hcall
    split at hcall
    · simp at hcall
    · simp only [Option.some.injEq] at hcall
      rw [← hcall]
      unfold Server.destroy
      simp only []
      split <;> exact stopServerProcess_terminationTime w
  | OnStartGameSession session =>
    intro hcall
    simp only [Server.call, Option.some.injEq] at hcall
    rw [← hcall]
    unfold gameLiftServerState.OnStartGameSession
    cases session with
    | none => rfl
    | some id =>
      simp only []
      split <;> rfl
  | OnTerminateProcess t =>
    intro hcall
    simp only [Server.call, Option.some.injEq] at hcall
    rw [← hcall]
    rfl
  | getFleetRoleCredentials now handle req =>
    intro hcall
    simp only [Server.call] at hcall
    split at hcall
    · simp at hcall
    · simp only [Option.some.injEq] at hcall
      rw [← hcall]
      exact getFleetRoleCredentials_terminationTime w.state now handle req

/-- After a sequence of calls the termination time is that of the last notification, in
seconds, or else what it was. -/
theorem run_terminationTime (cs : List ServerCall) :
    ∀ w w2 : Server, Server.run cs w = some w2 →
      w2.state.terminationTime =
        match lastTermination cs with
        | some t => t.tdiv 1000
        | none => w.state.terminationTime := by
  induction cs with
  | nil =>
    intro w w2 h
    simp only [Server.run, Option.some.injEq] at h
    rw [← h]
    rfl
  | cons c rest ih =>
    intro w w2 h
    simp only [Server.run] at h
    cases hc : w.call c with
    | none => simp [hc] at h
    | some w1 =>
      rw [hc] at h
      have h1 := ih w1 w2 h
      have h2 := call_terminationTime w w1 c hc
      rw [h1]
      simp only [lastTermination] at h2 ⊢
      cases lastTermination rest with
      | some t => rfl
      | none =>
        simp only []
        rw [h2]

/-- The quotient by 1000, rounded towards zero, is positive from 1000 on and zero strictly
between -1000 and 1000. -/
theorem tdiv_thousand (t : Int) :
    (0 < t.tdiv 1000 ↔ 1000 ≤ t) ∧ (t.tdiv 1000 = 0 ↔ -1000 < t ∧ t < 1000) := by
  by_cases h : 0 ≤ t
  · rw [Int.tdiv_eq_ediv h (by norm_num)]
    omega
  · have ht : t = -(-t) := by omega
    have hq : t.tdiv 1000 = -((-t) / 1000) := by
      conv_lhs => rw [ht]
      rw [Int.neg_tdiv, Int.tdiv_eq_ediv (by omega) (by norm_num)]
    rw [hq]
    omega

/-! ## The termination time -/

/-- Counterexample to C22: after a terminate-process notification whose `TerminationTime` is 0
(a message without the field decodes to it), `getTerminationTime` returns
`TerminationTimeNotSet`; and after a notification with a negative time it returns a negative
value and no error. -/
theorem getTerminationTime_after_zero_notification :
    (Server.run [ServerCall.OnTerminateProcess 0] testServer).map
        (fun w => w.state.getTerminationTime) =
      some (0, some (NewGameLiftError GameLiftErrorType.TerminationTimeNotSet "" "")) ∧
    (Server.run [ServerCall.OnTerminateProcess (-5000)] testServer).map
        (fun w => w.state.getTerminationTime) = some (-5, none) := by
  decide

/-- C22 (amended). In every state reached from the start of the program by calls that can
change the server state, `getTerminationTime` is determined by the last terminate-process
notification: without one it returns `TerminationTimeNotSet`; with one, carrying `t`
milliseconds, it returns `TerminationTimeNotSet` when `t / 1000` (rounded towards zero) is 0 and
otherwise that quotient with no error. So it returns a positive value with no error if and only
if the last notification carried at least 1000 ms, and it returns the error if and only if there
was no notification or the last one carried a time strictly between -1000 and 1000 ms. -/
theorem getTerminationTime_reachable (cs : List ServerCall) (w : Server)
    (hrun : Server.run cs Server.start = some w) :
    w.state.getTerminationTime =
      (match lastTermination cs with
       | none => (0, some (NewGameLiftError GameLiftErrorType.TerminationTimeNotSet "" ""))
       | some t =>
         if t.tdiv 1000 = 0 then
           (0, some (NewGameLiftError GameLiftErrorType.TerminationTimeNotSet "" ""))
         else (t.tdiv 1000, none)) ∧
    ((w.state.getTerminationTime.2 = none ∧ 0 < w.state.getTerminationTime.1) ↔
      ∃ t : Int, lastTermination cs = some t ∧ 1000 ≤ t) ∧
    (w.state.getTerminationTime.2 =
        some (NewGameLiftError GameLiftErrorType.TerminationTimeNotSet "" "") ↔
      (lastTermination cs = none ∨
        ∃ t : Int, lastTermination cs = some t ∧ -1000 < t ∧ t < 1000)) := by
  have h := run_terminationTime cs Server.start w hrun
  unfold gameLiftServerState.getTerminationTime
  rw [h]
  cases hl : lastTermination cs with
  | none =>
    refine ⟨?_, ?_, ?_⟩
    · simp [Server.start, gameLiftServerState.zero]
    · simp [Server.start, gameLiftServerState.zero]
    · simp [Server.start, gameLiftServerState.zero]
  | some t =>
    have ht := tdiv_thousand t
    by_cases hz : t.tdiv 1000 = 0
    · have h1 := ht.2.mp hz
      refine ⟨?_, ?_, ?_⟩
      · simp [hz]
      · simp only [hz, if_true]
        constructor
        · rintro ⟨h2, _⟩
          cases h2
        · rintro ⟨t2, h2, h3⟩
          cases h2
          omega
      · simp only [hz, if_true]
        exact ⟨fun _ => Or.inr ⟨t, rfl, h1⟩, fun _ => trivial⟩
    · refine ⟨?_, ?_, ?_⟩
      · simp [hz]
      · simp only [hz, if_false]
        constructor
        · rintro ⟨_, h2⟩
          exact ⟨t, rfl, ht.1.mp h2⟩
        · rintro ⟨t2, h2, h3⟩
          cases h2
          exact ⟨trivial, ht.1.mpr h3⟩
      · simp only [hz, if_false]
        constructor
        · intro h2
          cases h2
        · rintro (h2 | ⟨t2, h2, h3⟩)
          · cases h2
          · cases h2
            exact absurd (ht.2.mpr h3) hz

/-- Witness of C22 (amended): `init`, `processReady`, a notification with the time
1722852000000 ms, `processEnding`. -/
theorem getTerminationTime_reachable_witness :
    ∃ w : Server,
      Server.run
          [ServerCall.init (testInitEnv []) (some testServerParameters),
           ServerCall.processReady (some testProcessParameters) none,
           ServerCall.OnTerminateProcess 1722852000000,
           ServerCall.processEnding none] Server.start = some w ∧
      w.state.getTerminationTime = (1722852000, none) :=
  ⟨_, rfl,
   (getTerminationTime_reachable
      [ServerCall.init (testInitEnv []) (some testServerParameters),
       ServerCall.processReady (some testProcessParameters) none,
       ServerCall.OnTerminateProcess 1722852000000,
       ServerCall.processEnding none] _ rfl).1.trans (by decide)⟩

/-! ## The shutdown channel -/

/-- With the flag `isReadyProcess` false, a `processEnding` or a `destroy` changes neither the
flag nor the channels. -/
theorem call_stop_of_not_ready (w : Server) (c : ServerCall) (hstop : c.isStop = true)
    (hmanager : w.state.wsGameLift = true) (hready : w.state.isReadyProcess = false) :
    w.call c = some w := by
  have hs : w.stopServerProcess = w := by
    simp [Server.stopServerProcess, hready]
  cases c with
  | processEnding sent =>
    cases sent with
    | none => simp [Server.call, Server.processEnding, hmanager, hs]
    | some err => simp [Server.call, Server.processEnding, hmanager]
  | destroy disconnected => simp [Server.call, Server.destroy, hmanager, hs]
  | init e params => simp [ServerCall.isStop] at hstop
  | processReady params handled => simp [ServerCall.isStop] at hstop
  | OnStartGameSession session => simp [ServerCall.isStop] at hstop
  | OnTerminateProcess t => simp [ServerCall.isStop] at hstop
  | getFleetRoleCredentials now handle req => simp [ServerCall.isStop] at hstop

/-- With the flag `isReadyProcess` true and the shutdown channel open, a `processEnding` or a
`destroy` that reaches `stopServerProcess` clears the flag and closes the channel, and one that
does not changes nothing. -/
theorem call_stop_of_ready (w : Server) (c : ServerCall) (ch : ChanId)
    (hstop : c.isStop = true) (hmanager : w.state.wsGameLift = true)
    (hready : w.state.isReadyProcess = true) (hshutdown : w.state.shutdown = some ch)
    (hopen : ch ∉ w.closes) :
    w.call c =
      some (if c.stops then
        { w with state := { w.state with isReadyProcess := false }, closes := w.closes ++ [ch] }
      else w) := by
  have hs : w.stopServerProcess =
      { w with state := { w.state with isReadyProcess := false }, closes := w.closes ++ [ch] } := by
    simp [Server.stopServerProcess, hready, hshutdown, isChannelOpen, hopen]
  cases c with
  | processEnding sent =>
    cases sent with
    | none => simp [Server.call, Server.processEnding, hmanager, hs, ServerCall.stops]
    | some err => simp [Server.call, Server.processEnding, hmanager, ServerCall.stops]
  | destroy disconnected =>
    simp [Server.call, Server.destroy, hmanager, hs, ServerCall.stops]
  | init e params => simp [ServerCall.isStop] at hstop
  | processReady params handled => simp [ServerCall.isStop] at hstop
  | OnStartGameSession session => simp [ServerCall.isStop] at hstop
  | OnTerminateProcess t => simp [ServerCall.isStop] at hstop
  | getFleetRoleCredentials now handle req => simp [ServerCall.isStop] at hstop

/-- A sequence of `processEnding` and `destroy` calls on a server whose flag is false changes
nothing. -/
theorem run_stops_of_not_ready (cs : List ServerCall) (w : Server)
    (hstops : ∀ c ∈ cs, c.isStop = true) (hmanager : w.state.wsGameLift = true)
    (hready : w.state.isReadyProcess = false) : Server.run cs w = some w := by
  induction cs with
  | nil => rfl
  | cons c rest ih =>
    simp only [Server.run,
      call_stop_of_not_ready w c (hstops c (List.mem_cons_self _ _)) hmanager hready]
    exact ih (fun d hd => hstops d (List.mem_cons_of_mem _ hd))

/-- A sequence of `processEnding` and `destroy` calls on a server whose flag is true and whose
shutdown channel is open closes the channel once if one of the calls reaches
`stopServerProcess`, and not at all otherwise. -/
theorem run_stops_of_ready (cs : List ServerCall) (w : Server) (ch : ChanId)
    (hstops : ∀ c ∈ cs, c.isStop = true) (hmanager : w.state.wsGameLift = true)
    (hready : w.state.isReadyProcess = true) (hshutdown : w.state.shutdown = some ch)
    (hopen : ch ∉ w.closes) :
    Server.run cs w =
      some (if cs.any ServerCall.stops then
        { w with state := { w.state with isReadyProcess := false }, closes := w.closes ++ [ch] }
      else w) := by
  induction cs with
  | nil => rfl
  | cons c rest ih =>
    have hrest : ∀ d ∈ rest, d.isStop = true := fun d hd => hstops d (List.mem_cons_of_mem _ hd)
    simp only [Server.run,
      call_stop_of_ready w c ch (hstops c (List.mem_cons_self _ _)) hmanager hready hshutdown
        hopen, List.any_cons]
    cases hc : c.stops with
    | true =>
      simp only [if_true, Bool.true_or]
      exact run_stops_of_not_ready rest _ hrest hmanager rfl
    | false =>
      simp only [Bool.false_eq_true, if_false, Bool.false_or]
      exact ih hrest

/-- C23. After a successful `processReady` (on a server with a manager, where every channel
closed so far is one made so far), the flag `processReady` is true and the shutdown channel is a
new, open channel; and every sequence of `processEnding` and `destroy` calls from there runs
without a panic and closes that channel once if one of the calls reaches `stopServerProcess`
(a `destroy`, or a `processEnding` whose message is sent) and not at all otherwise, closes no
other channel, and leaves the flag false if and only if one of the calls did. Applied to the
prefixes of a sequence: the first such call closes the channel and clears the flag, and every
later call leaves both as they are. -/
theorem shutdown_closed_once (w : Server) (params : ProcessParameters)
    (hmanager : w.state.wsGameLift = true) (hfresh : ∀ c ∈ w.closes, c < w.made) :
    (w.processReady (some params) none).err = none ∧
    (w.processReady (some params) none).panicked = false ∧
    (w.processReady (some params) none).server.state.isReadyProcess = true ∧
    (w.processReady (some params) none).server.state.shutdown = some w.made ∧
    (w.processReady (some params) none).server.closes = w.closes ∧
    w.made ∉ w.closes ∧
    ∀ cs : List ServerCall, (∀ c ∈ cs, c.isStop = true) →
      ∃ w2 : Server,
        Server.run cs (w.processReady (some params) none).server = some w2 ∧
        w2.closes = w.closes ++ (if cs.any ServerCall.stops then [w.made] else []) ∧
        w2.closes.count w.made = (if cs.any ServerCall.stops then 1 else 0) ∧
        w2.state.isReadyProcess = !cs.any ServerCall.stops ∧
        w2.state.shutdown = some w.made ∧
        ∀ later : List ServerCall, (∀ c ∈ later, c.isStop = true) →
          cs.any ServerCall.stops = true → Server.run later w2 = some w2 := by
  have hnot : w.made ∉ w.closes := fun h => Nat.lt_irrefl _ (hfresh _ h)
  have hr : w.processReady (some params) none =
      { server :=
          { state :=
              { w.state with
                parameters := some params, isReadyProcess := true, shutdown := some w.made },
            made := w.made + 1, closes := w.closes, heartbeats := w.heartbeats ++ [w.made] },
        err := none, panicked := false } := by
    simp [Server.processReady, hmanager]
  generalize w.processReady (some params) none = r at hr
  subst hr
  refine ⟨rfl, rfl, rfl, rfl, rfl, hnot, ?_⟩
  intro cs hstops
  have hrun := run_stops_of_ready cs
    { state :=
        { w.state with
          parameters := some params, isReadyProcess := true, shutdown := some w.made },
      made := w.made + 1, closes := w.closes, heartbeats := w.heartbeats ++ [w.made] }
    w.made hstops hmanager rfl rfl hnot
  refine ⟨_, hrun, ?_⟩
  cases hany : cs.any ServerCall.stops with
  | true =>
    refine ⟨rfl, ?_, rfl, rfl, ?_⟩
    · show List.count w.made (w.closes ++ [w.made]) = 1
      rw [List.count_append, List.count_eq_zero_of_not_mem hnot]
      simp
    · intro later hlater _
      exact run_stops_of_not_ready later _ hlater hmanager rfl
  | false =>
    refine ⟨(List.append_nil _).symm, ?_, rfl, rfl, ?_⟩
    · show List.count w.made w.closes = 0
      exact List.count_eq_zero_of_not_mem hnot
    · intro later _ h
      cases h

/-- Witness of C23: `processReady`, then a `processEnding` whose send fails, a `destroy`, and a
`processEnding`. -/
theorem shutdown_closed_once_witness :
    ∃ w2 : Server,
      Server.run
          [ServerCall.processEnding (some (GoError.other "connection lost")),
           ServerCall.destroy none, ServerCall.processEnding none]
          (testServer.processReady (some testProcessParameters) none).server = some w2 ∧
      w2.closes = [0] ∧ w2.state.isReadyProcess = false :=
  ((shutdown_closed_once testServer testProcessParameters rfl
      (fun c hc => absurd hc (List.not_mem_nil c))).2.2.2.2.2.2
    [ServerCall.processEnding (some (GoError.other "connection lost")),
     ServerCall.destroy none, ServerCall.processEnding none] (by decide)).elim
    (fun w2 h => ⟨w2, h.1, h.2.1, h.2.2.2.1⟩)

/-- C30. On a server with a manager: when the send of `TerminateServerProcess` fails,
`processEnding` returns `ProcessEndingFailed` with the text of the error and leaves the server
as it was (the flag `processReady`, the shutdown channel and the list of closed channels
included); when the send succeeds it runs `stopServerProcess` and returns nil. So the server
changes only when the send succeeds. -/
theorem processEnding_atomic (w : Server) (hmanager : w.state.wsGameLift = true) :
    (∀ err : GoError,
      w.processEnding (some err) =
        { server := w,
          err := some (NewGameLiftError GameLiftErrorType.ProcessEndingFailed "" err.Error),
          panicked := false } ∧
      (w.processEnding (some err)).err.bind GoError.kind =
        some GameLiftErrorType.ProcessEndingFailed ∧
      (w.processEnding (some err)).server.state.isReadyProcess = w.state.isReadyProcess ∧
      (w.processEnding (some err)).server.closes = w.closes) ∧
    w.processEnding none = { server := w.stopServerProcess, err := none, panicked := false } ∧
    (∀ sent : Option GoError, (w.processEnding sent).server ≠ w → sent = none) := by
  have hfail : ∀ err : GoError,
      w.processEnding (some err) =
        { server := w,
          err := some (NewGameLiftError GameLiftErrorType.ProcessEndingFailed "" err.Error),
          panicked := false } := by
    intro err
    simp [Server.processEnding, hmanager]
  refine ⟨fun err => ?_, ?_, ?_⟩
  · rw [hfail err]
    exact ⟨rfl, rfl, rfl, rfl⟩
  · simp [Server.processEnding, hmanager]
  · intro sent hne
    cases sent with
    | none => rfl
    | some err =>
      rw [hfail err] at hne
      exact absurd rfl hne

/-- Witness of C30: a running process (flag set, shutdown channel 0 open) whose send fails. -/
theorem processEnding_atomic_witness :
    ((testServer.processReady (some testProcessParameters) none).server.processEnding
        (some (GoError.other "connection lost"))).server =
      (testServer.processReady (some testProcessParameters) none).server ∧
    ((testServer.processReady (some testProcessParameters) none).server.processEnding
        (some (GoError.other "connection lost"))).err =
      some (NewGameLiftError GameLiftErrorType.ProcessEndingFailed "" "connection lost") :=
  ⟨(congrArg ServerCallResult.server
      (((processEnding_atomic (testServer.processReady (some testProcessParameters) none).server
        rfl).1 (GoError.other "connection lost")).1)).trans rfl,
   (congrArg ServerCallResult.err
      (((processEnding_atomic (testServer.processReady (some testProcessParameters) none).server
        rfl).1 (GoError.other "connection lost")).1)).trans rfl⟩

/-! ## The interval of the health check -/

/-- C24 (the code, at the failing input and in range). With the default interval of 60 s, a
maximum jitter of 9223372036854 ms (what `init` stores for the largest duration) and the draw 0,
`getNextHealthCheckIntervalSeconds` returns -9223371976855551616 ns, a negative value below
`I - J ms`: the sum `I + J ms` does not fit in 64 bits. Whenever `J > 0`, `0 <= r < J` and both
`I - J ms` and `I + J ms` fit in 64 bits (with `J ms` itself), the function returns
`I - (2r - J) ms`, which lies within `[I - J ms, I + J ms]`. -/
theorem getNextHealthCheckIntervalSeconds_overflow :
    ({ testReadyState with
          healthCheckInterval := 60000000000,
          defaultJitterIntervalMs := 9223372036854 }.getNextHealthCheckIntervalSeconds 0 =
        some (-9223371976855551616) ∧
      (-9223371976855551616 : Int) < 60000000000 - 9223372036854 * 1000000) ∧
    (∀ (state : gameLiftServerState) (r : Int),
      0 < state.defaultJitterIntervalMs → 0 ≤ r → r < state.defaultJitterIntervalMs →
      state.defaultJitterIntervalMs * 1000000 < 2 ^ 63 →
      -2 ^ 63 ≤ state.healthCheckInterval - state.defaultJitterIntervalMs * 1000000 →
      state.healthCheckInterval + state.defaultJitterIntervalMs * 1000000 < 2 ^ 63 →
      state.getNextHealthCheckIntervalSeconds r =
        some (state.healthCheckInterval -
          (2 * r - state.defaultJitterIntervalMs) * 1000000) ∧
      state.healthCheckInterval - state.defaultJitterIntervalMs * 1000000 ≤
        state.healthCheckInterval - (2 * r - state.defaultJitterIntervalMs) * 1000000 ∧
      state.healthCheckInterval - (2 * r - state.defaultJitterIntervalMs) * 1000000 ≤
        state.healthCheckInterval + state.defaultJitterIntervalMs * 1000000) := by
  refine ⟨⟨by decide, by decide⟩, ?_⟩
  intro state r hJ hr0 hrJ hJms hlo hhi
  have h1 : wrapInt64 (2 * r) = 2 * r := wrapInt64_of_inRange _ (by omega) (by omega)
  have h2 : wrapInt64 (2 * r - state.defaultJitterIntervalMs) =
      2 * r - state.defaultJitterIntervalMs := wrapInt64_of_inRange _ (by omega) (by omega)
  have h3 : wrapInt64 ((2 * r - state.defaultJitterIntervalMs) * 1000000) =
      (2 * r - state.defaultJitterIntervalMs) * 1000000 :=
    wrapInt64_of_inRange _ (by omega) (by omega)
  have h4 : wrapInt64 (state.healthCheckInterval -
        (2 * r - state.defaultJitterIntervalMs) * 1000000) =
      state.healthCheckInterval - (2 * r - state.defaultJitterIntervalMs) * 1000000 :=
    wrapInt64_of_inRange _ (by omega) (by omega)
  refine ⟨?_, by omega, by omega⟩
  unfold gameLiftServerState.getNextHealthCheckIntervalSeconds
  have hpos : ¬ state.defaultJitterIntervalMs ≤ 0 := by omega
  simp only [hpos, if_false, h1, h2, Millisecond, h3, h4]

/-- Witness of C24 (the code in range): the defaults of `init`, 60 s and 10000 ms, and the
draw 2500. -/
theorem getNextHealthCheckIntervalSeconds_overflow_witness :
    { testReadyState with
        healthCheckInterval := 60000000000,
        defaultJitterIntervalMs := 10000 }.getNextHealthCheckIntervalSeconds 2500 =
      some 65000000000 :=
  (getNextHealthCheckIntervalSeconds_overflow.2
    { testReadyState with healthCheckInterval := 60000000000, defaultJitterIntervalMs := 10000 }
    2500 (by decide) (by decide) (by decide) (by decide) (by decide) (by decide)).1

/-! ## The enumerations -/

/-- Without a match the conversion from a name gives the zero constant. -/
theorem enumOfString_of_no_match (eq : String → String → Bool) (strs : List String) (s : String)
    (hnone : ∀ name ∈ strs, eq name s = false) : ∀ i : Nat, enumOfString eq strs i s = 0 := by
  induction strs with
  | nil => intro i; rfl
  | cons name rest ih =>
    intro i
    have h1 : eq name s = false := hnone name (List.mem_cons_self _ _)
    simp only [enumOfString, h1, Bool.false_eq_true, if_false]
    exact ih (fun n hn => hnone n (List.mem_cons_of_mem _ hn)) (i + 1)

/-- Counterexample to C26: for `attributeType`, the quoted string `"string"`, which is not one
of the names `NONE`, `STRING`, `DOUBLE`, `STRING_LIST`, `STRING_DOUBLE_MAP`, unmarshals to the
constant `String` and not to the zero constant `None`. -/
theorem attributeType_unmarshal_lower_case :
    "string" ∉ attributeTypesStr ∧
    attributeType.UnmarshalJSON (fun _ => none) (fun _ _ => false) "\"string\"" =
      some AttrString ∧
    AttrString ≠ AttrNone := by
  decide

/-- C26 (amended): for each of the five enumerations and each of its constants `v`,
`MarshalJSON(v)` is the upper-case name of `v` in double quotes and
`UnmarshalJSON(MarshalJSON(v)) = v`. When the data unquote to a string `origin`: for
`gameSessionStatus`, `playerSessionStatus`, `UpdateReason` and `PlayerSessionCreationPolicy`,
an `origin` that is not one of the names gives the zero constant without error; for
`attributeType` the names are compared with `strings.EqualFold`, and an `origin` that matches
none of them in that sense gives `None` without error. -/
theorem enum_json_round_trip (isPrint : Char → Bool) (unquoteOther : String → Option String)
    (foldUnicode : List Nat → List Nat → Bool) (data origin : String)
    (hq : Unquote unquoteOther data = some origin) :
    (∀ p ∈ [(GameNotSet, "\"NOT_SET\""), (GameActive, "\"ACTIVE\""),
        (GameActivating, "\"ACTIVATING\""), (GameTerminated, "\"TERMINATED\""),
        (GameTerminating, "\"TERMINATING\"")],
      gameSessionStatus.MarshalJSON isPrint p.1 = some p.2 ∧
      gameSessionStatus.UnmarshalJSON unquoteOther p.2 = some p.1) ∧
    (∀ p ∈ [(PlayerNotSet, "\"NOT_SET\""), (PlayerReserved, "\"RESERVED\""),
        (PlayerActive, "\"ACTIVE\""), (PlayerCompleted, "\"COMPLETED\""),
        (PlayerTimedout, "\"TIMEDOUT\"")],
      playerSessionStatus.MarshalJSON isPrint p.1 = some p.2 ∧
      playerSessionStatus.UnmarshalJSON unquoteOther p.2 = some p.1) ∧
    (∀ p ∈ [(Unknown, "\"UNKNOWN\""), (MatchmakingDataUpdated, "\"MATCHMAKING_DATA_UPDATED\""),
        (BackfillFailed, "\"BACKFILL_FAILED\""), (BackfillTimedOut, "\"BACKFILL_TIMED_OUT\""),
        (BackfillCancelled, "\"BACKFILL_CANCELLED\"")],
      UpdateReason.MarshalJSON isPrint p.1 = some p.2 ∧
      UpdateReason.UnmarshalJSON unquoteOther p.2 = some p.1) ∧
    (∀ p ∈ [(NotSet, "\"NOT_SET\""), (DenyAll, "\"DENY_ALL\""), (AcceptAll, "\"ACCEPT_ALL\"")],
      PlayerSessionCreationPolicy.MarshalJSON isPrint p.1 = some p.2 ∧
      PlayerSessionCreationPolicy.UnmarshalJSON unquoteOther p.2 = some p.1) ∧
    (∀ p ∈ [(AttrNone, "\"NONE\""), (AttrString, "\"STRING\""), (AttrDouble, "\"DOUBLE\""),
        (AttrStringList, "\"STRING_LIST\""), (AttrStringDoubleMap, "\"STRING_DOUBLE_MAP\"")],
      attributeType.MarshalJSON isPrint p.1 = some p.2 ∧
      attributeType.UnmarshalJSON unquoteOther foldUnicode p.2 = some p.1) ∧
    (origin ∉ gameSessionStatusStrs →
      gameSessionStatus.UnmarshalJSON unquoteOther data = some GameNotSet) ∧
    (origin ∉ playerSessionStatusStrs →
      playerSessionStatus.UnmarshalJSON unquoteOther data = some PlayerNotSet) ∧
    (origin ∉ updateReasonStrs →
      UpdateReason.UnmarshalJSON unquoteOther data = some Unknown) ∧
    (origin ∉ playerSessionPolicyStr →
      PlayerSessionCreationPolicy.UnmarshalJSON unquoteOther data = some NotSet) ∧
    ((∀ name ∈ attributeTypesStr, EqualFold foldUnicode name origin = false) →
      attributeType.UnmarshalJSON unquoteOther foldUnicode data = some AttrNone) := by
  have hexact : ∀ strs : List String, origin ∉ strs →
      enumOfString (fun a b => decide (a = b)) strs 0 origin = 0 := by
    intro strs hno
    apply enumOfString_of_no_match
    intro name hname
    exact decide_eq_false (fun h => hno (h ▸ hname))
  refine ⟨?_, ?_, ?_, ?_, ?_, ?_, ?_, ?_, ?_, ?_⟩
  · intro p hp
    simp only [List.mem_cons, List.mem_singleton, List.not_mem_nil, or_false] at hp
    rcases hp with rfl | rfl | rfl | rfl | rfl
    all_goals exact ⟨rfl, rfl⟩
  · intro p hp
    simp only [List.mem_cons, List.mem_singleton, List.not_mem_nil, or_false] at hp
    rcases hp with rfl | rfl | rfl | rfl | rfl
    all_goals exact ⟨rfl, rfl⟩
  · intro p hp
    simp only [List.mem_cons, List.mem_singleton, List.not_mem_nil, or_false] at hp
    rcases hp with rfl | rfl | rfl | rfl | rfl
    all_goals exact ⟨rfl, rfl⟩
  · intro p hp
    simp only [List.mem_cons, List.mem_singleton, List.not_mem_nil, or_false] at hp
    rcases hp with rfl | rfl | rfl
    all_goals exact ⟨rfl, rfl⟩
  · intro p hp
    simp only [List.mem_cons, List.mem_singleton, List.not_mem_nil, or_false] at hp
    rcases hp with rfl | rfl | rfl | rfl | rfl
    all_goals exact ⟨rfl, rfl⟩
  · intro hno
    simp only [gameSessionStatus.UnmarshalJSON, hq, Option.map_some', toGameSessionStatus,
      hexact _ hno, GameNotSet]
  · intro hno
    simp only [playerSessionStatus.UnmarshalJSON, hq, Option.map_some', toPlayerSessionStatus,
      hexact _ hno, PlayerNotSet]
  · intro hno
    simp only [UpdateReason.UnmarshalJSON, hq, Option.map_some', ToUpdateReason,
      hexact _ hno, Unknown]
  · intro hno
    simp only [PlayerSessionCreationPolicy.UnmarshalJSON, hq, Option.map_some',
      ToPlayerSessionPolicy, hexact _ hno, NotSet]
  · intro hno
    simp only [attributeType.UnmarshalJSON, hq, Option.map_some',
      enumOfString_of_no_match _ _ _ hno 0, AttrNone]

/-- The theorem `enum_json_round_trip` at the data `"bogus"`. -/
theorem enum_json_round_trip_witness :
    Unquote (fun _ => none) "\"bogus\"" = some "bogus" ∧
    "bogus" ∉ gameSessionStatusStrs ∧
    gameSessionStatus.UnmarshalJSON (fun _ => none) "\"bogus\"" = some GameNotSet ∧
    (∀ name ∈ attributeTypesStr, EqualFold (fun _ _ => false) name "bogus" = false) ∧
    attributeType.UnmarshalJSON (fun _ => none) (fun _ _ => false) "\"bogus\"" =
      some AttrNone :=
  have h := enum_json_round_trip (fun _ => true) (fun _ => none) (fun _ _ => false)
    "\"bogus\"" "bogus" (by decide)
  ⟨by decide, by decide, h.2.2.2.2.2.1 (by decide), by decide,
    h.2.2.2.2.2.2.2.2.2 (by decide)⟩

/-! ## The matchmaker data and its wire form -/

theorem mapGet_of_mem_nodup {κ ν : Type} [DecidableEq κ] {m : List (κ × ν)} {k : κ} {v : ν}
    (hnd : (m.map Prod.fst).Nodup) (h : (k, v) ∈ m) : mapGet m k = some v := by
  induction m with
  | nil => simp at h
  | cons e rest ih =>
    obtain ⟨k1, v1⟩ := e
    simp only [List.map_cons, List.nodup_cons] at hnd
    rcases List.mem_cons.1 h with heq | hmem
    · simp only [Prod.mk.injEq] at heq
      simp [mapGet, heq.1, heq.2]
    · have hne : k1 ≠ k := by
        intro hk
        apply hnd.1
        rw [hk]
        exact List.mem_map_of_mem Prod.fst hmem
      simp only [mapGet, hne, if_false]
      exact ih hnd.2 hmem

theorem mapGet_none_of_not_mem_keys {κ ν : Type} [DecidableEq κ] {m : List (κ × ν)} {k : κ}
    (h : k ∉ m.map Prod.fst) : mapGet m k = none := by
  cases hg : mapGet m k with
  | none => rfl
  | some v => exact absurd (List.mem_map_of_mem Prod.fst (mem_of_mapGet hg)) h

theorem mem_keys_of_mapGet {κ ν : Type} [DecidableEq κ] {m : List (κ × ν)} {k : κ} {v : ν}
    (h : mapGet m k = some v) : k ∈ m.map Prod.fst :=
  List.mem_map_of_mem Prod.fst (mem_of_mapGet h)

theorem mapGet_perm {κ ν : Type} [DecidableEq κ] {m m2 : List (κ × ν)}
    (hnd : (m.map Prod.fst).Nodup) (hp : m2.Perm m) (k : κ) : mapGet m2 k = mapGet m k := by
  have hnd2 : (m2.map Prod.fst).Nodup := ((hp.map Prod.fst).nodup_iff).2 hnd
  cases hg : mapGet m k with
  | some v => exact mapGet_of_mem_nodup hnd2 (hp.mem_iff.2 (mem_of_mapGet hg))
  | none =>
    cases hg2 : mapGet m2 k with
    | none => rfl
    | some v =>
      have := mapGet_of_mem_nodup hnd (hp.mem_iff.1 (mem_of_mapGet hg2))
      rw [hg] at this
      exact absurd this (by simp)

theorem mapSet_keys_nodup {κ ν : Type} [DecidableEq κ] {m : List (κ × ν)} (k : κ) (v : ν)
    (h : (m.map Prod.fst).Nodup) : ((mapSet m k v).map Prod.fst).Nodup := by
  simp only [mapSet, List.map_cons, List.nodup_cons]
  refine ⟨?_, mapDelete_keys_nodup k h⟩
  simp [mapDelete, List.mem_map, List.mem_filter]

theorem mapGet_mapSet_self {κ ν : Type} [DecidableEq κ] (m : List (κ × ν)) (k : κ) (v : ν) :
    mapGet (mapSet m k v) k = some v := by
  simp [mapSet, mapGet]

/-- A loop that assigns every entry of a list with distinct keys to a map: what a lookup in
the result gives. -/
theorem foldl_mapSet_get {κ ν μ : Type} [DecidableEq κ] (g : ν → μ) :
    ∀ (l : List (κ × ν)) (acc : List (κ × μ)), (l.map Prod.fst).Nodup → ∀ k,
      mapGet (l.foldl (fun acc e => mapSet acc e.1 (g e.2)) acc) k =
        (match mapGet l k with
          | some v => some (g v)
          | none => mapGet acc k) := by
  intro l
  induction l with
  | nil => intro acc _ k; rfl
  | cons e rest ih =>
    intro acc hnd k
    obtain ⟨k1, v1⟩ := e
    simp only [List.map_cons, List.nodup_cons] at hnd
    simp only [List.foldl_cons]
    rw [ih _ hnd.2 k]
    by_cases hk : k1 = k
    · subst hk
      simp [mapGet, mapGet_none_of_not_mem_keys hnd.1, mapGet_mapSet_self]
    · simp only [mapGet, hk, if_false]
      rw [mapGet_mapDelete_of_ne acc (Ne.symm hk)]

theorem foldl_mapSet_keys_nodup {κ ν μ : Type} [DecidableEq κ] (g : ν → μ) :
    ∀ (l : List (κ × ν)) (acc : List (κ × μ)), (acc.map Prod.fst).Nodup →
      ((l.foldl (fun acc e => mapSet acc e.1 (g e.2)) acc).map Prod.fst).Nodup := by
  intro l
  induction l with
  | nil => intro acc h; exact h
  | cons e rest ih =>
    intro acc h
    simp only [List.foldl_cons]
    exact ih _ (mapSet_keys_nodup _ _ h)

theorem fromPlayerAttributes_eq :
    ∀ (l : List (String × AttributeValue)) (acc : List (String × attributeMatchMakerData)),
      (∀ e ∈ l, ∃ a, fromAttributesValue e.2 = some a) →
      fromPlayerAttributes l acc =
        some (l.foldl (fun acc e => mapSet acc e.1
          ((fromAttributesValue e.2).getD { AttributeType := "NONE", ValueAttribute := Any.nil }))
          acc) := by
  intro l
  induction l with
  | nil => intro acc _; rfl
  | cons e rest ih =>
    intro acc h
    obtain ⟨k, v⟩ := e
    obtain ⟨a, ha⟩ := h (k, v) (List.mem_cons_self _ _)
    simp only at ha
    simp only [fromPlayerAttributes, ha, List.foldl_cons, Option.getD_some]
    exact ih _ (fun e he => h e (List.mem_cons_of_mem _ he))

theorem wellFormed_round_trip (rangeOrder : (ν : Type) → List (String × ν) → List (String × ν))
    (a : AttributeValue) (h : a.wellFormed) :
    ∃ w, fromAttributesValue a = some w ∧ MakeAttributeValue rangeOrder w.ValueAttribute = a ∧
      some w.AttributeType = attributeTypeString (a.AttrType.getD 0) := by
  obtain ⟨t, n, s, sl, sdm⟩ := a
  unfold AttributeValue.wellFormed at h
  simp only at h
  rcases h with ⟨h1, h2, h3, h4, h5⟩ | ⟨h1, h2, h3, h4⟩ | ⟨h1, h2, h3, h4⟩ | ⟨h1, h2, h3, h4⟩ |
    ⟨h1, h2, h3, h4⟩
  all_goals subst_vars
  all_goals exact ⟨_, rfl, rfl, rfl⟩

theorem fromPlayer_round_trip (rangeOrder : (ν : Type) → List (String × ν) → List (String × ν))
    (hrange : ∀ (ν : Type) (l : List (String × ν)), (rangeOrder ν l).Perm l)
    (p : Player) (hkeys : (p.PlayerAttributes.map Prod.fst).Nodup)
    (hwf : ∀ e ∈ p.PlayerAttributes, e.2.wellFormed) :
    ∃ w, fromPlayer rangeOrder p = some w ∧ w.PlayerID = p.PlayerID ∧
      ((toPlayerAttributes rangeOrder w.AttributeValue).map Prod.fst).Nodup ∧
      ∀ k, mapGet (toPlayerAttributes rangeOrder w.AttributeValue) k =
        mapGet p.PlayerAttributes k := by
  have hall : ∀ e ∈ rangeOrder _ p.PlayerAttributes, ∃ a, fromAttributesValue e.2 = some a := by
    intro e he
    obtain ⟨w, hw, _⟩ := wellFormed_round_trip rangeOrder e.2 (hwf e ((hrange _ _).mem_iff.1 he))
    exact ⟨w, hw⟩
  have h1 := fromPlayerAttributes_eq _ [] hall
  have hndr : ((rangeOrder _ p.PlayerAttributes).map Prod.fst).Nodup :=
    (((hrange _ p.PlayerAttributes).map Prod.fst).nodup_iff).2 hkeys
  have h2 : fromPlayer rangeOrder p = some { PlayerID := p.PlayerID, AttributeValue :=
      ((rangeOrder _ p.PlayerAttributes).foldl (fun acc e => mapSet acc e.1
        ((fromAttributesValue e.2).getD { AttributeType := "NONE", ValueAttribute := Any.nil }))
        []) } := by
    simp only [fromPlayer, h1]
  refine ⟨_, h2, rfl, ?_, ?_⟩
  · exact foldl_mapSet_keys_nodup
      (fun v : attributeMatchMakerData => MakeAttributeValue rangeOrder v.ValueAttribute) _ []
      List.nodup_nil
  · intro k
    have hndW := foldl_mapSet_keys_nodup
      (fun v : AttributeValue =>
        (fromAttributesValue v).getD { AttributeType := "NONE", ValueAttribute := Any.nil })
      (rangeOrder _ p.PlayerAttributes) [] List.nodup_nil
    have hndrW := (((hrange _ _).map Prod.fst).nodup_iff).2 hndW
    have e1 := foldl_mapSet_get
      (fun v : attributeMatchMakerData => MakeAttributeValue rangeOrder v.ValueAttribute) _ []
      hndrW k
    have e2 := mapGet_perm hndW (hrange _ _) k
    have e3 := foldl_mapSet_get
      (fun v : AttributeValue =>
        (fromAttributesValue v).getD { AttributeType := "NONE", ValueAttribute := Any.nil })
      _ [] hndr k
    have e4 := mapGet_perm hkeys (hrange _ _) k
    simp only [toPlayerAttributes]
    beta_reduce at e1 e2 e3
    rw [e1, e2, e3, e4]
    cases hg : mapGet p.PlayerAttributes k with
    | none => rfl
    | some a =>
      obtain ⟨w, hw, hm, _⟩ := wellFormed_round_trip rangeOrder a (hwf _ (mem_of_mapGet hg))
      simp only [hw, Option.getD_some, hm]

theorem fromPlayers_eq (rangeOrder : (ν : Type) → List (String × ν) → List (String × ν)) :
    ∀ (ps : List Player) (acc : List playerMatchmakerData),
      (∀ p ∈ ps, ∃ w, fromPlayer rangeOrder p = some w) →
      ∃ ws, fromPlayers rangeOrder ps acc = some (acc ++ ws) ∧
        List.Forall₂ (fun w p => fromPlayer rangeOrder p = some w) ws ps := by
  intro ps
  induction ps with
  | nil => intro acc _; exact ⟨[], by simp [fromPlayers], List.Forall₂.nil⟩
  | cons p rest ih =>
    intro acc h
    obtain ⟨w, hw⟩ := h p (List.mem_cons_self _ _)
    obtain ⟨ws, h1, h2⟩ := ih (acc ++ [w]) (fun q hq => h q (List.mem_cons_of_mem _ hq))
    exact ⟨w :: ws, by simp [fromPlayers, hw, h1], List.Forall₂.cons hw h2⟩

theorem fromTeams_eq (rangeOrder : (ν : Type) → List (String × ν) → List (String × ν)) :
    ∀ (ts : List (String × List Player)) (acc : List teamMatchmakerData),
      (∀ t ∈ ts, ∀ p ∈ t.2, ∃ w, fromPlayer rangeOrder p = some w) →
      ∃ wts, fromTeams rangeOrder ts acc = some (acc ++ wts) ∧
        List.Forall₂ (fun wt t => wt.Name = t.1 ∧
          List.Forall₂ (fun w p => fromPlayer rangeOrder p = some w) wt.Players t.2) wts ts := by
  intro ts
  induction ts with
  | nil => intro acc _; exact ⟨[], by simp [fromTeams], List.Forall₂.nil⟩
  | cons t rest ih =>
    intro acc h
    obtain ⟨name, players⟩ := t
    obtain ⟨ws, hws, hrel⟩ := fromPlayers_eq rangeOrder players []
      (h (name, players) (List.mem_cons_self _ _))
    obtain ⟨wts, h1, h2⟩ := ih (acc ++ [{ Name := name, Players := ws }])
      (fun q hq => h q (List.mem_cons_of_mem _ hq))
    refine ⟨{ Name := name, Players := ws } :: wts, ?_, List.Forall₂.cons ⟨rfl, hrel⟩ h2⟩
    simp only [List.nil_append] at hws
    simp [fromTeams, hws, h1]

theorem foldl_append_singleton {α β : Type} (f : α → β) :
    ∀ (l : List α) (acc : List β),
      l.foldl (fun players player => players ++ [f player]) acc = acc ++ l.map f := by
  intro l
  induction l with
  | nil => intro acc; simp
  | cons a rest ih => intro acc; simp [ih]

theorem toMatchmakerData_players
    (rangeOrder : (ν : Type) → List (String × ν) → List (String × ν))
    (mo : matchmakerDataOriginal) :
    (mo.toMatchmakerData rangeOrder).Players =
      mo.Teams.flatMap (fun team => team.Players.map (toPlayer rangeOrder team)) := by
  have h : ∀ (ts : List teamMatchmakerData) (acc : List Player),
      ts.foldl (fun players team =>
        team.Players.foldl (fun players player => players ++ [toPlayer rangeOrder team player])
          players) acc =
        acc ++ ts.flatMap (fun team => team.Players.map (toPlayer rangeOrder team)) := by
    intro ts
    induction ts with
    | nil => intro acc; simp
    | cons t rest ih =>
      intro acc
      rw [List.foldl_cons, foldl_append_singleton, ih, List.flatMap_cons, List.append_assoc]
  simpa [matchmakerDataOriginal.toMatchmakerData] using h mo.Teams []

theorem teamsOfPlayers_spec :
    ∀ (ps seen : List Player) (teams : List (String × List Player)),
      (teams.map Prod.fst).Nodup →
      (∀ t, mapGet teams t =
        if seen.filter (fun q => decide (q.Team = t)) = [] then none
        else some (seen.filter (fun q => decide (q.Team = t)))) →
      ((teamsOfPlayers ps teams).map Prod.fst).Nodup ∧
      ∀ t, mapGet (teamsOfPlayers ps teams) t =
        if (seen ++ ps).filter (fun q => decide (q.Team = t)) = [] then none
        else some ((seen ++ ps).filter (fun q => decide (q.Team = t))) := by
  intro ps
  induction ps with
  | nil =>
    intro seen teams hnd hget
    simp only [teamsOfPlayers, List.append_nil]
    exact ⟨hnd, hget⟩
  | cons p rest ih =>
    intro seen teams hnd hget
    have hstep := ih (seen ++ [p])
      (mapSet (match mapGet teams p.Team with
        | some _ => teams
        | none => mapSet teams p.Team []) p.Team
        ((mapGet (match mapGet teams p.Team with
          | some _ => teams
          | none => mapSet teams p.Team []) p.Team).getD [] ++ [p]))
      (by
        apply mapSet_keys_nodup
        cases mapGet teams p.Team with
        | none => exact mapSet_keys_nodup _ _ hnd
        | some _ => exact hnd)
      (by
        intro t
        by_cases ht : t = p.Team
        · subst ht
          rw [mapGet_mapSet_self]
          have hg := hget p.Team
          cases hc : mapGet teams p.Team with
          | none =>
            rw [hc] at hg
            have hnil : seen.filter (fun q => decide (q.Team = p.Team)) = [] := by
              by_contra hne
              rw [if_neg hne] at hg
              exact absurd hg (by simp)
            simp [mapGet_mapSet_self, List.filter_append, hnil]
          | some ps0 =>
            rw [hc] at hg
            have hne : seen.filter (fun q => decide (q.Team = p.Team)) ≠ [] := by
              intro hnil
              rw [if_pos hnil] at hg
              exact absurd hg (by simp)
            rw [if_neg hne] at hg
            simp only [Option.some.injEq] at hg
            simp [hc, List.filter_append, hg]
        · rw [mapGet_mapSet_of_ne _ _ ht]
          have h1 : mapGet (match mapGet teams p.Team with
              | some _ => teams
              | none => mapSet teams p.Team []) t = mapGet teams t := by
            cases mapGet teams p.Team with
            | none => exact mapGet_mapSet_of_ne _ _ ht
            | some _ => rfl
          rw [h1, hget t]
          have hp : decide (p.Team = t) = false := decide_eq_false (fun h => ht h.symm)
          simp [List.filter_append, List.filter_cons, hp])
    simp only [List.append_assoc, List.singleton_append] at hstep
    simp only [teamsOfPlayers]
    exact hstep

theorem flatMap_filter_perm {α κ : Type} [DecidableEq κ] (f : α → κ) :
    ∀ (order : List κ), order.Nodup → ∀ l : List α, (∀ x ∈ l, f x ∈ order) →
      (order.flatMap (fun t => l.filter (fun x => decide (f x = t)))).Perm l := by
  intro order
  induction order with
  | nil =>
    intro _ l hl
    have : l = [] := List.eq_nil_iff_forall_not_mem.2 (fun x hx => by simpa using hl x hx)
    subst this
    simp
  | cons t ts ih =>
    intro hnd l hl
    simp only [List.nodup_cons] at hnd
    simp only [List.flatMap_cons]
    have hrest : ts.flatMap (fun t2 => l.filter (fun x => decide (f x = t2))) =
        ts.flatMap (fun t2 => (l.filter (fun x => !decide (f x = t))).filter
          (fun x => decide (f x = t2))) := by
      apply List.flatMap_congr
      intro t2 ht2
      rw [List.filter_filter]
      apply List.filter_congr
      intro x _
      have hne : t2 ≠ t := fun h => hnd.1 (h ▸ ht2)
      by_cases hx : f x = t2
      · simp [hx, hne]
      · simp [hx]
    rw [hrest]
    have ih2 := ih hnd.2 (l.filter (fun x => !decide (f x = t))) (by
      intro x hx
      simp only [List.mem_filter, Bool.not_eq_true', decide_eq_false_iff_not] at hx
      rcases List.mem_cons.1 (hl x hx.1) with h | h
      · exact absurd h hx.2
      · exact h)
    exact (List.Perm.append_left _ ih2).trans
      (List.filter_append_perm (fun x => decide (f x = t)) l)

theorem forall₂_imp_mem {α β : Type} {R S : α → β → Prop} :
    ∀ {l1 : List α} {l2 : List β}, List.Forall₂ R l1 l2 →
      (∀ a b, b ∈ l2 → R a b → S a b) → List.Forall₂ S l1 l2 := by
  intro l1 l2 h
  induction h with
  | nil => intro _; exact List.Forall₂.nil
  | cons hab _ ih =>
    intro himp
    exact List.Forall₂.cons (himp _ _ (List.mem_cons_self _ _) hab)
      (ih (fun a b hb hr => himp a b (List.mem_cons_of_mem _ hb) hr))

theorem forall₂_flatMap {α β γ δ : Type} {R : α → β → Prop} {S : γ → δ → Prop}
    {f : α → List γ} {g : β → List δ} :
    ∀ {l1 : List α} {l2 : List β}, List.Forall₂ R l1 l2 →
      (∀ a b, b ∈ l2 → R a b → List.Forall₂ S (f a) (g b)) →
      List.Forall₂ S (l1.flatMap f) (l2.flatMap g) := by
  intro l1 l2 h
  induction h with
  | nil => intro _; simp
  | cons hab _ ih =>
    intro himp
    simp only [List.flatMap_cons]
    exact List.rel_append (himp _ _ (List.mem_cons_self _ _) hab)
      (ih (fun a b hb hr => himp a b (List.mem_cons_of_mem _ hb) hr))

theorem forall₂_map_eq {α β γ : Type} {R : α → β → Prop} (f : α → γ) (g : β → γ) :
    ∀ {l1 : List α} {l2 : List β}, List.Forall₂ R l1 l2 → (∀ a b, R a b → f a = g b) →
      l1.map f = l2.map g := by
  intro l1 l2 h
  induction h with
  | nil => intro _; rfl
  | cons hab _ ih =>
    intro himp
    simp only [List.map_cons, himp _ _ hab, ih himp]

/-- C25: let a `range` visit every entry of a map once, let the attribute maps of the players
of `m` have each key once, and let every attribute be well formed (its type is one of the five
constants and only the field of that type is set). Then `fromMatchmakerData` on the zero value
returns, and `toMatchmakerData` of the result keeps `MatchID`, `MatchmakingConfigurationArn`
and `AutoBackfillTicketID`; its players are, for one order of the teams of `m` (each team
once), the players of the first team in their order in `m`, then those of the next team, and so
on, each with its id, its team and its attributes (looked up key by key, type and value) as in
`m`; that list is a permutation of `m.Players`. The field `LatencyInMS` is not part of the wire
form and comes back empty. Unmarshalling data that decode to a wire form gives no error and
lists the players team by team, in the order of the teams and of their players. -/
theorem matchmakerData_round_trip
    (rangeOrder : (ν : Type) → List (String × ν) → List (String × ν))
    (decode : List UInt8 → Option matchmakerDataOriginal)
    (m m0 : MatchmakerData) (data : List UInt8) (wire : matchmakerDataOriginal)
    (hrange : ∀ (ν : Type) (l : List (String × ν)), (rangeOrder ν l).Perm l)
    (hkeys : ∀ p ∈ m.Players, (p.PlayerAttributes.map Prod.fst).Nodup)
    (hwf : ∀ p ∈ m.Players, ∀ e ∈ p.PlayerAttributes, e.2.wellFormed)
    (hdata : data ≠ []) (hdecode : decode data = some wire) :
    (∃ mo, matchmakerDataOriginal.zero.fromMatchmakerData rangeOrder m = some mo ∧
      (mo.toMatchmakerData rangeOrder).MatchID = m.MatchID ∧
      (mo.toMatchmakerData rangeOrder).MatchmakingConfigurationArn =
        m.MatchmakingConfigurationArn ∧
      (mo.toMatchmakerData rangeOrder).AutoBackfillTicketID = m.AutoBackfillTicketID ∧
      ∃ order : List String, order.Nodup ∧ (∀ t, t ∈ order ↔ ∃ p ∈ m.Players, p.Team = t) ∧
        mo.Teams.map (fun t => t.Name) = order ∧
        List.Forall₂
          (fun q p => Player.same q p ∧ (q.PlayerAttributes.map Prod.fst).Nodup ∧
            q.LatencyInMS = [])
          (mo.toMatchmakerData rangeOrder).Players
          (order.flatMap (fun t => m.Players.filter (fun p => decide (p.Team = t)))) ∧
        (order.flatMap (fun t => m.Players.filter (fun p => decide (p.Team = t)))).Perm
          m.Players) ∧
    MatchmakerData.UnmarshalJSON rangeOrder decode m0 data =
      (wire.toMatchmakerData rangeOrder, false) ∧
    (wire.toMatchmakerData rangeOrder).Players =
      wire.Teams.flatMap (fun t => t.Players.map (toPlayer rangeOrder t)) ∧
    (wire.toMatchmakerData rangeOrder).Players.map (fun p => (p.Team, p.PlayerID)) =
      wire.Teams.flatMap (fun t => t.Players.map (fun p => (t.Name, p.PlayerID))) := by
  obtain ⟨hnd, hget⟩ := teamsOfPlayers_spec m.Players [] [] List.nodup_nil
    (fun t => by simp [mapGet])
  simp only [List.nil_append] at hget
  have hpermT := hrange _ (teamsOfPlayers m.Players [])
  have hmemT : ∀ e ∈ rangeOrder _ (teamsOfPlayers m.Players []),
      e.2 = m.Players.filter (fun p => decide (p.Team = e.1)) := by
    intro e he
    have h1 := mapGet_of_mem_nodup hnd (show (e.1, e.2) ∈ _ from hpermT.mem_iff.1 he)
    rw [hget e.1] at h1
    by_cases hnil : m.Players.filter (fun p => decide (p.Team = e.1)) = []
    · rw [if_pos hnil] at h1
      exact absurd h1 (by simp)
    · rw [if_neg hnil] at h1
      exact (Option.some.inj h1).symm
  have hplayer : ∀ e ∈ rangeOrder _ (teamsOfPlayers m.Players []), ∀ p ∈ e.2,
      p ∈ m.Players ∧ p.Team = e.1 := by
    intro e he p hp
    rw [hmemT e he] at hp
    simpa using hp
  have hall : ∀ t ∈ rangeOrder _ (teamsOfPlayers m.Players []), ∀ p ∈ t.2,
      ∃ w, fromPlayer rangeOrder p = some w := by
    intro t ht p hp
    have hpm := (hplayer t ht p hp).1
    obtain ⟨w, hw, _⟩ := fromPlayer_round_trip rangeOrder hrange p (hkeys p hpm) (hwf p hpm)
    exact ⟨w, hw⟩
  obtain ⟨wts, hfrom, hrel⟩ := fromTeams_eq rangeOrder _ [] hall
  simp only [List.nil_append] at hfrom
  have hcover : ∀ t, t ∈ (rangeOrder _ (teamsOfPlayers m.Players [])).map Prod.fst ↔
      ∃ p ∈ m.Players, p.Team = t := by
    intro t
    rw [(hpermT.map Prod.fst).mem_iff]
    constructor
    · intro ht
      obtain ⟨e, he, rfl⟩ := List.mem_map.1 ht
      have h1 := mapGet_of_mem_nodup hnd (show (e.1, e.2) ∈ _ from he)
      rw [hget e.1] at h1
      by_cases hnil : m.Players.filter (fun p => decide (p.Team = e.1)) = []
      · rw [if_pos hnil] at h1
        exact absurd h1 (by simp)
      · obtain ⟨p, hp⟩ := List.exists_mem_of_ne_nil _ hnil
        simp only [List.mem_filter, decide_eq_true_eq] at hp
        exact ⟨p, hp.1, hp.2⟩
    · rintro ⟨p, hp, rfl⟩
      have hne : m.Players.filter (fun q => decide (q.Team = p.Team)) ≠ [] := by
        intro hnil
        have : p ∈ m.Players.filter (fun q => decide (q.Team = p.Team)) := by
          simp [List.mem_filter, hp]
        rw [hnil] at this
        exact absurd this (List.not_mem_nil _)
      have h1 := hget p.Team
      rw [if_neg hne] at h1
      exact mem_keys_of_mapGet h1
  have htarget : ((rangeOrder _ (teamsOfPlayers m.Players [])).map Prod.fst).flatMap
      (fun t => m.Players.filter (fun p => decide (p.Team = t))) =
      (rangeOrder _ (teamsOfPlayers m.Players [])).flatMap (fun e => e.2) := by
    rw [List.flatMap_map]
    exact List.flatMap_congr (fun e he => (hmemT e he).symm)
  refine ⟨⟨{ MatchID := m.MatchID,
             MatchmakingConfigurationArn := m.MatchmakingConfigurationArn,
             Teams := wts,
             AutoBackfillTicketID := m.AutoBackfillTicketID }, ?_, rfl, rfl, rfl,
      (rangeOrder _ (teamsOfPlayers m.Players [])).map Prod.fst, ?_, hcover, ?_, ?_, ?_⟩,
    ?_, toMatchmakerData_players rangeOrder wire, ?_⟩
  · simp only [matchmakerDataOriginal.fromMatchmakerData, matchmakerDataOriginal.zero, hfrom]
  · exact ((hpermT.map Prod.fst).nodup_iff).2 hnd
  · exact forall₂_map_eq (fun t => t.Name) Prod.fst hrel (fun a b hab => hab.1)
  · rw [htarget, toMatchmakerData_players]
    refine forall₂_flatMap hrel ?_
    intro wt t ht hwt
    rw [List.forall₂_map_left_iff]
    refine forall₂_imp_mem hwt.2 ?_
    intro w p hp hw
    obtain ⟨hpm, hteam⟩ := hplayer t ht p hp
    obtain ⟨w2, hw2, hid, hndq, hattr⟩ :=
      fromPlayer_round_trip rangeOrder hrange p (hkeys p hpm) (hwf p hpm)
    have hww : w = w2 := Option.some.inj (hw.symm.trans hw2)
    subst hww
    exact ⟨⟨hid, hwt.1.trans hteam.symm, hattr⟩, hndq, rfl⟩
  · exact flatMap_filter_perm (fun p : Player => p.Team) _
      (((hpermT.map Prod.fst).nodup_iff).2 hnd) m.Players
      (fun p hp => (hcover p.Team).2 ⟨p, hp, rfl⟩)
  · have hlen : data.length ≠ 0 := fun h => hdata (List.length_eq_zero.1 h)
    simp only [MatchmakerData.UnmarshalJSON, hlen, if_false, jsonUnmarshal, hdata, hdecode]
  · rw [toMatchmakerData_players, List.map_flatMap]
    apply List.flatMap_congr
    intro t _
    rw [List.map_map]
    rfl

/-- The theorem `matchmakerData_round_trip` on data with three players in two teams, with a
`range` that visits the entries in the order of the list. -/
theorem matchmakerData_round_trip_witness :
    (∃ mo, matchmakerDataOriginal.zero.fromMatchmakerData (fun _ l => l) testMatchmakerData =
        some mo ∧
      ∃ order : List String, order.Nodup ∧
        mo.Teams.map (fun t => t.Name) = order ∧
        List.Forall₂
          (fun q p => Player.same q p ∧ (q.PlayerAttributes.map Prod.fst).Nodup ∧
            q.LatencyInMS = [])
          (mo.toMatchmakerData (fun _ l => l)).Players
          (order.flatMap (fun t =>
            testMatchmakerData.Players.filter (fun p => decide (p.Team = t)))) ∧
        (order.flatMap (fun t =>
          testMatchmakerData.Players.filter (fun p => decide (p.Team = t)))).Perm
          testMatchmakerData.Players) ∧
    MatchmakerData.UnmarshalJSON (fun _ l => l) (fun _ => some testMatchmakerDataOriginal)
        testMatchmakerData [123, 125] =
      (testMatchmakerDataOriginal.toMatchmakerData (fun _ l => l), false) :=
  have h := matchmakerData_round_trip (fun _ l => l) (fun _ => some testMatchmakerDataOriginal)
    testMatchmakerData testMatchmakerData [123, 125] testMatchmakerDataOriginal
    (fun _ l => List.Perm.refl l) (by decide) (by decide) (by decide) rfl
  ⟨h.1.imp (fun _ hmo => ⟨hmo.1, hmo.2.2.2.2.imp
    (fun _ ho => ⟨ho.1, ho.2.2.1, ho.2.2.2.1, ho.2.2.2.2⟩)⟩), h.2.1⟩

end GameLift
